import Mathlib

/-!
# OTP service: generator, lifecycle engine and SQL repository

A shallow embedding of `internal/usecase`, `internal/repository` and `entity`
of the OTP service, with the properties of the lifecycle engine proved over it.

Conventions of the embedding:

* `time.Time` is an integer count of nanoseconds since the Unix epoch and
  `time.Duration` an integer count of nanoseconds;
* a Go `(T, error)` result is a pair with an `Option GoError` (nil is `none`);
* collaborators reached through an interface (store, generator, clock, SQL
  executor, random source) are state transformers over an external state `σ`;
* every call the lifecycle engine makes on a collaborator is recorded, with its
  response, in the call log of the run.
-/

namespace OtpService

/-! ## Time -/

/-- Instants (`time.Time`), in nanoseconds since the Unix epoch. -/
abbrev Time := Int

/-- Durations (`time.Duration`, an int64 count of nanoseconds). -/
abbrev Duration := Int

/-- The constant `time.Minute`. -/
def Minute : Duration := 60 * 1000000000

/-- Largest `time.Duration`. -/
def maxDuration : Duration := 2 ^ 63 - 1

/-- Smallest `time.Duration`. -/
def minDuration : Duration := -(2 ^ 63)

/-- The zero `time.Time` (January 1, year 1, 00:00:00 UTC), the value of a
`time.Time` field that was never assigned. -/
def zeroTime : Time := -62135596800 * 1000000000

/-- Method `Time.Sub`: the difference `t - u`, saturated to the range of
`time.Duration`. -/
def Time.Sub (t u : Time) : Duration :=
  if t - u > maxDuration then maxDuration
  else if t - u < minDuration then minDuration
  else t - u

/-- Function `time.Since(t)`, evaluated when the clock reads `now`. -/
def Since (now t : Time) : Duration := Time.Sub now t

/-- Method `Time.Add`. -/
def Time.Add (t : Time) (d : Duration) : Time := t + d

/-- Method `Time.After`: `t` is strictly after `u`. -/
def Time.After (t u : Time) : Bool := decide (u < t)

/-! ## Errors (`entity/error.go`) -/

/-- A `DomainError`: a machine-readable code and a message. -/
structure DomainError where
  Code : String
  Message : String
deriving DecidableEq, Repr

/-- Method `DomainError.Error`. -/
def DomainError.Error (e : DomainError) : String := e.Code ++ ": " ++ e.Message

/-- Constructor `NewDomainError`. -/
def NewDomainError (code message : String) : DomainError := ⟨code, message⟩

def ErrInvalidRequest : DomainError :=
  NewDomainError "invalid_request" "Invalid request: Please check the request body and try again"

def ErrOTPExpired : DomainError := NewDomainError "otp_expired" "OTP has expired"

def ErrOTPUsed : DomainError := NewDomainError "otp_used" "OTP has already been used"

def ErrOTPNotFound : DomainError := NewDomainError "otp_not_found" "OTP Not Found"

def ErrOTPDuplicate : DomainError := NewDomainError "duplicate_otp_code" "OTP Code Already Exists"

def ErrOTPRateLimitExceeded : DomainError :=
  NewDomainError "otp_rete_limit_exceeded"
    "OTP requested too frequently, please wait before requesting again"

/-- Error values made outside this module: by `database/sql`, the MySQL driver,
`sqlx`, or the reader behind `crypto/rand`.  Such a value never holds a
`DomainError`, a type this module declares. -/
inductive ExtError where
  /-- The sentinel `sql.ErrNoRows`. -/
  | sqlErrNoRows : ExtError
  /-- A `*mysql.MySQLError` with its `Number` and its text. -/
  | mysqlError (Number : Nat) (text : String) : ExtError
  /-- Any other error value, with its text. -/
  | other (text : String) : ExtError
  /-- An error with text `text` whose `Unwrap` gives `inner`. -/
  | wrapping (text : String) (inner : ExtError) : ExtError
deriving DecidableEq, Repr

/-- Method `Error` of an external error value. -/
def ExtError.Error : ExtError → String
  | .sqlErrNoRows => "sql: no rows in result set"
  | .mysqlError _ text => text
  | .other text => text
  | .wrapping text _ => text

/-- Values of Go's `error` interface met in this module. -/
inductive GoError where
  /-- A `*entity.DomainError`. -/
  | domain (d : DomainError) : GoError
  /-- An error made outside the module. -/
  | ext (e : ExtError) : GoError
  /-- The value of `fmt.Errorf(ctx + ": %w", inner)`. -/
  | wrapf (ctx : String) (inner : GoError) : GoError
deriving DecidableEq, Repr

/-- Method `Error` of an error value. -/
def GoError.Error : GoError → String
  | .domain d => d.Error
  | .ext e => e.Error
  | .wrapf ctx inner => ctx ++ ": " ++ inner.Error

/-- The call `errors.As(err, &domainErr)` with `domainErr` of type
`*entity.DomainError`: the first domain error on the `Unwrap` chain. -/
def GoError.asDomainError : GoError → Option DomainError
  | .domain d => some d
  | .ext _ => none
  | .wrapf _ inner => inner.asDomainError

/-- The value obtained by unwrapping an error once, if any. -/
def GoError.Unwrap : GoError → Option GoError
  | .wrapf _ inner => some inner
  | _ => none

/-! ## Code generator (`internal/usecase/otp_generator.go`) -/

/-- The byte `'0' + d` that `fmt` writes for a digit `d`. -/
def digitByte (d : Nat) : Char := Char.ofNat (48 + d)

/-- The digit loop of `fmt`: writes the decimal digits of `u` in front of `buf`,
last digit first.  `fuel` bounds the number of digits; twenty suffice for
every 64-bit value. -/
def fmtDecimal : Nat → Nat → List Char → List Char
  | 0, u, buf => digitByte (u % 10) :: buf
  | fuel + 1, u, buf =>
    if 10 ≤ u then fmtDecimal fuel (u / 10) (digitByte (u % 10) :: buf)
    else digitByte u :: buf

/-- The call `fmt.Sprintf("%06d", v)` on an int64 `v`: the decimal digits of
the magnitude, zero-padded on the left to width six (the sign counts towards
the width). -/
def Sprintf06d (v : Int) : String :=
  let digits := fmtDecimal 20 v.natAbs []
  let prec := if v < 0 then 5 else 6
  let padded := List.replicate (prec - digits.length) '0' ++ digits
  String.mk (if v < 0 then '-' :: padded else padded)

/-- Method `big.Int.Int64` on a non-negative value: its low 64 bits read as a
signed integer. -/
def bigInt64 (n : Nat) : Int :=
  if n % 2 ^ 64 < 2 ^ 63 then (n % 2 ^ 64 : Nat) else (n % 2 ^ 64 : Nat) - 2 ^ 64

/-- The random source: `rand.Int(rand.Reader, max)` gives a value or fails. -/
structure RandSource (σ : Type) where
  Int : Nat → σ → Except ExtError Nat × σ

/-- Interface `OTPGenerator` (`internal/usecase/usecase.go`). -/
structure OTPGenerator (σ : Type) where
  Generate : σ → (String × Option GoError) × σ

/-- Method `entityOTPGenerator.Generate`. -/
def entityOTPGenerator.Generate {σ : Type} (rand : RandSource σ) (s : σ) :
    (String × Option GoError) × σ :=
  match rand.Int 1000000 s with
  | (.error err, s1) => (("", some (.ext err)), s1)
  | (.ok n, s1) => ((Sprintf06d (bigInt64 n), none), s1)

/-- Constructor `NewOTPGenerator`, over the random source it reads. -/
def NewOTPGenerator {σ : Type} (rand : RandSource σ) : OTPGenerator σ :=
  ⟨entityOTPGenerator.Generate rand⟩

/-- Decimal value of a string of digit characters. -/
def decimalValue (s : String) : Nat :=
  s.data.foldl (fun acc c => 10 * acc + (c.toNat - 48)) 0

/-! ## Entity (`entity/otp.go`) -/

/-- Type `OTPStatus`, an int8. -/
abbrev OTPStatus := Int

/-- The OTP has been generated but not yet validated. -/
def OTPStatusCreated : OTPStatus := 1

/-- The OTP has been successfully validated. -/
def OTPStatusValidated : OTPStatus := 2

/-- The OTP has expired and can no longer be used. -/
def OTPStatusExpired : OTPStatus := 3

/-- A one-time password record.  `ValidatedAt` is a nullable pointer. -/
structure OTP where
  ID : Nat
  UserID : String
  OTPCode : String
  Status : OTPStatus
  CreatedAt : Time
  ExpiresAt : Time
  ValidatedAt : Option Time
deriving DecidableEq, Repr

/-! ## Repository (`internal/repository`) -/

/-- A row of table `otps` as scanned by `sqlx`; `Status` is a Go `int`. -/
structure otpRow where
  ID : Nat
  UserID : String
  OTPCode : String
  Status : Int
  CreatedAt : Time
  ExpiresAt : Time
  ValidatedAt : Option Time
deriving DecidableEq, Repr

/-- Conversion of an `int` to `int8`: the low eight bits, read as signed. -/
def toInt8 (x : Int) : Int := (x + 128) % 256 - 128

/-- Method `otpRow.ToEntity`. -/
def otpRow.ToEntity (r : otpRow) : OTP :=
  { ID := r.ID
    UserID := r.UserID
    OTPCode := r.OTPCode
    Status := toInt8 r.Status
    CreatedAt := r.CreatedAt
    ExpiresAt := r.ExpiresAt
    ValidatedAt := r.ValidatedAt }

/-- The executor returned by `getExecutor(ctx, db)`, one operation for each of
the four statements the repository runs on table `otps`.  `ExecContext` gives
an error or none; `GetContext` gives the scanned row or an error. -/
structure SQLExecutor (σ : Type) where
  /-- Statement `INSERT INTO otps (user_id, otp_code, status, expires_at) VALUES (?, ?, ?, ?)` -/
  ExecInsert : String → String → OTPStatus → Time → σ → Option ExtError × σ
  /-- Statement `UPDATE otps SET status = ?, validated_at = ? WHERE id = ?` -/
  ExecUpdate : OTPStatus → Option Time → Nat → σ → Option ExtError × σ
  /-- Query `SELECT ... FROM otps WHERE user_id = ? AND otp_code = ?` -/
  GetByUserIDAndCode : String → String → σ → Except ExtError otpRow × σ
  /-- Query `SELECT ... FROM otps WHERE user_id = ? ORDER BY created_at DESC LIMIT 1` -/
  GetLastByUserID : String → σ → Except ExtError otpRow × σ

/-- The call `errors.As(err, &mysqlErr)` on an external error: the number of
the first `*mysql.MySQLError` on the `Unwrap` chain. -/
def ExtError.asMySQLError : ExtError → Option Nat
  | .mysqlError number _ => some number
  | .wrapping _ inner => inner.asMySQLError
  | _ => none

/-- The call `errors.As(err, &mysqlErr)` with `mysqlErr` of type
`*mysql.MySQLError`. -/
def GoError.asMySQLError : GoError → Option Nat
  | .domain _ => none
  | .ext e => e.asMySQLError
  | .wrapf _ inner => inner.asMySQLError

/-- Function `isUniqueConstraintViolation`: the error is a MySQL error with
number 1062 (`ER_DUP_ENTRY`). -/
def isUniqueConstraintViolation (err : GoError) : Bool :=
  match err.asMySQLError with
  | some number => number == 1062
  | none => false

/-- Interface `OTPRepository` (`internal/usecase/repository.go`).  The
repository reads the record it is given and never writes through the pointer,
so records are passed by value. -/
structure OTPRepository (σ : Type) where
  Create : OTP → σ → Option GoError × σ
  FindByUserIDAndCode : String → String → σ → (Option OTP × Option GoError) × σ
  Update : OTP → σ → Option GoError × σ
  GetLastByUserID : String → σ → (Option OTP × Option GoError) × σ

/-- Method `otpRepository.Create`. -/
def otpRepository.Create {σ : Type} (db : SQLExecutor σ) (otp : OTP) (s : σ) :
    Option GoError × σ :=
  match db.ExecInsert otp.UserID otp.OTPCode otp.Status otp.ExpiresAt s with
  | (some err, s1) =>
    if isUniqueConstraintViolation (.ext err) then (some (.domain ErrOTPDuplicate), s1)
    else (some (.ext err), s1)
  | (none, s1) => (none, s1)

/-- Method `otpRepository.FindByUserIDAndCode`. -/
def otpRepository.FindByUserIDAndCode {σ : Type} (db : SQLExecutor σ)
    (userID otpCode : String) (s : σ) : (Option OTP × Option GoError) × σ :=
  match db.GetByUserIDAndCode userID otpCode s with
  | (.error err, s1) =>
    if err = .sqlErrNoRows then ((none, some (.domain ErrOTPNotFound)), s1)
    else ((none, some (.ext err)), s1)
  | (.ok row, s1) => ((some row.ToEntity, none), s1)

/-- Method `otpRepository.Update`. -/
def otpRepository.Update {σ : Type} (db : SQLExecutor σ) (otp : OTP) (s : σ) :
    Option GoError × σ :=
  match db.ExecUpdate otp.Status otp.ValidatedAt otp.ID s with
  | (some err, s1) => (some (.ext err), s1)
  | (none, s1) => (none, s1)

/-- Method `otpRepository.GetLastByUserID`. -/
def otpRepository.GetLastByUserID {σ : Type} (db : SQLExecutor σ) (userID : String) (s : σ) :
    (Option OTP × Option GoError) × σ :=
  match db.GetLastByUserID userID s with
  | (.error err, s1) =>
    if err = .sqlErrNoRows then ((none, some (.domain ErrOTPNotFound)), s1)
    else ((none, some (.ext err)), s1)
  | (.ok row, s1) => ((some row.ToEntity, none), s1)

/-- Constructor `NewOTPRepository`. -/
def NewOTPRepository {σ : Type} (db : SQLExecutor σ) : OTPRepository σ :=
  { Create := otpRepository.Create db
    FindByUserIDAndCode := otpRepository.FindByUserIDAndCode db
    Update := otpRepository.Update db
    GetLastByUserID := otpRepository.GetLastByUserID db }

/-! ## Lifecycle engine (`internal/usecase/otp.go`) -/

def otpValidityDuration : Duration := 2 * Minute

def otpRateLimitWindow : Duration := 2 * Minute

/-- A call made by the lifecycle engine on a collaborator, with the response
it got. -/
inductive Event where
  | GetLastByUserID (userID : String) (otp : Option OTP) (err : Option GoError) : Event
  | Generate (code : String) (err : Option GoError) : Event
  | Create (otp : OTP) (err : Option GoError) : Event
  | FindByUserIDAndCode (userID otpCode : String) (otp : Option OTP)
      (err : Option GoError) : Event
  | Update (otp : OTP) (err : Option GoError) : Event
  | Now (t : Time) : Event
deriving DecidableEq, Repr

/-- The external state together with the calls made so far in a run. -/
structure World (σ : Type) where
  ext : σ
  log : List Event

/-- Struct `otpUsecase`, with the process clock read by `time.Now` and
`time.Since`. -/
structure otpUsecase (σ : Type) where
  otpRepo : OTPRepository σ
  otpGenerator : OTPGenerator σ
  timeNow : σ → Time × σ

/-- Constructor `NewOtpUsecase`. -/
def NewOtpUsecase {σ : Type} (otpRepo : OTPRepository σ) (otpGenerator : OTPGenerator σ)
    (timeNow : σ → Time × σ) : otpUsecase σ :=
  { otpRepo := otpRepo, otpGenerator := otpGenerator, timeNow := timeNow }

/-- The engine as `config.NewRestAPI` wires it: the SQL repository and the
generator over `crypto/rand`. -/
def NewRestAPIUsecase {σ : Type} (db : SQLExecutor σ) (rand : RandSource σ)
    (timeNow : σ → Time × σ) : otpUsecase σ :=
  NewOtpUsecase (NewOTPRepository db) (NewOTPGenerator rand) timeNow

/-- What a call of the engine gives back: a returned pair, or a nil-pointer
dereference. -/
inductive Outcome where
  | returned (otp : Option OTP) (err : Option GoError) : Outcome
  | nilDereference : Outcome
deriving DecidableEq, Repr

namespace otpUsecase

/-- A read of the clock (`time.Now()`). -/
def callNow {σ : Type} (o : otpUsecase σ) (w : World σ) : Time × World σ :=
  let r := o.timeNow w.ext
  (r.1, ⟨r.2, w.log ++ [Event.Now r.1]⟩)

/-- The call `o.otpRepo.GetLastByUserID(ctx, userID)`. -/
def callGetLastByUserID {σ : Type} (o : otpUsecase σ) (userID : String) (w : World σ) :
    (Option OTP × Option GoError) × World σ :=
  let r := o.otpRepo.GetLastByUserID userID w.ext
  (r.1, ⟨r.2, w.log ++ [Event.GetLastByUserID userID r.1.1 r.1.2]⟩)

/-- The call `o.otpGenerator.Generate()`. -/
def callGenerate {σ : Type} (o : otpUsecase σ) (w : World σ) : (String × Option GoError) × World σ :=
  let r := o.otpGenerator.Generate w.ext
  (r.1, ⟨r.2, w.log ++ [Event.Generate r.1.1 r.1.2]⟩)

/-- The call `o.otpRepo.Create(ctx, otp)`. -/
def callCreate {σ : Type} (o : otpUsecase σ) (otp : OTP) (w : World σ) : Option GoError × World σ :=
  let r := o.otpRepo.Create otp w.ext
  (r.1, ⟨r.2, w.log ++ [Event.Create otp r.1]⟩)

/-- The call `o.otpRepo.FindByUserIDAndCode(ctx, userID, otpCode)`. -/
def callFindByUserIDAndCode {σ : Type} (o : otpUsecase σ) (userID otpCode : String) (w : World σ) :
    (Option OTP × Option GoError) × World σ :=
  let r := o.otpRepo.FindByUserIDAndCode userID otpCode w.ext
  (r.1, ⟨r.2, w.log ++ [Event.FindByUserIDAndCode userID otpCode r.1.1 r.1.2]⟩)

/-- The call `o.otpRepo.Update(ctx, otp)`. -/
def callUpdate {σ : Type} (o : otpUsecase σ) (otp : OTP) (w : World σ) : Option GoError × World σ :=
  let r := o.otpRepo.Update otp w.ext
  (r.1, ⟨r.2, w.log ++ [Event.Update otp r.1]⟩)

/-- The block `// Check rate limiting` at the head of `Create`: the lookup of
the user's last record, whose error is dropped, and the test that a record is
present, is in status `Created`, and is younger than the rate-limit window.
The clock is read only when the first two hold. -/
def checkRateLimit {σ : Type} (o : otpUsecase σ) (userID : String) (w : World σ) : Bool × World σ :=
  let last := o.callGetLastByUserID userID w
  match last.1.1 with
  | some lastOTP =>
    if lastOTP.Status = OTPStatusCreated then
      let n := o.callNow last.2
      (decide (Since n.1 lastOTP.CreatedAt < otpRateLimitWindow), n.2)
    else (false, last.2)
  | none => (false, last.2)

/-- The record `Create` builds for `userID` from the generated `code` when the
clock reads `now`; `ID`, `CreatedAt` and `ValidatedAt` are left at their zero
values. -/
def newRecord (userID code : String) (now : Time) : OTP :=
  { ID := 0
    UserID := userID
    OTPCode := code
    Status := OTPStatusCreated
    CreatedAt := zeroTime
    ExpiresAt := Time.Add now (2 * Minute)
    ValidatedAt := none }

/-- Method `otpUsecase.Create`, run from external state `s`. -/
def Create {σ : Type} (o : otpUsecase σ) (userID : String) (s : σ) :
    (Option OTP × Option GoError) × World σ :=
  let limited := o.checkRateLimit userID ⟨s, []⟩
  if limited.1 then ((none, some (.domain ErrOTPRateLimitExceeded)), limited.2)
  else
    let gen := o.callGenerate limited.2
    match gen.1.2 with
    | some err => ((none, some (.wrapf "failed to generate OTP code" err)), gen.2)
    | none =>
      let n := o.callNow gen.2
      let otp := newRecord userID gen.1.1 n.1
      let created := o.callCreate otp n.2
      match created.1 with
      | some err => ((none, some err), created.2)
      | none => ((some otp, none), created.2)

/-- Method `otpUsecase.validateOTPStatus`; the record is returned as the
method leaves it. -/
def validateOTPStatus {σ : Type} (o : otpUsecase σ) (otp : OTP) (w : World σ) :
    (Option GoError × OTP) × World σ :=
  let n := o.callNow w
  if otp.Status = OTPStatusValidated then ((some (.domain ErrOTPUsed), otp), n.2)
  else if Time.After n.1 otp.ExpiresAt then
    if otp.Status ≠ OTPStatusExpired then
      let otp1 : OTP := { otp with Status := OTPStatusExpired }
      let u := o.callUpdate otp1 n.2
      match u.1 with
      | some err => ((some err, otp1), u.2)
      | none => ((some (.domain ErrOTPExpired), otp1), u.2)
    else ((some (.domain ErrOTPExpired), otp), n.2)
  else ((none, otp), n.2)

/-- Method `otpUsecase.markOTPAsValidated`; the record is returned as the
method leaves it. -/
def markOTPAsValidated {σ : Type} (o : otpUsecase σ) (otp : OTP) (w : World σ) :
    (Option GoError × OTP) × World σ :=
  let n := o.callNow w
  let otp1 : OTP := { otp with Status := OTPStatusValidated, ValidatedAt := some n.1 }
  let u := o.callUpdate otp1 n.2
  ((u.1, otp1), u.2)

/-- Method `otpUsecase.Validate`, run from external state `s`.  A lookup that
gives neither a record nor an error makes `validateOTPStatus` dereference nil,
after its read of the clock. -/
def Validate {σ : Type} (o : otpUsecase σ) (userID otpCode : String) (s : σ) : Outcome × World σ :=
  let found := o.callFindByUserIDAndCode userID otpCode ⟨s, []⟩
  match found.1.2 with
  | some err => (.returned none (some err), found.2)
  | none =>
    match found.1.1 with
    | none => (.nilDereference, (o.callNow found.2).2)
    | some otp =>
      let checked := o.validateOTPStatus otp found.2
      match checked.1.1 with
      | some err => (.returned none (some err), checked.2)
      | none =>
        let marked := o.markOTPAsValidated checked.1.2 checked.2
        match marked.1.1 with
        | some err => (.returned none (some (.wrapf "failed to update OTP status" err)), marked.2)
        | none => (.returned (some marked.1.2) none, marked.2)

end otpUsecase

/-! ## Error middleware (`internal/handler/middleware/middleware.go`) -/

/-- The chain of an error: the error itself, then what `Unwrap` gives, and so
on.  A domain error has no `Unwrap` and ends its chain. -/
def GoError.chain : GoError → List GoError
  | .domain d => [.domain d]
  | .ext e => [.ext e]
  | .wrapf ctx inner => .wrapf ctx inner :: inner.chain

/-- Modelled from the spec: type `generated.ErrorResponse` is not among the
sources; it has the two fields the middleware fills, which its tests read back
under the JSON names `error` and `error_description`. -/
structure ErrorResponse where
  Error : String
  ErrorDescription : String
deriving DecidableEq, Repr

/-- What has been written on an HTTP response. -/
inductive ResponseBody where
  /-- Nothing written yet. -/
  | empty : ResponseBody
  /-- Bytes written by an earlier handler. -/
  | raw (text : String) : ResponseBody
  /-- A JSON document written by `ctx.JSON`. -/
  | json (v : ErrorResponse) : ResponseBody
deriving DecidableEq, Repr

/-- The response held by an `echo.Context`: whether it is committed, its
status code and its body. -/
structure Response where
  Committed : Bool
  Status : Nat
  Body : ResponseBody
deriving DecidableEq, Repr

def StatusOK : Nat := 200

def StatusBadRequest : Nat := 400

def StatusNotFound : Nat := 404

def StatusInternalServerError : Nat := 500

/-- Method `ctx.JSON(code, v)`: writes the status code and the document and
commits the response. -/
def Response.JSON (_ : Response) (code : Nat) (v : ErrorResponse) : Response :=
  { Committed := true, Status := code, Body := .json v }

/-- Function `middleware.ErrorHandler`, as a transformer of the response. -/
def ErrorHandler (err : GoError) (resp : Response) : Response :=
  if resp.Committed then resp
  else
    match err.asDomainError with
    | some domainErr =>
      let httpStatus :=
        if domainErr.Code = ErrOTPNotFound.Code then StatusNotFound else StatusBadRequest
      resp.JSON httpStatus { Error := domainErr.Code, ErrorDescription := domainErr.Message }
    | none =>
      resp.JSON StatusInternalServerError
        { Error := "INTERNAL_SERVER_ERROR"
          ErrorDescription := "Something went wrong! Please try again later" }

/-- A fresh, uncommitted response. -/
def freshResponse : Response := { Committed := false, Status := StatusOK, Body := .empty }

/-! ## In-memory table

The database behind the SQL executor, for the properties that speak of the
records in the store. -/

/-- Modelled from the spec: the schema of table `otps` and the database engine
are not among the sources.  The table is the list of its rows in insertion
order, with the next surrogate identifier to assign. -/
structure Table where
  rows : List otpRow
  nextID : Nat
deriving DecidableEq, Repr

/-- The empty table. -/
def Table.empty : Table := { rows := [], nextID := 1 }

/-- The state outside the service: the table and the state `env` of everything
else (clocks, random source, connection). -/
structure Sys (ω : Type) where
  table : Table
  env : ω

/-- The surroundings of the service, as transformers of their own state: the
process clock, the clock of the database, the random source, and whether the
next statement sent to the database fails before it runs (lost connection,
cancelled context). -/
structure Env (ω : Type) where
  now : ω → Time × ω
  dbNow : ω → Time × ω
  randInt : Nat → ω → Except ExtError Nat × ω
  fault : ω → Option ExtError × ω

/-- The row of a user that `ORDER BY created_at DESC LIMIT 1` selects: one of
greatest `CreatedAt`, the latest inserted among equals. -/
def lastCreated (rows : List otpRow) : Option otpRow :=
  rows.foldl
    (fun best r =>
      match best with
      | none => some r
      | some b => if b.CreatedAt ≤ r.CreatedAt then some r else some b)
    none

/-- Modelled from the spec: the table after a row is inserted: the row is
appended with the next identifier and with `validated_at` null. -/
def Table.insert (t : Table) (userID otpCode : String) (status : OTPStatus)
    (createdAt expiresAt : Time) : Table :=
  { rows := t.rows ++
      [{ ID := t.nextID
         UserID := userID
         OTPCode := otpCode
         Status := status
         CreatedAt := createdAt
         ExpiresAt := expiresAt
         ValidatedAt := none }]
    nextID := t.nextID + 1 }

/-- Modelled from the spec: the table after `status` and `validated_at` are
set on every row with identifier `id`; no other column or row changes. -/
def Table.setStatus (t : Table) (status : OTPStatus) (validatedAt : Option Time)
    (id : Nat) : Table :=
  { rows := t.rows.map
      (fun r => if r.ID = id then { r with Status := status, ValidatedAt := validatedAt }
        else r)
    nextID := t.nextID }

/-- Modelled from the spec: the statement `INSERT INTO otps (user_id, otp_code,
status, expires_at)` on the table.  A row with the same `(user_id, otp_code)`
makes it fail with MySQL error 1062; otherwise the row is inserted with
`created_at` read from the clock of the database. -/
def memInsert {ω : Type} (E : Env ω) (userID otpCode : String) (status : OTPStatus)
    (expiresAt : Time) (s : Sys ω) : Option ExtError × Sys ω :=
  match (E.fault s.env).1 with
  | some err => (some err, { s with env := (E.fault s.env).2 })
  | none =>
    if s.table.rows.any (fun r => decide (r.UserID = userID ∧ r.OTPCode = otpCode)) then
      (some (.mysqlError 1062 "Duplicate entry"), { s with env := (E.fault s.env).2 })
    else
      (none,
        { table := s.table.insert userID otpCode status (E.dbNow (E.fault s.env).2).1 expiresAt
          env := (E.dbNow (E.fault s.env).2).2 })

/-- Modelled from the spec: the statement `UPDATE otps SET status = ?,
validated_at = ? WHERE id = ?` on the table. -/
def memUpdate {ω : Type} (E : Env ω) (status : OTPStatus) (validatedAt : Option Time)
    (id : Nat) (s : Sys ω) : Option ExtError × Sys ω :=
  match (E.fault s.env).1 with
  | some err => (some err, { s with env := (E.fault s.env).2 })
  | none =>
    (none, { table := s.table.setStatus status validatedAt id, env := (E.fault s.env).2 })

/-- Modelled from the spec: the query by `(user_id, otp_code)`: the first
matching row, or `sql.ErrNoRows`. -/
def memGetByUserIDAndCode {ω : Type} (E : Env ω) (userID otpCode : String) (s : Sys ω) :
    Except ExtError otpRow × Sys ω :=
  match (E.fault s.env).1 with
  | some err => (.error err, { s with env := (E.fault s.env).2 })
  | none =>
    match s.table.rows.find? (fun r => decide (r.UserID = userID ∧ r.OTPCode = otpCode)) with
    | some row => (.ok row, { s with env := (E.fault s.env).2 })
    | none => (.error .sqlErrNoRows, { s with env := (E.fault s.env).2 })

/-- Modelled from the spec: the query for the most recent row of a user, or
`sql.ErrNoRows`. -/
def memGetLastByUserID {ω : Type} (E : Env ω) (userID : String) (s : Sys ω) :
    Except ExtError otpRow × Sys ω :=
  match (E.fault s.env).1 with
  | some err => (.error err, { s with env := (E.fault s.env).2 })
  | none =>
    match lastCreated (s.table.rows.filter (fun r => decide (r.UserID = userID))) with
    | some row => (.ok row, { s with env := (E.fault s.env).2 })
    | none => (.error .sqlErrNoRows, { s with env := (E.fault s.env).2 })

/-- A row is consistent when its status is one of the three statuses and its
`validated_at` is set exactly when the status is `Validated`. -/
def otpRow.Consistent (r : otpRow) : Prop :=
  (r.Status = OTPStatusCreated ∨ r.Status = OTPStatusValidated ∨ r.Status = OTPStatusExpired) ∧
  (r.ValidatedAt ≠ none ↔ r.Status = OTPStatusValidated)

/-- The columns of a row that are fixed when it is inserted. -/
def otpRow.fixedColumns (r : otpRow) : Nat × String × String × Time × Time :=
  (r.ID, r.UserID, r.OTPCode, r.CreatedAt, r.ExpiresAt)

/-- The SQL executor over the in-memory table. -/
def memDB {ω : Type} (E : Env ω) : SQLExecutor (Sys ω) :=
  { ExecInsert := memInsert E
    ExecUpdate := memUpdate E
    GetByUserIDAndCode := memGetByUserIDAndCode E
    GetLastByUserID := memGetLastByUserID E }

/-- The process clock, on the whole state. -/
def memNow {ω : Type} (E : Env ω) (s : Sys ω) : Time × Sys ω :=
  ((E.now s.env).1, { s with env := (E.now s.env).2 })

/-- The random source, on the whole state. -/
def memRand {ω : Type} (E : Env ω) : RandSource (Sys ω) :=
  ⟨fun max s => ((E.randInt max s.env).1, { s with env := (E.randInt max s.env).2 })⟩

/-- The engine as the service wires it, over the in-memory table. -/
def memUsecase {ω : Type} (E : Env ω) : otpUsecase (Sys ω) :=
  NewRestAPIUsecase (memDB E) (memRand E) (memNow E)

/-- The states reached from the empty table by calls of the engine's `Create`
and `Validate`, successful or not, in any surroundings. -/
inductive Reachable {ω : Type} (E : Env ω) : Sys ω → Prop where
  | init (env : ω) : Reachable E { table := Table.empty, env := env }
  | create (s : Sys ω) (userID : String) :
      Reachable E s → Reachable E ((memUsecase E).Create userID s).2.ext
  | validate (s : Sys ω) (userID otpCode : String) :
      Reachable E s → Reachable E ((memUsecase E).Validate userID otpCode s).2.ext

/-- The states reached from state `s` by further calls of the engine's
`Create` and `Validate`, successful or not, in any surroundings. -/
inductive ReachableFrom {ω : Type} (E : Env ω) (s : Sys ω) : Sys ω → Prop where
  | refl : ReachableFrom E s s
  | create (s1 : Sys ω) (userID : String) :
      ReachableFrom E s s1 → ReachableFrom E s ((memUsecase E).Create userID s1).2.ext
  | validate (s1 : Sys ω) (userID otpCode : String) :
      ReachableFrom E s s1 → ReachableFrom E s ((memUsecase E).Validate userID otpCode s1).2.ext

/-- The table keeps record `r`: its identifier has been assigned, a row has
it, and every row that has it reads as `r`. -/
def Table.Keeps (r : OTP) (t : Table) : Prop :=
  r.ID < t.nextID ∧ (∃ row ∈ t.rows, row.ID = r.ID) ∧
  ∀ row ∈ t.rows, row.ID = r.ID → row.ToEntity = r

/-- Surroundings whose clocks read the successive entries of `readings` (the
last one again once they are used up), whose random source always draws
`draw`, and whose database never fails.  The state counts the readings. -/
def scriptedEnv (readings : List Time) (draw : Nat) : Env Nat :=
  { now := fun n => (readings.getD n (readings.getLastD 0), n + 1)
    dbNow := fun n => (readings.getD n (readings.getLastD 0), n + 1)
    randInt := fun _ n => (.ok draw, n)
    fault := fun n => (none, n) }

/-! ## Error chains of the driver -/

/-- The chain of an external error: the error itself, then what `Unwrap`
gives, and so on.  A `*mysql.MySQLError` and `sql.ErrNoRows` have no `Unwrap`
and end their chain. -/
def ExtError.chain : ExtError → List ExtError
  | .sqlErrNoRows => [.sqlErrNoRows]
  | .mysqlError number text => [.mysqlError number text]
  | .other text => [.other text]
  | .wrapping text inner => .wrapping text inner :: inner.chain

/-! ## Transaction manager (`internal/repository/transaction_manager.go`) -/

/-- The transaction operations of `*sqlx.DB` and `*sqlx.Tx` that
`WithTransaction` uses; the transaction handle is part of the state. -/
structure TxDB (σ : Type) where
  BeginTxx : σ → Option ExtError × σ
  Commit : σ → Option ExtError × σ
  Rollback : σ → Option ExtError × σ

/-- A step of `WithTransaction`, with the error it gave. -/
inductive TxEvent where
  | Begin (err : Option ExtError) : TxEvent
  | Run (err : Option GoError) : TxEvent
  | Commit (err : Option ExtError) : TxEvent
  | Rollback (err : Option ExtError) : TxEvent
deriving DecidableEq, Repr

/-- Whether a step is a commit. -/
def TxEvent.isCommit : TxEvent → Bool
  | .Commit _ => true
  | _ => false

/-- Whether a step is a run of the function. -/
def TxEvent.isRun : TxEvent → Bool
  | .Run _ => true
  | _ => false

/-- Whether a step is a rollback. -/
def TxEvent.isRollback : TxEvent → Bool
  | .Rollback _ => true
  | _ => false

/-- Method `transactionManager.WithTransaction`: the error returned, the state
left, and the steps taken.  The function `fn` runs with the transaction in its
context; the deferred `tx.Rollback()` runs on every path after a successful
begin, its result dropped. -/
def transactionManager.WithTransaction {σ : Type} (db : TxDB σ)
    (fn : σ → Option GoError × σ) (s : σ) : Option GoError × σ × List TxEvent :=
  let b := db.BeginTxx s
  match b.1 with
  | some err => (some (.ext err), b.2, [TxEvent.Begin (some err)])
  | none =>
    let f := fn b.2
    match f.1 with
    | some err =>
      let r := db.Rollback f.2
      (some err, r.2, [TxEvent.Begin none, TxEvent.Run (some err), TxEvent.Rollback r.1])
    | none =>
      let c := db.Commit f.2
      let r := db.Rollback c.2
      (c.1.map GoError.ext, r.2,
        [TxEvent.Begin none, TxEvent.Run none, TxEvent.Commit c.1, TxEvent.Rollback r.1])

/-- Transaction operations that always succeed and count the calls made. -/
def countingTxDB : TxDB Nat :=
  { BeginTxx := fun n => (none, n + 1)
    Commit := fun n => (none, n + 1)
    Rollback := fun n => (none, n + 1) }

/-! ## HTTP handlers (`internal/handler/otp.go`) -/

/-- Modelled from the spec: type `generated.PostOtpValidateJSONRequestBody` is
not among the sources; it has the two fields the handler reads. -/
structure PostOtpValidateJSONRequestBody where
  UserId : String
  Otp : String
deriving DecidableEq, Repr

/-- Modelled from the spec: type `generated.PostOtpRequestJSONRequestBody` is
not among the sources; it has the field the handler reads. -/
structure PostOtpRequestJSONRequestBody where
  UserId : String
deriving DecidableEq, Repr

/-- The value a handler passes to `ctx.JSON`. -/
inductive HandlerBody where
  /-- An error value. -/
  | error (err : GoError) : HandlerBody
  /-- A `generated.RequestOtpResponseSuccess`. -/
  | requested (UserId Otp : String) : HandlerBody
  /-- A `generated.ValidateOtpResponseSuccess`. -/
  | validated (UserId Message : String) : HandlerBody
deriving DecidableEq, Repr

/-- What a handler does: it ends with `return eCtx.JSON(code, body)`, so it
answers with that status and body and returns what `ctx.JSON` returns; or it
dereferences nil. -/
inductive HandlerOutcome where
  | responded (code : Nat) (body : HandlerBody) (returned : Option GoError) : HandlerOutcome
  | nilDereference : HandlerOutcome
deriving DecidableEq, Repr

/-- Interface `OTPUsecase` (`internal/handler/usecase.go`). -/
structure OTPUsecase (σ : Type) where
  Create : String → σ → (Option OTP × Option GoError) × σ
  Validate : String → String → σ → (Option OTP × Option GoError) × σ

/-- Method `RestAPIServer.PostOtpRequest`.  `bind` is what `eCtx.Bind(req)`
gives, `written` what `ctx.JSON` returns once it has written the response. -/
def RestAPIServer.PostOtpRequest {σ : Type} (u : OTPUsecase σ)
    (bind : Except GoError PostOtpRequestJSONRequestBody) (written : Option GoError) (s : σ) :
    HandlerOutcome × σ :=
  match bind with
  | .error _ =>
    (.responded StatusBadRequest (.error (.domain ErrInvalidRequest)) written, s)
  | .ok req =>
    let r := u.Create req.UserId s
    match r.1.2 with
    | some err => (.responded StatusBadRequest (.error err) written, r.2)
    | none =>
      match r.1.1 with
      | none => (.nilDereference, r.2)
      | some otp => (.responded StatusOK (.requested otp.UserID otp.OTPCode) written, r.2)

/-- Method `RestAPIServer.PostOtpValidate`.  `bind` is what `eCtx.Bind(req)`
gives, `written` what `ctx.JSON` returns once it has written the response. -/
def RestAPIServer.PostOtpValidate {σ : Type} (u : OTPUsecase σ)
    (bind : Except GoError PostOtpValidateJSONRequestBody) (written : Option GoError) (s : σ) :
    HandlerOutcome × σ :=
  match bind with
  | .error _ =>
    (.responded StatusBadRequest (.error (.domain ErrInvalidRequest)) written, s)
  | .ok req =>
    let r := u.Validate req.UserId req.Otp s
    match r.1.2 with
    | some err => (.responded StatusBadRequest (.error err) written, r.2)
    | none =>
      match r.1.1 with
      | none => (.nilDereference, r.2)
      | some otp =>
        (.responded StatusOK (.validated otp.UserID "OTP Validated successfully") written, r.2)

/-- A handler usecase with fixed responses. -/
def stubOTPUsecase (created validated : Option OTP × Option GoError) : OTPUsecase Unit :=
  { Create := fun _ s => (created, s)
    Validate := fun _ _ s => (validated, s) }

/-! ## Clocks and concurrent requests on the in-memory table -/

/-- The process clock never runs backwards: `floor` gives, in every state of
the surroundings, an instant that no later reading of the process clock
precedes; a reading raises it to at least the instant read, and nothing
lowers it. -/
structure Env.NonDecreasing {ω : Type} (E : Env ω) (floor : ω → Time) : Prop where
  now_ge : ∀ e, floor e ≤ (E.now e).1
  now_floor : ∀ e, (E.now e).1 ≤ floor (E.now e).2
  dbNow_floor : ∀ e, floor e ≤ floor (E.dbNow e).2
  rand_floor : ∀ max e, floor e ≤ floor (E.randInt max e).2
  fault_floor : ∀ e, floor e ≤ floor (E.fault e).2

/-- The rows carry distinct identifiers below the next one to assign, and every
row in status `Expired` has its `ExpiresAt` strictly before `floor`, hence
before every reading the process clock can still give. -/
def Sys.ExpiredArePast {ω : Type} (floor : ω → Time) (s : Sys ω) : Prop :=
  (∀ row ∈ s.table.rows, row.ID < s.table.nextID) ∧
  (s.table.rows.map (fun row => row.ID)).Nodup ∧
  (∀ row ∈ s.table.rows, row.Status = OTPStatusExpired → row.ExpiresAt < floor s.env)

/-- Surroundings whose state is the instant the process clock reads next; each
reading moves it on by `step`, and the clock of the database shows the instant
last read.  The random source always draws `draw` and the database never
fails. -/
def tickingEnv (step : Duration) (draw : Nat) : Env Time :=
  { now := fun t => (t, t + step)
    dbNow := fun t => (t - step, t)
    randInt := fun _ t => (.ok draw, t)
    fault := fun t => (none, t) }

/-- The store as a request sees it when a second request for `(userID,
otpCode)` is served in full right after the first request's lookup has
returned: the lookup is followed by the whole `Validate` of the second
request, whose outcome is kept in the state.  All other operations are those
of the SQL store. -/
def overtakenRepository {ω : Type} (E : Env ω) (userID otpCode : String) :
    OTPRepository (Sys ω × List Outcome) :=
  { Create := fun otp s =>
      (((NewOTPRepository (memDB E)).Create otp s.1).1,
        (((NewOTPRepository (memDB E)).Create otp s.1).2, s.2))
    FindByUserIDAndCode := fun u c s =>
      (((NewOTPRepository (memDB E)).FindByUserIDAndCode u c s.1).1,
        (((memUsecase E).Validate userID otpCode
            ((NewOTPRepository (memDB E)).FindByUserIDAndCode u c s.1).2).2.ext,
          s.2 ++ [((memUsecase E).Validate userID otpCode
            ((NewOTPRepository (memDB E)).FindByUserIDAndCode u c s.1).2).1]))
    Update := fun otp s =>
      (((NewOTPRepository (memDB E)).Update otp s.1).1,
        (((NewOTPRepository (memDB E)).Update otp s.1).2, s.2))
    GetLastByUserID := fun u s =>
      (((NewOTPRepository (memDB E)).GetLastByUserID u s.1).1,
        (((NewOTPRepository (memDB E)).GetLastByUserID u s.1).2, s.2)) }

/-- The engine of the first request in that schedule. -/
def overtakenUsecase {ω : Type} (E : Env ω) (userID otpCode : String) :
    otpUsecase (Sys ω × List Outcome) :=
  NewOtpUsecase (overtakenRepository E userID otpCode)
    ⟨fun s => (((NewOTPGenerator (memRand E)).Generate s.1).1,
      (((NewOTPGenerator (memRand E)).Generate s.1).2, s.2))⟩
    (fun s => ((memNow E s.1).1, ((memNow E s.1).2, s.2)))

/-! ## Scripted collaborators

Collaborators that answer every call with a fixed response, in the manner of
the mocks of the test suites.  They serve as concrete instances. -/

/-- A random source that always draws `n`. -/
def constRand (n : Nat) : RandSource Unit := ⟨fun _ s => (.ok n, s)⟩

/-- A random source that always fails with `err`. -/
def failingRand (err : ExtError) : RandSource Unit := ⟨fun _ s => (.error err, s)⟩

/-- A store with fixed responses. -/
def stubRepository (last found : Option OTP × Option GoError)
    (createErr updateErr : Option GoError) : OTPRepository Unit :=
  { Create := fun _ s => (createErr, s)
    FindByUserIDAndCode := fun _ _ s => (found, s)
    Update := fun _ s => (updateErr, s)
    GetLastByUserID := fun _ s => (last, s) }

/-- A generator with a fixed response. -/
def stubGenerator (code : String) (err : Option GoError) : OTPGenerator Unit :=
  ⟨fun s => ((code, err), s)⟩

/-- An SQL executor with fixed responses. -/
def stubDB (last found : Except ExtError otpRow) (insertErr updateErr : Option ExtError) :
    SQLExecutor Unit :=
  { ExecInsert := fun _ _ _ _ s => (insertErr, s)
    ExecUpdate := fun _ _ _ s => (updateErr, s)
    GetByUserIDAndCode := fun _ _ s => (found, s)
    GetLastByUserID := fun _ s => (last, s) }

/-- A clock that always reads `t`. -/
def fixedClock (t : Time) : Unit → Time × Unit := fun s => (t, s)

/-- An instant used in the concrete instances: 1,700,000,000 s after the epoch. -/
def sampleNow : Time := 1700000000 * 1000000000

/-- The constant `time.Second`. -/
def Second : Duration := 1000000000

/-- A record in status `Created`, made 119 s before `sampleNow`, whose
`ExpiresAt` has already passed at `sampleNow`. -/
def recentExpiredOTP : OTP :=
  { ID := 7
    UserID := "alice"
    OTPCode := "654321"
    Status := OTPStatusCreated
    CreatedAt := sampleNow - 119 * Second
    ExpiresAt := sampleNow - 1
    ValidatedAt := none }

/-- A row in status `Created` made exactly two minutes before `sampleNow`. -/
def twoMinuteOldRow : otpRow :=
  { ID := 7
    UserID := "alice"
    OTPCode := "654321"
    Status := 1
    CreatedAt := sampleNow - 2 * Minute
    ExpiresAt := sampleNow
    ValidatedAt := none }

/-- A record in status `Validated` whose `ExpiresAt` has passed at `sampleNow`. -/
def usedExpiredOTP : OTP :=
  { ID := 9
    UserID := "user-1"
    OTPCode := "111111"
    Status := OTPStatusValidated
    CreatedAt := sampleNow - 10 * Minute
    ExpiresAt := sampleNow - 8 * Minute
    ValidatedAt := some (sampleNow - 9 * Minute) }

/-- A record in status `Created` whose `ExpiresAt` passed one minute before
`sampleNow`. -/
def expiredCreatedOTP : OTP :=
  { ID := 2
    UserID := "user-1"
    OTPCode := "222222"
    Status := OTPStatusCreated
    CreatedAt := sampleNow - 3 * Minute
    ExpiresAt := sampleNow - Minute
    ValidatedAt := none }

/-- A record in status `Expired` whose `ExpiresAt` passed one minute before
`sampleNow`. -/
def markedExpiredOTP : OTP :=
  { expiredCreatedOTP with Status := OTPStatusExpired }

/-- A record in status `Created` that expires one minute after `sampleNow`. -/
def freshOTP : OTP :=
  { ID := 3
    UserID := "user-1"
    OTPCode := "333333"
    Status := OTPStatusCreated
    CreatedAt := sampleNow - Minute
    ExpiresAt := sampleNow + Minute
    ValidatedAt := none }

/-- The row of `freshOTP`. -/
def freshRow : otpRow :=
  { ID := 3
    UserID := "user-1"
    OTPCode := "333333"
    Status := 1
    CreatedAt := sampleNow - Minute
    ExpiresAt := sampleNow + Minute
    ValidatedAt := none }

/-- A record in status `Expired` whose `ExpiresAt` is one minute after
`sampleNow`. -/
def expiredNotDueOTP : OTP :=
  { freshOTP with Status := OTPStatusExpired }

/-- Five clock readings: three at `sampleNow` or after, then two that lie
before the third. -/
def steppedBackReadings : List Time :=
  [sampleNow, sampleNow, sampleNow + 3 * Minute, sampleNow + Minute, sampleNow + Minute]

/-- Four non-decreasing clock readings: the last comes one second after the
third, which is two minutes after the first. -/
def lateStampReadings : List Time :=
  [sampleNow, sampleNow, sampleNow + 2 * Minute, sampleNow + 2 * Minute + Second]

/-- Whether an event is a call of the store's `Create`. -/
def Event.isCreate : Event → Bool
  | .Create _ _ => true
  | _ => false

/-- Whether an event is a call of the generator. -/
def Event.isGenerate : Event → Bool
  | .Generate _ _ => true
  | _ => false

/-- Whether an event is a call of the store's `Update`. -/
def Event.isUpdate : Event → Bool
  | .Update _ _ => true
  | _ => false

/-! ## Generator: lemmas -/

theorem digitByte_isDigit (d : Nat) (h : d < 10) : (digitByte d).isDigit = true := by
  interval_cases d <;> decide

theorem digitByte_toNat (d : Nat) (h : d < 10) : (digitByte d).toNat = 48 + d := by
  interval_cases d <;> decide

theorem digitByte_zero : digitByte 0 = '0' := by decide

theorem bigInt64_of_lt (n : Nat) (h : n < 2 ^ 63) : bigInt64 n = (n : Int) := by
  unfold bigInt64
  split <;> omega

/-- Below one million the formatted string is the six digits of `n`, from the
hundred-thousands down to the units. -/
theorem Sprintf06d_of_lt (n : Nat) (h : n < 1000000) :
    Sprintf06d (n : Int) = String.mk
      [digitByte (n / 100000), digitByte (n / 10000 % 10), digitByte (n / 1000 % 10),
       digitByte (n / 100 % 10), digitByte (n / 10 % 10), digitByte (n % 10)] := by
  have hz : ¬ ((n : Int) < 0) := by omega
  simp only [Sprintf06d, hz, if_false, Int.natAbs_ofNat]
  congr 1
  have c0 : ¬ (10 ≤ n / 100000) := by omega
  by_cases h1 : 10 ≤ n
  swap
  · have e1 : n / 100000 = 0 := by omega
    have e2 : n / 10000 % 10 = 0 := by omega
    have e3 : n / 1000 % 10 = 0 := by omega
    have e4 : n / 100 % 10 = 0 := by omega
    have e5 : n / 10 % 10 = 0 := by omega
    have e6 : n % 10 = n := by omega
    simp [fmtDecimal, h1, e1, e2, e3, e4, e5, e6, digitByte_zero, List.replicate]
  by_cases h2 : 10 ≤ n / 10
  swap
  · have e1 : n / 100000 = 0 := by omega
    have e2 : n / 10000 % 10 = 0 := by omega
    have e3 : n / 1000 % 10 = 0 := by omega
    have e4 : n / 100 % 10 = 0 := by omega
    have e5 : n / 10 % 10 = n / 10 := by omega
    simp [fmtDecimal, h1, h2, e1, e2, e3, e4, e5, digitByte_zero, List.replicate]
  have d2 : n / 10 / 10 = n / 100 := by omega
  by_cases h3 : 10 ≤ n / 100
  swap
  · have e1 : n / 100000 = 0 := by omega
    have e2 : n / 10000 % 10 = 0 := by omega
    have e3 : n / 1000 % 10 = 0 := by omega
    have e4 : n / 100 % 10 = n / 100 := by omega
    simp [fmtDecimal, h1, h2, h3, d2, e1, e2, e3, e4, digitByte_zero, List.replicate]
  have d3 : n / 100 / 10 = n / 1000 := by omega
  by_cases h4 : 10 ≤ n / 1000
  swap
  · have e1 : n / 100000 = 0 := by omega
    have e2 : n / 10000 % 10 = 0 := by omega
    have e3 : n / 1000 % 10 = n / 1000 := by omega
    simp [fmtDecimal, h1, h2, h3, h4, d2, d3, e1, e2, e3, digitByte_zero, List.replicate]
  have d4 : n / 1000 / 10 = n / 10000 := by omega
  by_cases h5 : 10 ≤ n / 10000
  swap
  · have e1 : n / 100000 = 0 := by omega
    have e2 : n / 10000 % 10 = n / 10000 := by omega
    simp [fmtDecimal, h1, h2, h3, h4, h5, d2, d3, d4, e1, e2, digitByte_zero, List.replicate]
  have d5 : n / 10000 / 10 = n / 100000 := by omega
  simp [fmtDecimal, h1, h2, h3, h4, h5, c0, d2, d3, d4, d5]

/-! ## Generator: contract -/

/-- C1: for every draw `n` below 1,000,000 of the random source, `Generate`
returns, with no error, a string of exactly six characters, all of them
decimal digits, whose decimal value is `n`; leading zeros are kept. -/
theorem Generate_six_digits {σ : Type} (rand : RandSource σ) (s : σ) (n : Nat)
    (hn : n < 1000000) (hdraw : (rand.Int 1000000 s).1 = .ok n) :
    ∃ code : String, (entityOTPGenerator.Generate rand s).1 = (code, none) ∧
      code.length = 6 ∧ (∀ c ∈ code.data, c.isDigit = true) ∧ decimalValue code = n := by
  refine ⟨Sprintf06d (n : Int), ?_, ?_, ?_, ?_⟩
  · unfold entityOTPGenerator.Generate
    rcases hr : rand.Int 1000000 s with ⟨r, s1⟩
    rw [hr] at hdraw
    simp only at hdraw
    subst hdraw
    simp [bigInt64_of_lt n (by omega)]
  · rw [Sprintf06d_of_lt n hn]
    rfl
  · rw [Sprintf06d_of_lt n hn]
    intro c hc
    simp only [List.mem_cons, List.mem_singleton, List.not_mem_nil, or_false] at hc
    rcases hc with h | h | h | h | h | h <;> subst h <;> apply digitByte_isDigit <;> omega
  · rw [Sprintf06d_of_lt n hn]
    simp only [decimalValue, List.foldl]
    rw [digitByte_toNat _ (by omega : n / 100000 < 10),
      digitByte_toNat _ (by omega : n / 10000 % 10 < 10),
      digitByte_toNat _ (by omega : n / 1000 % 10 < 10),
      digitByte_toNat _ (by omega : n / 100 % 10 < 10),
      digitByte_toNat _ (by omega : n / 10 % 10 < 10),
      digitByte_toNat _ (by omega : n % 10 < 10)]
    omega

/-- The draw 42 is returned as "000042". -/
theorem Generate_six_digits_witness :
    (42 < 1000000 ∧ ((constRand 42).Int 1000000 ()).1 = .ok 42) ∧
    (entityOTPGenerator.Generate (constRand 42) ()).1 = ("000042", none) ∧
    ∃ code : String, (entityOTPGenerator.Generate (constRand 42) ()).1 = (code, none) ∧
      code.length = 6 ∧ (∀ c ∈ code.data, c.isDigit = true) ∧ decimalValue code = 42 :=
  ⟨⟨by decide, rfl⟩, by decide, Generate_six_digits (constRand 42) () 42 (by decide) rfl⟩

/-- C2: whenever the random source fails with error `e`, `Generate` returns
the empty string together with exactly `e`. -/
theorem Generate_source_failure {σ : Type} (rand : RandSource σ) (s : σ) (e : ExtError)
    (hfail : (rand.Int 1000000 s).1 = .error e) :
    (entityOTPGenerator.Generate rand s).1 = ("", some (GoError.ext e)) := by
  unfold entityOTPGenerator.Generate
  rcases hr : rand.Int 1000000 s with ⟨r, s1⟩
  rw [hr] at hfail
  simp only at hfail
  subst hfail
  rfl

/-- The failing reader of the generator test: the error text is unchanged. -/
theorem Generate_source_failure_witness :
    ((failingRand (.other "mock rand error")).Int 1000000 ()).1
        = .error (.other "mock rand error") ∧
    (entityOTPGenerator.Generate (failingRand (.other "mock rand error")) ()).1
        = ("", some (GoError.ext (.other "mock rand error"))) :=
  ⟨rfl, Generate_source_failure (failingRand (.other "mock rand error")) ()
    (.other "mock rand error") rfl⟩

/-! ## Lifecycle engine: `Create` -/

theorem Since_lt_window (now t : Int) :
    Since now t < otpRateLimitWindow ↔ now - t < 2 * Minute := by
  simp only [Since, Time.Sub, otpRateLimitWindow, maxDuration, minDuration, Minute, Time,
    Duration]
  split_ifs with h1 h2 <;> constructor <;> intro h <;> omega

/-- The rate-limit block calls neither the generator nor a writing operation
of the store. -/
theorem checkRateLimit_log {σ : Type} (o : otpUsecase σ) (userID : String) (s : σ) :
    ∀ ev ∈ (o.checkRateLimit userID ⟨s, []⟩).2.log,
      ev.isCreate = false ∧ ev.isGenerate = false ∧ ev.isUpdate = false := by
  intro ev hev
  simp only [otpUsecase.checkRateLimit, otpUsecase.callGetLastByUserID,
    otpUsecase.callNow] at hev
  split at hev
  · split_ifs at hev
    · simp at hev
      rcases hev with h | h <;> subst h <;> simp [Event.isCreate, Event.isGenerate, Event.isUpdate]
    · simp at hev
      subst hev
      simp [Event.isCreate, Event.isGenerate, Event.isUpdate]
  · simp at hev
    subst hev
    simp [Event.isCreate, Event.isGenerate, Event.isUpdate]

/-- The four ways a run of `Create` can go: stopped by the rate limit, stopped
by a generator failure, stopped by a failure of the store's `Create`, or
success.  In each the result and the calls made are given in full. -/
theorem Create_cases {σ : Type} (o : otpUsecase σ) (userID : String) (s : σ) :
    ((o.checkRateLimit userID ⟨s, []⟩).1 = true ∧
      (o.Create userID s).1 = (none, some (GoError.domain ErrOTPRateLimitExceeded)) ∧
      (o.Create userID s).2.log = (o.checkRateLimit userID ⟨s, []⟩).2.log) ∨
    ((o.checkRateLimit userID ⟨s, []⟩).1 = false ∧
      ((∃ code e s2,
          (o.otpGenerator.Generate s2).1 = (code, some e) ∧
          (o.Create userID s).1 = (none, some (GoError.wrapf "failed to generate OTP code" e)) ∧
          (o.Create userID s).2.log = (o.checkRateLimit userID ⟨s, []⟩).2.log
            ++ [Event.Generate code (some e)]) ∨
       (∃ code now e s4,
          (o.otpRepo.Create (otpUsecase.newRecord userID code now) s4).1 = some e ∧
          (o.Create userID s).1 = (none, some e) ∧
          (o.Create userID s).2.log = (o.checkRateLimit userID ⟨s, []⟩).2.log
            ++ [Event.Generate code none, Event.Now now,
                Event.Create (otpUsecase.newRecord userID code now) (some e)]) ∨
       (∃ code now,
          (o.Create userID s).1 = (some (otpUsecase.newRecord userID code now), none) ∧
          (o.Create userID s).2.log = (o.checkRateLimit userID ⟨s, []⟩).2.log
            ++ [Event.Generate code none, Event.Now now,
                Event.Create (otpUsecase.newRecord userID code now) none]))) := by
  unfold otpUsecase.Create
  generalize o.checkRateLimit userID ⟨s, []⟩ = chk
  rcases chk with ⟨lim, w⟩
  cases lim
  · right
    refine ⟨rfl, ?_⟩
    rcases hg : o.otpGenerator.Generate w.ext with ⟨⟨code, gerr⟩, s2⟩
    cases gerr with
    | some e =>
      left
      exact ⟨code, e, w.ext, by simp [hg], by simp [otpUsecase.callGenerate, hg],
        by simp [otpUsecase.callGenerate, hg]⟩
    | none =>
      right
      rcases hc : o.otpRepo.Create (otpUsecase.newRecord userID code (o.timeNow s2).1)
        (o.timeNow s2).2 with ⟨cerr, s4⟩
      cases cerr with
      | some e =>
        left
        exact ⟨code, (o.timeNow s2).1, e, (o.timeNow s2).2, by simp [hc],
          by simp [otpUsecase.callGenerate, otpUsecase.callNow, otpUsecase.callCreate, hg, hc],
          by simp [otpUsecase.callGenerate, otpUsecase.callNow, otpUsecase.callCreate, hg, hc]⟩
      | none =>
        right
        exact ⟨code, (o.timeNow s2).1,
          by simp [otpUsecase.callGenerate, otpUsecase.callNow, otpUsecase.callCreate, hg, hc],
          by simp [otpUsecase.callGenerate, otpUsecase.callNow, otpUsecase.callCreate, hg, hc]⟩
  · left
    simp

/-- C3: when the user's most recent OTP is in status `Created` and was created
less than two minutes before the clock reading of the rate-limit check,
`Create` fails with `ErrOTPRateLimitExceeded`, returns no OTP, and calls neither
the generator nor the store's `Create`: the run consists of the lookup and one
read of the clock.  The prior record's `ExpiresAt` plays no part. -/
theorem Create_rate_limited {σ : Type} (o : otpUsecase σ) (userID : String) (s : σ)
    (last : OTP) (lerr : Option GoError)
    (hlast : (o.otpRepo.GetLastByUserID userID s).1 = (some last, lerr))
    (hstatus : last.Status = OTPStatusCreated)
    (hrecent : (o.timeNow (o.otpRepo.GetLastByUserID userID s).2).1 - last.CreatedAt
      < 2 * Minute) :
    (o.Create userID s).1 = (none, some (GoError.domain ErrOTPRateLimitExceeded)) ∧
    (o.Create userID s).2.log =
      [Event.GetLastByUserID userID (some last) lerr,
       Event.Now (o.timeNow (o.otpRepo.GetLastByUserID userID s).2).1] ∧
    (∀ code err, Event.Generate code err ∉ (o.Create userID s).2.log) ∧
    (∀ otp err, Event.Create otp err ∉ (o.Create userID s).2.log) := by
  have hchk : o.checkRateLimit userID ⟨s, []⟩ =
      (true, ⟨(o.timeNow (o.otpRepo.GetLastByUserID userID s).2).2,
        [Event.GetLastByUserID userID (some last) lerr,
         Event.Now (o.timeNow (o.otpRepo.GetLastByUserID userID s).2).1]⟩) := by
    simp [otpUsecase.checkRateLimit, otpUsecase.callGetLastByUserID, otpUsecase.callNow, hlast,
      hstatus, Since_lt_window, hrecent]
  have hres : o.Create userID s =
      ((none, some (GoError.domain ErrOTPRateLimitExceeded)),
        ⟨(o.timeNow (o.otpRepo.GetLastByUserID userID s).2).2,
        [Event.GetLastByUserID userID (some last) lerr,
         Event.Now (o.timeNow (o.otpRepo.GetLastByUserID userID s).2).1]⟩) := by
    simp only [otpUsecase.Create, hchk, if_true]
  rw [hres]
  simp

/-- A record created 119 s ago whose `ExpiresAt` has passed still blocks. -/
theorem Create_rate_limited_witness :
    (((NewOtpUsecase (stubRepository (some recentExpiredOTP, none) (none, none) none none)
        (stubGenerator "123456" none) (fixedClock sampleNow)).otpRepo.GetLastByUserID
          "alice" ()).1 = (some recentExpiredOTP, none) ∧
      recentExpiredOTP.Status = OTPStatusCreated ∧
      sampleNow - recentExpiredOTP.CreatedAt < 2 * Minute ∧
      recentExpiredOTP.ExpiresAt < sampleNow) ∧
    ((NewOtpUsecase (stubRepository (some recentExpiredOTP, none) (none, none) none none)
        (stubGenerator "123456" none) (fixedClock sampleNow)).Create "alice" ()).1
      = (none, some (GoError.domain ErrOTPRateLimitExceeded)) :=
  ⟨⟨rfl, rfl, by decide, by decide⟩,
    (Create_rate_limited
      (NewOtpUsecase (stubRepository (some recentExpiredOTP, none) (none, none) none none)
        (stubGenerator "123456" none) (fixedClock sampleNow))
      "alice" () recentExpiredOTP none rfl rfl (by decide)).1⟩

theorem checkRateLimit_free {σ : Type} (o : otpUsecase σ) (userID : String) (s : σ)
    (last : OTP) (lerr : Option GoError)
    (hlast : (o.otpRepo.GetLastByUserID userID s).1 = (some last, lerr))
    (hfree : last.Status ≠ OTPStatusCreated ∨
      2 * Minute ≤ (o.timeNow (o.otpRepo.GetLastByUserID userID s).2).1 - last.CreatedAt) :
    (o.checkRateLimit userID ⟨s, []⟩).1 = false := by
  simp only [otpUsecase.checkRateLimit, otpUsecase.callGetLastByUserID, otpUsecase.callNow, hlast]
  split_ifs with h
  · rcases hfree with h1 | h1
    · exact absurd h h1
    · simp only [Since_lt_window, decide_eq_false_iff_not, not_lt]
      exact h1
  · rfl

/-- An error of the generator over `crypto/rand` comes from outside the module. -/
theorem NewOTPGenerator_error {σ : Type} (rand : RandSource σ) (s : σ) (code : String)
    (e : GoError) (h : ((NewOTPGenerator rand).Generate s).1 = (code, some e)) :
    ∃ x, e = GoError.ext x := by
  simp only [NewOTPGenerator, entityOTPGenerator.Generate] at h
  split at h
  · simp only [Prod.mk.injEq, Option.some.injEq] at h
    exact ⟨_, h.2.symm⟩
  · simp at h

/-- An error of the SQL repository's `Create` is the duplicate error or comes
from outside the module. -/
theorem NewOTPRepository_Create_error {σ : Type} (db : SQLExecutor σ) (otp : OTP) (s : σ)
    (e : GoError) (h : ((NewOTPRepository db).Create otp s).1 = some e) :
    e = GoError.domain ErrOTPDuplicate ∨ ∃ x, e = GoError.ext x := by
  simp only [NewOTPRepository, otpRepository.Create] at h
  split at h
  · split_ifs at h
    · left
      simpa using h.symm
    · right
      simp only [Option.some.injEq] at h
      exact ⟨_, h.symm⟩
  · simp at h

/-- C4: for the engine as the service wires it, when the user's most recent OTP
is not in status `Created`, or was created at least two minutes before the
clock reading of the rate-limit check, `Create` goes on to call the generator
and never fails with `ErrOTPRateLimitExceeded`; and it succeeds whenever no call
of the generator and no call of the store's `Create` made in the run fails. -/
theorem Create_outside_window {σ : Type} (db : SQLExecutor σ) (rand : RandSource σ)
    (timeNow : σ → Time × σ) (userID : String) (s : σ) (last : OTP) (lerr : Option GoError)
    (hlast : ((NewOTPRepository db).GetLastByUserID userID s).1 = (some last, lerr))
    (hfree : last.Status ≠ OTPStatusCreated ∨
      2 * Minute ≤ (timeNow ((NewOTPRepository db).GetLastByUserID userID s).2).1
        - last.CreatedAt) :
    (∀ err, ((NewRestAPIUsecase db rand timeNow).Create userID s).1.2 = some err →
      err ≠ GoError.domain ErrOTPRateLimitExceeded ∧
      err.asDomainError ≠ some ErrOTPRateLimitExceeded) ∧
    (∃ code gerr, Event.Generate code gerr ∈
      ((NewRestAPIUsecase db rand timeNow).Create userID s).2.log) ∧
    ((∀ code gerr, Event.Generate code gerr ∈
        ((NewRestAPIUsecase db rand timeNow).Create userID s).2.log → gerr = none) →
     (∀ otp cerr, Event.Create otp cerr ∈
        ((NewRestAPIUsecase db rand timeNow).Create userID s).2.log → cerr = none) →
     ∃ otp, ((NewRestAPIUsecase db rand timeNow).Create userID s).1 = (some otp, none)) := by
  have hchk := checkRateLimit_free (NewRestAPIUsecase db rand timeNow) userID s last lerr
    hlast hfree
  rcases Create_cases (NewRestAPIUsecase db rand timeNow) userID s with
    ⟨hlim, -, -⟩ | ⟨-, ⟨code, e, s2, hg, hres, hlog⟩ | ⟨code, now, e, s4, hc, hres, hlog⟩ |
      ⟨code, now, hres, hlog⟩⟩
  · rw [hchk] at hlim
    exact absurd hlim (by simp)
  · obtain ⟨x, rfl⟩ := NewOTPGenerator_error rand s2 code e hg
    refine ⟨?_, ⟨code, some (GoError.ext x), by rw [hlog]; simp⟩, ?_⟩
    · intro err herr
      rw [hres] at herr
      simp only [Option.some.injEq] at herr
      subst herr
      simp [GoError.asDomainError]
    · intro hgen _
      have := hgen code (some (GoError.ext x)) (by rw [hlog]; simp)
      simp at this
  · refine ⟨?_, ⟨code, none, by rw [hlog]; simp⟩, ?_⟩
    · intro err herr
      rw [hres] at herr
      simp only [Option.some.injEq] at herr
      subst herr
      rcases NewOTPRepository_Create_error db _ s4 e hc with h | ⟨x, h⟩
      · subst h
        exact ⟨by decide, by decide⟩
      · subst h
        simp [GoError.asDomainError]
    · intro _ hcr
      have := hcr (otpUsecase.newRecord userID code now) (some e) (by rw [hlog]; simp)
      simp at this
  · refine ⟨?_, ⟨code, none, by rw [hlog]; simp⟩, ?_⟩
    · intro err herr
      rw [hres] at herr
      simp at herr
    · intro _ _
      exact ⟨_, hres⟩

/-- A `Created` record made exactly two minutes ago no longer blocks: the
request goes through and a new OTP is returned. -/
theorem Create_outside_window_witness :
    (((NewOTPRepository (stubDB (.ok twoMinuteOldRow) (.error .sqlErrNoRows) none none)).GetLastByUserID
        "alice" ()).1 = (some twoMinuteOldRow.ToEntity, none) ∧
      (twoMinuteOldRow.ToEntity.Status ≠ OTPStatusCreated ∨
        2 * Minute ≤ sampleNow - twoMinuteOldRow.ToEntity.CreatedAt)) ∧
    (∃ otp, ((NewRestAPIUsecase (stubDB (.ok twoMinuteOldRow) (.error .sqlErrNoRows) none none)
        (constRand 42) (fixedClock sampleNow)).Create "alice" ()).1 = (some otp, none)) :=
  ⟨⟨rfl, Or.inr (by decide)⟩,
    (Create_outside_window (stubDB (.ok twoMinuteOldRow) (.error .sqlErrNoRows) none none)
      (constRand 42) (fixedClock sampleNow) "alice" () twoMinuteOldRow.ToEntity none rfl
      (Or.inr (by decide))).2.2
      (fun code gerr h => by
        have hl : ((NewRestAPIUsecase
            (stubDB (.ok twoMinuteOldRow) (.error .sqlErrNoRows) none none)
            (constRand 42) (fixedClock sampleNow)).Create "alice" ()).2.log =
            [Event.GetLastByUserID "alice" (some twoMinuteOldRow.ToEntity) none,
             Event.Now sampleNow, Event.Generate "000042" none, Event.Now sampleNow,
             Event.Create (otpUsecase.newRecord "alice" "000042" sampleNow) none] := by decide
        rw [hl] at h
        simp at h
        exact h.2)
      (fun otp cerr h => by
        have hl : ((NewRestAPIUsecase
            (stubDB (.ok twoMinuteOldRow) (.error .sqlErrNoRows) none none)
            (constRand 42) (fixedClock sampleNow)).Create "alice" ()).2.log =
            [Event.GetLastByUserID "alice" (some twoMinuteOldRow.ToEntity) none,
             Event.Now sampleNow, Event.Generate "000042" none, Event.Now sampleNow,
             Event.Create (otpUsecase.newRecord "alice" "000042" sampleNow) none] := by decide
        rw [hl] at h
        simp at h
        exact h.2)⟩

theorem checkRateLimit_filter_isCreate {σ : Type} (o : otpUsecase σ) (userID : String)
    (s : σ) : (o.checkRateLimit userID ⟨s, []⟩).2.log.filter Event.isCreate = [] := by
  rw [List.filter_eq_nil_iff]
  intro ev hev
  simp [(checkRateLimit_log o userID s ev hev).1]

theorem checkRateLimit_filter_isGenerate {σ : Type} (o : otpUsecase σ) (userID : String)
    (s : σ) : (o.checkRateLimit userID ⟨s, []⟩).2.log.filter Event.isGenerate = [] := by
  rw [List.filter_eq_nil_iff]
  intro ev hev
  simp [(checkRateLimit_log o userID s ev hev).2.1]

/-- The state in which the rate-limit block leaves the outside world: the one
the lookup left, or the one the read of the clock left when the lookup gave a
record in status `Created`. -/
theorem checkRateLimit_ext {σ : Type} (o : otpUsecase σ) (userID : String) (s : σ) :
    (o.checkRateLimit userID ⟨s, []⟩).2.ext =
      (o.otpRepo.GetLastByUserID userID s).1.1.elim (o.otpRepo.GetLastByUserID userID s).2
        (fun last => if last.Status = OTPStatusCreated
          then (o.timeNow (o.otpRepo.GetLastByUserID userID s).2).2
          else (o.otpRepo.GetLastByUserID userID s).2) := by
  simp only [otpUsecase.checkRateLimit, otpUsecase.callGetLastByUserID, otpUsecase.callNow]
  split
  · rename_i l hl
    rw [hl]
    simp only [Option.elim]
    split_ifs <;> rfl
  · rename_i hl
    rw [hl]
    rfl

/-- A run of `Create` that returns no error, call by call: the generator is
asked in the state the rate-limit block left and answers `code`, the clock is
read next and answers `now`, the store's `Create` is given the record built
from them and succeeds, and the run ends in the state the store left. -/
theorem Create_success_run {σ : Type} (o : otpUsecase σ) (userID : String) (s : σ)
    (hok : (o.Create userID s).1.2 = none) :
    ∃ (code : String) (now : Time) (s2 s3 s4 : σ),
      o.otpGenerator.Generate (o.checkRateLimit userID ⟨s, []⟩).2.ext = ((code, none), s2) ∧
      o.timeNow s2 = (now, s3) ∧
      o.otpRepo.Create (otpUsecase.newRecord userID code now) s3 = (none, s4) ∧
      o.Create userID s =
        ((some (otpUsecase.newRecord userID code now), none),
          ⟨s4, (o.checkRateLimit userID ⟨s, []⟩).2.log
            ++ [Event.Generate code none, Event.Now now,
                Event.Create (otpUsecase.newRecord userID code now) none]⟩) := by
  unfold otpUsecase.Create at hok ⊢
  generalize o.checkRateLimit userID ⟨s, []⟩ = chk at hok ⊢
  rcases chk with ⟨lim, w⟩
  cases lim
  · rcases hg : o.otpGenerator.Generate w.ext with ⟨⟨code, gerr⟩, s2⟩
    cases gerr with
    | some e =>
      simp [otpUsecase.callGenerate, hg] at hok
    | none =>
      rcases hn : o.timeNow s2 with ⟨now, s3⟩
      rcases hc : o.otpRepo.Create (otpUsecase.newRecord userID code now) s3 with ⟨cerr, s4⟩
      cases cerr with
      | some e =>
        simp [otpUsecase.callGenerate, otpUsecase.callNow, otpUsecase.callCreate, hg, hn, hc]
          at hok
      | none =>
        exact ⟨code, now, s2, s3, s4, rfl, hn, hc, by
          simp [otpUsecase.callGenerate, otpUsecase.callNow, otpUsecase.callCreate, hg, hn, hc]⟩
  · simp at hok

/-- C5: whenever `Create` returns no error for `userID`, the generator, asked
in the state the rate-limit block left, having answered `code`, and the clock,
read next, having answered `now`, the record handed to the store's `Create` and
the record returned are one and the same, with `UserID = userID`,
`OTPCode = code`, `Status = Created`, `ExpiresAt = now + 2 minutes` and
`ValidatedAt` unset; the store's `Create` is run on that record, answers no
error, and the run ends in the state it leaves. -/
theorem Create_success_record {σ : Type} (o : otpUsecase σ) (userID : String) (s : σ)
    (hok : (o.Create userID s).1.2 = none) :
    ∃ (otp : OTP) (code : String) (now : Time) (pre : List Event) (s2 s3 s4 : σ),
      o.otpGenerator.Generate
        ((o.otpRepo.GetLastByUserID userID s).1.1.elim (o.otpRepo.GetLastByUserID userID s).2
          (fun last => if last.Status = OTPStatusCreated
            then (o.timeNow (o.otpRepo.GetLastByUserID userID s).2).2
            else (o.otpRepo.GetLastByUserID userID s).2)) = ((code, none), s2) ∧
      o.timeNow s2 = (now, s3) ∧
      o.otpRepo.Create otp s3 = (none, s4) ∧
      (o.Create userID s).1 = (some otp, none) ∧
      (o.Create userID s).2.ext = s4 ∧
      (o.Create userID s).2.log =
        pre ++ [Event.Generate code none, Event.Now now, Event.Create otp none] ∧
      (∀ ev ∈ pre, ev.isCreate = false ∧ ev.isGenerate = false) ∧
      otp.UserID = userID ∧ otp.OTPCode = code ∧ otp.Status = OTPStatusCreated ∧
      otp.ExpiresAt = now + 2 * Minute ∧ otp.ValidatedAt = none := by
  obtain ⟨code, now, s2, s3, s4, hgen, hnow, hcr, hres⟩ := Create_success_run o userID s hok
  rw [checkRateLimit_ext] at hgen
  refine ⟨otpUsecase.newRecord userID code now, code, now,
    (o.checkRateLimit userID ⟨s, []⟩).2.log, s2, s3, s4, hgen, hnow, hcr, ?_, ?_, ?_,
    fun ev hev => ⟨(checkRateLimit_log o userID s ev hev).1,
      (checkRateLimit_log o userID s ev hev).2.1⟩,
    rfl, rfl, rfl, rfl, rfl⟩
  · rw [hres]
  · rw [hres]
  · rw [hres]

/-- A first request on the empty table, the random source drawing 42 and the
clock reading `sampleNow`: the record returned is the record stored, it carries
the code drawn and expires two minutes after the reading, and the table holds
it afterwards. -/
theorem Create_success_record_witness :
    ((memUsecase (scriptedEnv [sampleNow] 42)).Create "alice" ⟨Table.empty, 0⟩).1.2 = none ∧
    (∃ (otp : OTP) (s2 s3 s4 : Sys Nat),
      (memUsecase (scriptedEnv [sampleNow] 42)).otpGenerator.Generate
        ((memUsecase (scriptedEnv [sampleNow] 42)).otpRepo.GetLastByUserID "alice"
          ⟨Table.empty, 0⟩).2 = (("000042", none), s2) ∧
      (memUsecase (scriptedEnv [sampleNow] 42)).timeNow s2 = (sampleNow, s3) ∧
      (memUsecase (scriptedEnv [sampleNow] 42)).otpRepo.Create otp s3 = (none, s4) ∧
      ((memUsecase (scriptedEnv [sampleNow] 42)).Create "alice" ⟨Table.empty, 0⟩).1
        = (some otp, none) ∧
      ((memUsecase (scriptedEnv [sampleNow] 42)).Create "alice" ⟨Table.empty, 0⟩).2.ext = s4 ∧
      otp.UserID = "alice" ∧ otp.OTPCode = "000042" ∧ otp.Status = OTPStatusCreated ∧
      otp.ExpiresAt = sampleNow + 2 * Minute ∧ otp.ValidatedAt = none) ∧
    ((memUsecase (scriptedEnv [sampleNow] 42)).Create "alice" ⟨Table.empty, 0⟩).2.ext.table.rows
      = [{ ID := 1, UserID := "alice", OTPCode := "000042", Status := 1,
           CreatedAt := sampleNow, ExpiresAt := sampleNow + 2 * Minute,
           ValidatedAt := none }] := by
  refine ⟨by decide, ?_, by decide⟩
  obtain ⟨otp, code, now, pre, s2, s3, s4, hgen, hnow, hcr, hres, hext, hlog, -, hu, hc, hs, he,
    hv⟩ := Create_success_record (memUsecase (scriptedEnv [sampleNow] 42)) "alice"
      ⟨Table.empty, 0⟩ (by decide)
  have hgen1 : (memUsecase (scriptedEnv [sampleNow] 42)).otpGenerator.Generate
      ((memUsecase (scriptedEnv [sampleNow] 42)).otpRepo.GetLastByUserID "alice"
        ⟨Table.empty, 0⟩).2 = ((code, none), s2) := hgen
  have hcode : code = "000042" := by
    have h1 := congrArg (fun x => x.1.1) hgen1
    exact h1.symm.trans (by decide)
  subst hcode
  have hs2 : s2 = ⟨Table.empty, 0⟩ := by
    have h1 := congrArg (fun x => x.2) hgen1
    exact h1.symm.trans rfl
  subst hs2
  have hnow0 : now = sampleNow := by
    have h1 := congrArg (fun x => x.1) hnow
    exact h1.symm.trans (by decide)
  subst hnow0
  exact ⟨otp, _, s3, s4, hgen1, hnow, hcr, hres, hext, hu, hc, hs, he, hv⟩

/-- C6, as stated, fails: on a first request served when the clock reads
`sampleNow`, the record returned has the zero time as `CreatedAt`, not the
generation time, and its `ExpiresAt` is not `CreatedAt + 2 minutes`. -/
theorem Create_createdAt_counterexample :
    ((NewRestAPIUsecase (stubDB (.error .sqlErrNoRows) (.error .sqlErrNoRows) none none)
        (constRand 42) (fixedClock sampleNow)).Create "alice" ()).1 =
      (some { ID := 0, UserID := "alice", OTPCode := "000042", Status := OTPStatusCreated,
              CreatedAt := zeroTime, ExpiresAt := sampleNow + 2 * Minute,
              ValidatedAt := none }, none) ∧
    zeroTime ≠ sampleNow ∧
    sampleNow + 2 * Minute ≠ zeroTime + 2 * Minute := by
  decide

/-- C6, amended: for every OTP returned by a successful `Create`, `ExpiresAt`
is the clock reading taken when the record is built (the answer `now` of the
clock, read in the state the generator left) plus the validity duration of two
minutes, and `CreatedAt` is left at the zero time; the SQL store's `Create`
does not read `CreatedAt` either, its statement writing only `user_id`,
`otp_code`, `status` and `expires_at`. -/
theorem Create_expiry_from_clock {σ : Type} (o : otpUsecase σ) (userID : String) (s : σ)
    (hok : (o.Create userID s).1.2 = none) :
    (∃ (otp : OTP) (code : String) (now : Time) (pre : List Event) (s2 s3 s4 : σ),
      o.otpGenerator.Generate
        ((o.otpRepo.GetLastByUserID userID s).1.1.elim (o.otpRepo.GetLastByUserID userID s).2
          (fun last => if last.Status = OTPStatusCreated
            then (o.timeNow (o.otpRepo.GetLastByUserID userID s).2).2
            else (o.otpRepo.GetLastByUserID userID s).2)) = ((code, none), s2) ∧
      o.timeNow s2 = (now, s3) ∧
      o.otpRepo.Create otp s3 = (none, s4) ∧
      (o.Create userID s).2.ext = s4 ∧
      (o.Create userID s).1 = (some otp, none) ∧
      (o.Create userID s).2.log =
        pre ++ [Event.Generate code none, Event.Now now, Event.Create otp none] ∧
      otp.ExpiresAt = now + otpValidityDuration ∧ otp.CreatedAt = zeroTime) ∧
    (∀ (db : SQLExecutor σ) (otp : OTP) (t : Time) (s1 : σ),
      otpRepository.Create db { otp with CreatedAt := t } s1 = otpRepository.Create db otp s1) := by
  refine ⟨?_, fun db otp t s1 => rfl⟩
  obtain ⟨code, now, s2, s3, s4, hgen, hnow, hcr, hres⟩ := Create_success_run o userID s hok
  rw [checkRateLimit_ext] at hgen
  refine ⟨otpUsecase.newRecord userID code now, code, now,
    (o.checkRateLimit userID ⟨s, []⟩).2.log, s2, s3, s4, hgen, hnow, hcr, ?_, ?_, ?_, rfl, rfl⟩
  · rw [hres]
  · rw [hres]
  · rw [hres]

/-- A first request served at `sampleNow`: expiry is the clock reading plus
two minutes and `CreatedAt` is the zero time. -/
theorem Create_expiry_from_clock_witness :
    ((NewRestAPIUsecase (stubDB (.error .sqlErrNoRows) (.error .sqlErrNoRows) none none)
        (constRand 42) (fixedClock sampleNow)).Create "alice" ()).1.2 = none ∧
    ∃ (otp : OTP) (code : String) (now : Time) (pre : List Event),
      fixedClock sampleNow () = (now, ()) ∧
      ((NewRestAPIUsecase (stubDB (.error .sqlErrNoRows) (.error .sqlErrNoRows) none none)
        (constRand 42) (fixedClock sampleNow)).Create "alice" ()).1 = (some otp, none) ∧
      ((NewRestAPIUsecase (stubDB (.error .sqlErrNoRows) (.error .sqlErrNoRows) none none)
        (constRand 42) (fixedClock sampleNow)).Create "alice" ()).2.log =
        pre ++ [Event.Generate code none, Event.Now now, Event.Create otp none] ∧
      otp.ExpiresAt = now + otpValidityDuration ∧ otp.CreatedAt = zeroTime :=
  ⟨rfl, by
    obtain ⟨otp, code, now, pre, s2, s3, s4, -, hnow, -, -, hres, hlog, he, hc⟩ :=
      (Create_expiry_from_clock
        (NewRestAPIUsecase (stubDB (.error .sqlErrNoRows) (.error .sqlErrNoRows) none none)
          (constRand 42) (fixedClock sampleNow)) "alice" () rfl).1
    exact ⟨otp, code, now, pre, hnow, hres, hlog, he, hc⟩⟩

/-- C7: whenever the generator (the one over `crypto/rand`) fails with error
`e` in a run of `Create`, which it is asked to do only once the rate limit has
let the request through, `Create` returns no OTP and the error
`fmt.Errorf("failed to generate OTP code: %w", e)`: it unwraps to `e`, its text
is the context followed by the text of `e`, it holds no domain error, and the
store's `Create` is never called. -/
theorem Create_generator_failure {σ : Type} (repo : OTPRepository σ) (rand : RandSource σ)
    (timeNow : σ → Time × σ) (userID : String) (s : σ) (code : String) (e : GoError)
    (hgen : Event.Generate code (some e) ∈
      ((NewOtpUsecase repo (NewOTPGenerator rand) timeNow).Create userID s).2.log) :
    ((NewOtpUsecase repo (NewOTPGenerator rand) timeNow).Create userID s).1 =
      (none, some (GoError.wrapf "failed to generate OTP code" e)) ∧
    (GoError.wrapf "failed to generate OTP code" e).Unwrap = some e ∧
    (GoError.wrapf "failed to generate OTP code" e).Error
      = "failed to generate OTP code: " ++ e.Error ∧
    (GoError.wrapf "failed to generate OTP code" e).asDomainError = none ∧
    (∀ d, GoError.wrapf "failed to generate OTP code" e ≠ GoError.domain d) ∧
    (∀ otp cerr, Event.Create otp cerr ∉
      ((NewOtpUsecase repo (NewOTPGenerator rand) timeNow).Create userID s).2.log) := by
  have hpre : ∀ c g, Event.Generate c g ∉
      ((NewOtpUsecase repo (NewOTPGenerator rand) timeNow).checkRateLimit userID ⟨s, []⟩).2.log := by
    intro c g hmem
    have := (checkRateLimit_log _ userID s _ hmem).2.1
    simp [Event.isGenerate] at this
  have hpreC : ∀ r c, Event.Create r c ∉
      ((NewOtpUsecase repo (NewOTPGenerator rand) timeNow).checkRateLimit userID ⟨s, []⟩).2.log := by
    intro r c hmem
    have := (checkRateLimit_log _ userID s _ hmem).1
    simp [Event.isCreate] at this
  rcases Create_cases (NewOtpUsecase repo (NewOTPGenerator rand) timeNow) userID s with
    ⟨-, -, hlog⟩ | ⟨-, ⟨code1, e1, s2, hg, hres, hlog⟩ | ⟨code1, now, e1, s4, -, -, hlog⟩ |
      ⟨code1, now, -, hlog⟩⟩
  · rw [hlog] at hgen
    exact absurd hgen (hpre _ _)
  · rw [hlog] at hgen
    simp only [List.mem_append, List.mem_singleton, Event.Generate.injEq,
      Option.some.injEq] at hgen
    rcases hgen with hgen | ⟨-, rfl⟩
    · exact absurd hgen (hpre _ _)
    · obtain ⟨x, rfl⟩ := NewOTPGenerator_error rand s2 code1 e hg
      refine ⟨hres, rfl, rfl, rfl, fun d => by simp, ?_⟩
      intro otp cerr hmem
      rw [hlog] at hmem
      simp only [List.mem_append, List.mem_singleton] at hmem
      rcases hmem with hmem | hmem
      · exact hpreC _ _ hmem
      · simp at hmem
  · rw [hlog] at hgen
    simp only [List.mem_append, List.mem_cons, Event.Generate.injEq, List.mem_singleton] at hgen
    rcases hgen with hgen | hgen
    · exact absurd hgen (hpre _ _)
    · simp at hgen
  · rw [hlog] at hgen
    simp only [List.mem_append, List.mem_cons, Event.Generate.injEq, List.mem_singleton] at hgen
    rcases hgen with hgen | hgen
    · exact absurd hgen (hpre _ _)
    · simp at hgen

/-- The failing reader of the generator test, behind a first request. -/
theorem Create_generator_failure_witness :
    Event.Generate "" (some (GoError.ext (.other "mock rand error"))) ∈
      ((NewOtpUsecase (stubRepository (none, some (GoError.domain ErrOTPNotFound)) (none, none)
        none none) (NewOTPGenerator (failingRand (.other "mock rand error")))
        (fixedClock sampleNow)).Create "user-1" ()).2.log ∧
    ((NewOtpUsecase (stubRepository (none, some (GoError.domain ErrOTPNotFound)) (none, none)
        none none) (NewOTPGenerator (failingRand (.other "mock rand error")))
        (fixedClock sampleNow)).Create "user-1" ()).1 =
      (none, some (GoError.wrapf "failed to generate OTP code"
        (GoError.ext (.other "mock rand error")))) ∧
    (GoError.wrapf "failed to generate OTP code" (GoError.ext (.other "mock rand error"))).Error
      = "failed to generate OTP code: mock rand error" :=
  ⟨by decide,
    (Create_generator_failure
      (stubRepository (none, some (GoError.domain ErrOTPNotFound)) (none, none) none none)
      (failingRand (.other "mock rand error")) (fixedClock sampleNow) "user-1" () ""
      (GoError.ext (.other "mock rand error")) (by decide)).1, by decide⟩

/-- C8: whenever the store's `Create` fails with error `e` in a run of the
engine's `Create`, the engine returns no OTP and exactly `e`, and makes no
retry: the run holds one call of the generator and one call of the store's
`Create`, the failing one, which is its last call. -/
theorem Create_store_failure {σ : Type} (o : otpUsecase σ) (userID : String) (s : σ)
    (otp : OTP) (e : GoError)
    (hfail : Event.Create otp (some e) ∈ (o.Create userID s).2.log) :
    (o.Create userID s).1 = (none, some e) ∧
    ((o.Create userID s).2.log.filter Event.isCreate).length = 1 ∧
    ((o.Create userID s).2.log.filter Event.isGenerate).length = 1 ∧
    (o.Create userID s).2.log.getLast? = some (Event.Create otp (some e)) := by
  have hpreC : ∀ r c, Event.Create r c ∉ (o.checkRateLimit userID ⟨s, []⟩).2.log := by
    intro r c hmem
    have := (checkRateLimit_log _ userID s _ hmem).1
    simp [Event.isCreate] at this
  rcases Create_cases o userID s with
    ⟨-, -, hlog⟩ | ⟨-, ⟨code1, e1, s2, -, -, hlog⟩ | ⟨code1, now, e1, s4, -, hres, hlog⟩ |
      ⟨code1, now, -, hlog⟩⟩
  · rw [hlog] at hfail
    exact absurd hfail (hpreC _ _)
  · rw [hlog] at hfail
    simp only [List.mem_append, List.mem_singleton] at hfail
    rcases hfail with hfail | hfail
    · exact absurd hfail (hpreC _ _)
    · simp at hfail
  · rw [hlog] at hfail
    simp only [List.mem_append, List.mem_cons, List.mem_singleton, Event.Create.injEq,
      Option.some.injEq] at hfail
    rcases hfail with hfail | hfail
    · exact absurd hfail (hpreC _ _)
    · have hfail2 : otp = otpUsecase.newRecord userID code1 now ∧ e = e1 := by
        rcases hfail with h | h | h | h
        · simp at h
        · simp at h
        · exact h
        · simp at h
      obtain ⟨rfl, rfl⟩ := hfail2
      refine ⟨hres, ?_, ?_, ?_⟩
      · rw [hlog, List.filter_append, checkRateLimit_filter_isCreate]
        simp [List.filter, Event.isCreate]
      · rw [hlog, List.filter_append, checkRateLimit_filter_isGenerate]
        simp [List.filter, Event.isGenerate]
      · rw [hlog]
        simp [List.getLast?_append]
  · rw [hlog] at hfail
    simp only [List.mem_append, List.mem_cons, List.mem_singleton, Event.Create.injEq] at hfail
    rcases hfail with hfail | hfail
    · exact absurd hfail (hpreC _ _)
    · simp at hfail

/-- The store failure of the engine's test suite: the error comes back as is. -/
theorem Create_store_failure_witness :
    Event.Create (otpUsecase.newRecord "user-1" "123456" sampleNow)
        (some (GoError.ext (.other "db error"))) ∈
      ((NewOtpUsecase (stubRepository (none, none) (none, none)
        (some (GoError.ext (.other "db error"))) none) (stubGenerator "123456" none)
        (fixedClock sampleNow)).Create "user-1" ()).2.log ∧
    ((NewOtpUsecase (stubRepository (none, none) (none, none)
        (some (GoError.ext (.other "db error"))) none) (stubGenerator "123456" none)
        (fixedClock sampleNow)).Create "user-1" ()).1 =
      (none, some (GoError.ext (.other "db error"))) :=
  ⟨by decide,
    (Create_store_failure
      (NewOtpUsecase (stubRepository (none, none) (none, none)
        (some (GoError.ext (.other "db error"))) none) (stubGenerator "123456" none)
        (fixedClock sampleNow))
      "user-1" () (otpUsecase.newRecord "user-1" "123456" sampleNow)
      (GoError.ext (.other "db error")) (by decide)).1⟩

/-! ## Lifecycle engine: `Validate` -/

/-- C9: whenever the lookup `FindByUserIDAndCode` fails with error `e`,
`Validate` returns no OTP and exactly `e`; the lookup is the only call of the
run, so no `Update` is made. -/
theorem Validate_lookup_failure {σ : Type} (o : otpUsecase σ) (userID otpCode : String)
    (s : σ) (e : GoError)
    (hfind : (o.otpRepo.FindByUserIDAndCode userID otpCode s).1.2 = some e) :
    (o.Validate userID otpCode s).1 = Outcome.returned none (some e) ∧
    (o.Validate userID otpCode s).2.log =
      [Event.FindByUserIDAndCode userID otpCode
        (o.otpRepo.FindByUserIDAndCode userID otpCode s).1.1 (some e)] ∧
    (∀ otp uerr, Event.Update otp uerr ∉ (o.Validate userID otpCode s).2.log) := by
  have hres : o.Validate userID otpCode s =
      (Outcome.returned none (some e),
        ⟨(o.otpRepo.FindByUserIDAndCode userID otpCode s).2,
          [Event.FindByUserIDAndCode userID otpCode
            (o.otpRepo.FindByUserIDAndCode userID otpCode s).1.1 (some e)]⟩) := by
    simp [otpUsecase.Validate, otpUsecase.callFindByUserIDAndCode, hfind]
  rw [hres]
  simp

/-- With the SQL store, a query that finds no row makes `Validate` fail with
`ErrOTPNotFound`. -/
theorem Validate_lookup_failure_witness :
    ((NewRestAPIUsecase (stubDB (.error .sqlErrNoRows) (.error .sqlErrNoRows) none none)
        (constRand 42) (fixedClock sampleNow)).otpRepo.FindByUserIDAndCode
          "user-1" "000000" ()).1.2 = some (GoError.domain ErrOTPNotFound) ∧
    ((NewRestAPIUsecase (stubDB (.error .sqlErrNoRows) (.error .sqlErrNoRows) none none)
        (constRand 42) (fixedClock sampleNow)).Validate "user-1" "000000" ()).1 =
      Outcome.returned none (some (GoError.domain ErrOTPNotFound)) :=
  ⟨rfl, (Validate_lookup_failure
    (NewRestAPIUsecase (stubDB (.error .sqlErrNoRows) (.error .sqlErrNoRows) none none)
      (constRand 42) (fixedClock sampleNow)) "user-1" "000000" ()
    (GoError.domain ErrOTPNotFound) rfl).1⟩

/-- C10: for every found record in status `Validated`, whatever the clock reads
and whatever the record's `ExpiresAt`, `Validate` fails with `ErrOTPUsed`,
returns no OTP and makes no `Update`: the run consists of the lookup and one
read of the clock, and the expiry test is never reached. -/
theorem Validate_already_used {σ : Type} (o : otpUsecase σ) (userID otpCode : String)
    (s : σ) (otp : OTP)
    (hfind : (o.otpRepo.FindByUserIDAndCode userID otpCode s).1 = (some otp, none))
    (hstatus : otp.Status = OTPStatusValidated) :
    (o.Validate userID otpCode s).1 = Outcome.returned none (some (GoError.domain ErrOTPUsed)) ∧
    (o.Validate userID otpCode s).2.log =
      [Event.FindByUserIDAndCode userID otpCode (some otp) none,
       Event.Now (o.timeNow (o.otpRepo.FindByUserIDAndCode userID otpCode s).2).1] ∧
    (∀ r uerr, Event.Update r uerr ∉ (o.Validate userID otpCode s).2.log) := by
  have hres : o.Validate userID otpCode s =
      (Outcome.returned none (some (GoError.domain ErrOTPUsed)),
        ⟨(o.timeNow (o.otpRepo.FindByUserIDAndCode userID otpCode s).2).2,
          [Event.FindByUserIDAndCode userID otpCode (some otp) none,
           Event.Now (o.timeNow (o.otpRepo.FindByUserIDAndCode userID otpCode s).2).1]⟩) := by
    simp [otpUsecase.Validate, otpUsecase.callFindByUserIDAndCode, otpUsecase.validateOTPStatus,
      otpUsecase.callNow, hfind, hstatus]
  rw [hres]
  simp

/-- A used record that is also past its expiry is reported as used, not as
expired. -/
theorem Validate_already_used_witness :
    (((NewOtpUsecase (stubRepository (none, none) (some usedExpiredOTP, none) none none)
        (stubGenerator "123456" none) (fixedClock sampleNow)).otpRepo.FindByUserIDAndCode
          "user-1" "111111" ()).1 = (some usedExpiredOTP, none) ∧
      usedExpiredOTP.Status = OTPStatusValidated ∧
      Time.After sampleNow usedExpiredOTP.ExpiresAt = true) ∧
    ((NewOtpUsecase (stubRepository (none, none) (some usedExpiredOTP, none) none none)
        (stubGenerator "123456" none) (fixedClock sampleNow)).Validate
          "user-1" "111111" ()).1 =
      Outcome.returned none (some (GoError.domain ErrOTPUsed)) :=
  ⟨⟨rfl, rfl, by decide⟩,
    (Validate_already_used
      (NewOtpUsecase (stubRepository (none, none) (some usedExpiredOTP, none) none none)
        (stubGenerator "123456" none) (fixedClock sampleNow))
      "user-1" "111111" () usedExpiredOTP rfl rfl).1⟩

/-! ### The four paths of `Validate` on a found record

The lookup gives `otp` and leaves the state `s1`; the clock of
`validateOTPStatus` reads `t0` and leaves `s2`. -/

/-- Path of a record already in status `Validated`. -/
theorem Validate_eq_used {σ : Type} (o : otpUsecase σ) (userID otpCode : String)
    (s s1 s2 : σ) (otp : OTP) (t0 : Time)
    (hfind : o.otpRepo.FindByUserIDAndCode userID otpCode s = ((some otp, none), s1))
    (hnow : o.timeNow s1 = (t0, s2))
    (hstatus : otp.Status = OTPStatusValidated) :
    o.Validate userID otpCode s =
      (Outcome.returned none (some (GoError.domain ErrOTPUsed)),
        ⟨s2, [Event.FindByUserIDAndCode userID otpCode (some otp) none, Event.Now t0]⟩) := by
  simp [otpUsecase.Validate, otpUsecase.callFindByUserIDAndCode, otpUsecase.validateOTPStatus,
    otpUsecase.callNow, hfind, hnow, hstatus]

/-- Path of a record past its expiry and not yet marked `Expired`: one `Update`
with the status set to `Expired`. -/
theorem Validate_eq_expire {σ : Type} (o : otpUsecase σ) (userID otpCode : String)
    (s s1 s2 s3 : σ) (otp : OTP) (t0 : Time) (uerr : Option GoError)
    (hfind : o.otpRepo.FindByUserIDAndCode userID otpCode s = ((some otp, none), s1))
    (hnow : o.timeNow s1 = (t0, s2))
    (hnotused : otp.Status ≠ OTPStatusValidated)
    (hafter : otp.ExpiresAt < t0)
    (hnotexp : otp.Status ≠ OTPStatusExpired)
    (hupd : o.otpRepo.Update { otp with Status := OTPStatusExpired } s2 = (uerr, s3)) :
    o.Validate userID otpCode s =
      (Outcome.returned none (some (uerr.getD (GoError.domain ErrOTPExpired))),
        ⟨s3, [Event.FindByUserIDAndCode userID otpCode (some otp) none, Event.Now t0,
              Event.Update { otp with Status := OTPStatusExpired } uerr]⟩) := by
  cases uerr <;>
    simp [otpUsecase.Validate, otpUsecase.callFindByUserIDAndCode, otpUsecase.validateOTPStatus,
      otpUsecase.callNow, otpUsecase.callUpdate, hfind, hnow, hnotused, hafter, hnotexp, hupd,
      Time.After]

/-- Path of a record past its expiry and already marked `Expired`: no `Update`. -/
theorem Validate_eq_expired {σ : Type} (o : otpUsecase σ) (userID otpCode : String)
    (s s1 s2 : σ) (otp : OTP) (t0 : Time)
    (hfind : o.otpRepo.FindByUserIDAndCode userID otpCode s = ((some otp, none), s1))
    (hnow : o.timeNow s1 = (t0, s2))
    (hafter : otp.ExpiresAt < t0)
    (hexp : otp.Status = OTPStatusExpired) :
    o.Validate userID otpCode s =
      (Outcome.returned none (some (GoError.domain ErrOTPExpired)),
        ⟨s2, [Event.FindByUserIDAndCode userID otpCode (some otp) none, Event.Now t0]⟩) := by
  have hne : ¬ (OTPStatusExpired = OTPStatusValidated) := by decide
  simp [otpUsecase.Validate, otpUsecase.callFindByUserIDAndCode, otpUsecase.validateOTPStatus,
    otpUsecase.callNow, hfind, hnow, hafter, hexp, hne, Time.After]

/-- Path of a record that is neither `Validated` nor past its expiry: the clock
is read again, giving `t1`, and one `Update` marks the record `Validated`. -/
theorem Validate_eq_mark {σ : Type} (o : otpUsecase σ) (userID otpCode : String)
    (s s1 s2 s3 s4 : σ) (otp : OTP) (t0 t1 : Time) (uerr : Option GoError)
    (hfind : o.otpRepo.FindByUserIDAndCode userID otpCode s = ((some otp, none), s1))
    (hnow : o.timeNow s1 = (t0, s2))
    (hnotused : otp.Status ≠ OTPStatusValidated)
    (hnotafter : ¬ otp.ExpiresAt < t0)
    (hnow1 : o.timeNow s2 = (t1, s3))
    (hupd : o.otpRepo.Update
      { otp with Status := OTPStatusValidated, ValidatedAt := some t1 } s3 = (uerr, s4)) :
    o.Validate userID otpCode s =
      (uerr.elim
          (Outcome.returned
            (some { otp with Status := OTPStatusValidated, ValidatedAt := some t1 }) none)
          (fun err =>
            Outcome.returned none (some (GoError.wrapf "failed to update OTP status" err))),
        ⟨s4, [Event.FindByUserIDAndCode userID otpCode (some otp) none, Event.Now t0,
              Event.Now t1,
              Event.Update { otp with Status := OTPStatusValidated, ValidatedAt := some t1 }
                uerr]⟩) := by
  cases uerr <;>
    simp [otpUsecase.Validate, otpUsecase.callFindByUserIDAndCode, otpUsecase.validateOTPStatus,
      otpUsecase.markOTPAsValidated, otpUsecase.callNow, otpUsecase.callUpdate, hfind, hnow,
      hnotused, hnotafter, hnow1, hupd, Time.After]

/-- An error of the SQL repository's `Update` comes from outside the module. -/
theorem NewOTPRepository_Update_error {σ : Type} (db : SQLExecutor σ) (otp : OTP) (s : σ)
    (e : GoError) (h : ((NewOTPRepository db).Update otp s).1 = some e) :
    ∃ x, e = GoError.ext x := by
  simp only [NewOTPRepository, otpRepository.Update] at h
  split at h
  · simp only [Option.some.injEq] at h
    exact ⟨_, h.symm⟩
  · simp at h

/-- C11: for every found record in status `Created` whose `ExpiresAt` is
strictly before the clock reading `t0` of the status check, `Validate` calls
the store's `Update` exactly once, with that record's status set to `Expired`
and nothing else changed; when that `Update` succeeds, `Validate` fails with
`ErrOTPExpired` and returns no OTP. -/
theorem Validate_marks_expired {σ : Type} (o : otpUsecase σ) (userID otpCode : String)
    (s s1 s2 s3 : σ) (otp : OTP) (t0 : Time) (uerr : Option GoError)
    (hfind : o.otpRepo.FindByUserIDAndCode userID otpCode s = ((some otp, none), s1))
    (hnow : o.timeNow s1 = (t0, s2))
    (hstatus : otp.Status = OTPStatusCreated)
    (hpast : otp.ExpiresAt < t0)
    (hupd : o.otpRepo.Update { otp with Status := OTPStatusExpired } s2 = (uerr, s3)) :
    (o.Validate userID otpCode s).2.log =
      [Event.FindByUserIDAndCode userID otpCode (some otp) none, Event.Now t0,
       Event.Update { otp with Status := OTPStatusExpired } uerr] ∧
    ((o.Validate userID otpCode s).2.log.filter Event.isUpdate).length = 1 ∧
    (uerr = none →
      (o.Validate userID otpCode s).1
        = Outcome.returned none (some (GoError.domain ErrOTPExpired))) := by
  have h1 : otp.Status ≠ OTPStatusValidated := by rw [hstatus]; decide
  have h2 : otp.Status ≠ OTPStatusExpired := by rw [hstatus]; decide
  rw [Validate_eq_expire o userID otpCode s s1 s2 s3 otp t0 uerr hfind hnow h1 hpast h2 hupd]
  refine ⟨rfl, by simp [List.filter, Event.isUpdate], ?_⟩
  intro hu
  subst hu
  rfl

/-- The expired record of the engine's test suite. -/
theorem Validate_marks_expired_witness :
    ((stubRepository (none, none) (some expiredCreatedOTP, none) none none).FindByUserIDAndCode
        "user-1" "222222" () = ((some expiredCreatedOTP, none), ()) ∧
      fixedClock sampleNow () = (sampleNow, ()) ∧
      expiredCreatedOTP.Status = OTPStatusCreated ∧
      expiredCreatedOTP.ExpiresAt < sampleNow) ∧
    ((NewOtpUsecase (stubRepository (none, none) (some expiredCreatedOTP, none) none none)
        (stubGenerator "123456" none) (fixedClock sampleNow)).Validate
          "user-1" "222222" ()).1 = Outcome.returned none (some (GoError.domain ErrOTPExpired)) :=
  ⟨⟨rfl, rfl, rfl, by decide⟩,
    (Validate_marks_expired
      (NewOtpUsecase (stubRepository (none, none) (some expiredCreatedOTP, none) none none)
        (stubGenerator "123456" none) (fixedClock sampleNow))
      "user-1" "222222" () () () () expiredCreatedOTP sampleNow none rfl rfl rfl (by decide)
      rfl).2.2 rfl⟩

/-- C12: for every found record already in status `Expired` whose `ExpiresAt`
is before the clock reading `t0` of the status check, `Validate` fails with
`ErrOTPExpired` again and makes no `Update`: the run consists of the lookup
and one read of the clock. -/
theorem Validate_expired_again {σ : Type} (o : otpUsecase σ) (userID otpCode : String)
    (s s1 s2 : σ) (otp : OTP) (t0 : Time)
    (hfind : o.otpRepo.FindByUserIDAndCode userID otpCode s = ((some otp, none), s1))
    (hnow : o.timeNow s1 = (t0, s2))
    (hstatus : otp.Status = OTPStatusExpired)
    (hpast : otp.ExpiresAt < t0) :
    (o.Validate userID otpCode s).1
      = Outcome.returned none (some (GoError.domain ErrOTPExpired)) ∧
    (o.Validate userID otpCode s).2.log =
      [Event.FindByUserIDAndCode userID otpCode (some otp) none, Event.Now t0] ∧
    (∀ r uerr, Event.Update r uerr ∉ (o.Validate userID otpCode s).2.log) ∧
    (o.Validate userID otpCode s).2.ext = s2 := by
  rw [Validate_eq_expired o userID otpCode s s1 s2 otp t0 hfind hnow hpast hstatus]
  simp

/-- A record marked `Expired` one minute past its expiry. -/
theorem Validate_expired_again_witness :
    ((stubRepository (none, none) (some markedExpiredOTP, none) none none).FindByUserIDAndCode
        "user-1" "222222" () = ((some markedExpiredOTP, none), ()) ∧
      fixedClock sampleNow () = (sampleNow, ()) ∧
      markedExpiredOTP.Status = OTPStatusExpired ∧
      markedExpiredOTP.ExpiresAt < sampleNow) ∧
    ((NewOtpUsecase (stubRepository (none, none) (some markedExpiredOTP, none) none none)
        (stubGenerator "123456" none) (fixedClock sampleNow)).Validate
          "user-1" "222222" ()).1 = Outcome.returned none (some (GoError.domain ErrOTPExpired)) :=
  ⟨⟨rfl, rfl, rfl, by decide⟩,
    (Validate_expired_again
      (NewOtpUsecase (stubRepository (none, none) (some markedExpiredOTP, none) none none)
        (stubGenerator "123456" none) (fixedClock sampleNow))
      "user-1" "222222" () () () markedExpiredOTP sampleNow rfl rfl rfl (by decide)).1⟩

/-- C13: whenever the found record is in status `Created` and past its
`ExpiresAt`, and the store `Update` that marks it `Expired` fails with error
`e`, `Validate` returns no OTP and exactly `e`: the error is not wrapped and
`ErrOTPExpired` does not take its place. -/
theorem Validate_expire_update_failure {σ : Type} (o : otpUsecase σ)
    (userID otpCode : String) (s s1 s2 s3 : σ) (otp : OTP) (t0 : Time) (e : GoError)
    (hfind : o.otpRepo.FindByUserIDAndCode userID otpCode s = ((some otp, none), s1))
    (hnow : o.timeNow s1 = (t0, s2))
    (hstatus : otp.Status = OTPStatusCreated)
    (hpast : otp.ExpiresAt < t0)
    (hupd : o.otpRepo.Update { otp with Status := OTPStatusExpired } s2 = (some e, s3)) :
    (o.Validate userID otpCode s).1 = Outcome.returned none (some e) ∧
    (o.Validate userID otpCode s).2.log =
      [Event.FindByUserIDAndCode userID otpCode (some otp) none, Event.Now t0,
       Event.Update { otp with Status := OTPStatusExpired } (some e)] := by
  have h1 : otp.Status ≠ OTPStatusValidated := by rw [hstatus]; decide
  have h2 : otp.Status ≠ OTPStatusExpired := by rw [hstatus]; decide
  rw [Validate_eq_expire o userID otpCode s s1 s2 s3 otp t0 (some e) hfind hnow h1 hpast h2 hupd]
  exact ⟨rfl, rfl⟩

/-- The failing write-back of the engine's test suite: the store's error comes
back as is. -/
theorem Validate_expire_update_failure_witness :
    ((stubRepository (none, none) (some expiredCreatedOTP, none) none
        (some (GoError.ext (.other "db update failed")))).FindByUserIDAndCode
        "user-1" "555555" () = ((some expiredCreatedOTP, none), ()) ∧
      expiredCreatedOTP.Status = OTPStatusCreated ∧
      expiredCreatedOTP.ExpiresAt < sampleNow) ∧
    ((NewOtpUsecase (stubRepository (none, none) (some expiredCreatedOTP, none) none
        (some (GoError.ext (.other "db update failed"))))
        (stubGenerator "123456" none) (fixedClock sampleNow)).Validate
          "user-1" "555555" ()).1
      = Outcome.returned none (some (GoError.ext (.other "db update failed"))) :=
  ⟨⟨rfl, rfl, by decide⟩,
    (Validate_expire_update_failure
      (NewOtpUsecase (stubRepository (none, none) (some expiredCreatedOTP, none) none
        (some (GoError.ext (.other "db update failed"))))
        (stubGenerator "123456" none) (fixedClock sampleNow))
      "user-1" "555555" () () () () expiredCreatedOTP sampleNow
      (GoError.ext (.other "db update failed")) rfl rfl rfl (by decide) rfl).1⟩

/-- C14: for every found record in status `Created` whose `ExpiresAt` is not
before the clock reading `t0` of the status check, when the store `Update`,
run on that record with `Status = Validated` and `ValidatedAt` set to `t1`, the
reading of the clock taken for the stamp, succeeds and leaves state `s4`,
`Validate` returns that record with `Status = Validated` and
`ValidatedAt = t1`, all other fields as found; the run makes a single `Update`,
the record it passes is the record returned, and the run ends in `s4`, the
state that `Update` left. -/
theorem Validate_success_record {σ : Type} (o : otpUsecase σ) (userID otpCode : String)
    (s s1 s2 s3 s4 : σ) (otp : OTP) (t0 t1 : Time)
    (hfind : o.otpRepo.FindByUserIDAndCode userID otpCode s = ((some otp, none), s1))
    (hnow : o.timeNow s1 = (t0, s2))
    (hstatus : otp.Status = OTPStatusCreated)
    (hvalid : ¬ otp.ExpiresAt < t0)
    (hnow1 : o.timeNow s2 = (t1, s3))
    (hupd : o.otpRepo.Update
      { otp with Status := OTPStatusValidated, ValidatedAt := some t1 } s3 = (none, s4)) :
    ∃ r : OTP,
      (o.Validate userID otpCode s).1 = Outcome.returned (some r) none ∧
      r.Status = OTPStatusValidated ∧ r.ValidatedAt = some t1 ∧
      r.ID = otp.ID ∧ r.UserID = otp.UserID ∧ r.OTPCode = otp.OTPCode ∧
      r.CreatedAt = otp.CreatedAt ∧ r.ExpiresAt = otp.ExpiresAt ∧
      (o.Validate userID otpCode s).2.log =
        [Event.FindByUserIDAndCode userID otpCode (some otp) none, Event.Now t0, Event.Now t1,
         Event.Update r none] ∧
      ((o.Validate userID otpCode s).2.log.filter Event.isUpdate).length = 1 ∧
      (o.Validate userID otpCode s).2.ext = s4 ∧
      (o.otpRepo.Update r s3).2 = s4 := by
  have h1 : otp.Status ≠ OTPStatusValidated := by rw [hstatus]; decide
  refine ⟨{ otp with Status := OTPStatusValidated, ValidatedAt := some t1 }, ?_⟩
  rw [Validate_eq_mark o userID otpCode s s1 s2 s3 s4 otp t0 t1 none hfind hnow h1 hvalid hnow1
    hupd]
  refine ⟨rfl, rfl, rfl, rfl, rfl, rfl, rfl, rfl, rfl, ?_, rfl, ?_⟩
  · simp [List.filter, Event.isUpdate]
  · rw [hupd]

/-- An OTP created on the empty table and validated while the clock still
reads `sampleNow`: the record comes back `Validated` and stamped, the run ends
in the state the store's `Update` left, and the row of the table is
`Validated` with the same stamp. -/
theorem Validate_success_record_witness :
    ((memUsecase (scriptedEnv [sampleNow] 42)).otpRepo.FindByUserIDAndCode "alice" "000042"
        ((memUsecase (scriptedEnv [sampleNow] 42)).Create "alice" ⟨Table.empty, 0⟩).2.ext
      = ((some { ID := 1, UserID := "alice", OTPCode := "000042", Status := OTPStatusCreated,
                 CreatedAt := sampleNow, ExpiresAt := sampleNow + 2 * Minute,
                 ValidatedAt := none }, none),
          ⟨⟨[{ ID := 1, UserID := "alice", OTPCode := "000042", Status := 1,
               CreatedAt := sampleNow, ExpiresAt := sampleNow + 2 * Minute,
               ValidatedAt := none }], 2⟩, 2⟩) ∧
      ¬ sampleNow + 2 * Minute < sampleNow) ∧
    (∃ r : OTP,
      ((memUsecase (scriptedEnv [sampleNow] 42)).Validate "alice" "000042"
        ((memUsecase (scriptedEnv [sampleNow] 42)).Create "alice" ⟨Table.empty, 0⟩).2.ext).1
        = Outcome.returned (some r) none ∧
      r.Status = OTPStatusValidated ∧ r.ValidatedAt = some sampleNow ∧
      ((memUsecase (scriptedEnv [sampleNow] 42)).Validate "alice" "000042"
        ((memUsecase (scriptedEnv [sampleNow] 42)).Create "alice" ⟨Table.empty, 0⟩).2.ext).2.ext
        = ⟨⟨[{ ID := 1, UserID := "alice", OTPCode := "000042", Status := 2,
               CreatedAt := sampleNow, ExpiresAt := sampleNow + 2 * Minute,
               ValidatedAt := some sampleNow }], 2⟩, 4⟩) :=
  ⟨⟨rfl, by decide⟩,
    (Validate_success_record (memUsecase (scriptedEnv [sampleNow] 42)) "alice" "000042"
      ((memUsecase (scriptedEnv [sampleNow] 42)).Create "alice" ⟨Table.empty, 0⟩).2.ext
      ⟨⟨[{ ID := 1, UserID := "alice", OTPCode := "000042", Status := 1,
           CreatedAt := sampleNow, ExpiresAt := sampleNow + 2 * Minute,
           ValidatedAt := none }], 2⟩, 2⟩
      ⟨⟨[{ ID := 1, UserID := "alice", OTPCode := "000042", Status := 1,
           CreatedAt := sampleNow, ExpiresAt := sampleNow + 2 * Minute,
           ValidatedAt := none }], 2⟩, 3⟩
      ⟨⟨[{ ID := 1, UserID := "alice", OTPCode := "000042", Status := 1,
           CreatedAt := sampleNow, ExpiresAt := sampleNow + 2 * Minute,
           ValidatedAt := none }], 2⟩, 4⟩
      ⟨⟨[{ ID := 1, UserID := "alice", OTPCode := "000042", Status := 2,
           CreatedAt := sampleNow, ExpiresAt := sampleNow + 2 * Minute,
           ValidatedAt := some sampleNow }], 2⟩, 4⟩
      { ID := 1, UserID := "alice", OTPCode := "000042", Status := OTPStatusCreated,
        CreatedAt := sampleNow, ExpiresAt := sampleNow + 2 * Minute, ValidatedAt := none }
      sampleNow sampleNow rfl rfl rfl (by decide) rfl rfl).imp
      (fun _ h => ⟨h.1, h.2.1, h.2.2.1, h.2.2.2.2.2.2.2.2.2.2.1⟩)⟩

/-- C15: for the engine over the SQL store, whenever the found record is
neither `Validated` nor past its expiry and the store `Update` that marks it
`Validated` fails with error `e`, `Validate` returns no OTP and the error
`fmt.Errorf("failed to update OTP status: %w", e)`: its text starts with
"failed to update OTP status", it unwraps to `e`, it is not a domain error and
holds none on its chain. -/
theorem Validate_mark_update_failure {σ : Type} (db : SQLExecutor σ)
    (gen : OTPGenerator σ) (timeNow : σ → Time × σ) (userID otpCode : String)
    (s s1 s2 s3 s4 : σ) (otp : OTP) (t0 t1 : Time) (e : GoError)
    (hfind : (NewOTPRepository db).FindByUserIDAndCode userID otpCode s
      = ((some otp, none), s1))
    (hnow : timeNow s1 = (t0, s2))
    (hnotused : otp.Status ≠ OTPStatusValidated)
    (hvalid : ¬ otp.ExpiresAt < t0)
    (hnow1 : timeNow s2 = (t1, s3))
    (hupd : (NewOTPRepository db).Update
      { otp with Status := OTPStatusValidated, ValidatedAt := some t1 } s3 = (some e, s4)) :
    ((NewOtpUsecase (NewOTPRepository db) gen timeNow).Validate userID otpCode s).1 =
      Outcome.returned none (some (GoError.wrapf "failed to update OTP status" e)) ∧
    (GoError.wrapf "failed to update OTP status" e).Error
      = "failed to update OTP status" ++ (": " ++ e.Error) ∧
    (GoError.wrapf "failed to update OTP status" e).Unwrap = some e ∧
    (GoError.wrapf "failed to update OTP status" e).asDomainError = none ∧
    (∀ d, GoError.wrapf "failed to update OTP status" e ≠ GoError.domain d) := by
  obtain ⟨x, rfl⟩ := NewOTPRepository_Update_error db _ s3 e (by rw [hupd])
  rw [Validate_eq_mark (NewOtpUsecase (NewOTPRepository db) gen timeNow) userID otpCode
    s s1 s2 s3 s4 otp t0 t1 (some (GoError.ext x)) hfind hnow hnotused hvalid hnow1 hupd]
  refine ⟨rfl, ?_, rfl, rfl, fun d => by simp⟩
  show "failed to update OTP status" ++ ": " ++ x.Error
    = "failed to update OTP status" ++ (": " ++ x.Error)
  exact String.append_assoc _ _ _

/-- The failing final write-back of the engine's test suite, on the SQL store. -/
theorem Validate_mark_update_failure_witness :
    ((NewOTPRepository (stubDB (.error .sqlErrNoRows) (.ok freshRow) none
        (some (.other "db update failed")))).FindByUserIDAndCode "user-1" "333333" ()
        = ((some freshOTP, none), ()) ∧
      freshOTP.Status ≠ OTPStatusValidated ∧ ¬ freshOTP.ExpiresAt < sampleNow ∧
      (NewOTPRepository (stubDB (.error .sqlErrNoRows) (.ok freshRow) none
        (some (.other "db update failed")))).Update
        { freshOTP with Status := OTPStatusValidated, ValidatedAt := some sampleNow } ()
        = (some (GoError.ext (.other "db update failed")), ())) ∧
    ((NewOtpUsecase (NewOTPRepository (stubDB (.error .sqlErrNoRows) (.ok freshRow) none
        (some (.other "db update failed")))) (stubGenerator "123456" none)
        (fixedClock sampleNow)).Validate "user-1" "333333" ()).1 =
      Outcome.returned none (some (GoError.wrapf "failed to update OTP status"
        (GoError.ext (.other "db update failed")))) ∧
    (GoError.wrapf "failed to update OTP status" (GoError.ext (.other "db update failed"))).Error
      = "failed to update OTP status: db update failed" :=
  ⟨⟨by decide, by decide, by decide, rfl⟩,
    (Validate_mark_update_failure
      (stubDB (.error .sqlErrNoRows) (.ok freshRow) none (some (.other "db update failed")))
      (stubGenerator "123456" none) (fixedClock sampleNow) "user-1" "333333" () () () () ()
      freshOTP sampleNow sampleNow (GoError.ext (.other "db update failed")) (by decide) rfl
      (by decide) (by decide) rfl rfl).1, by decide⟩

/-- Every run of `Validate` takes one of six paths: the lookup fails; the lookup
gives neither record nor error; or, on a found record, one of the four paths
above. -/
theorem Validate_cases {σ : Type} (o : otpUsecase σ) (userID otpCode : String) (s : σ) :
    (∃ found e s1,
      o.otpRepo.FindByUserIDAndCode userID otpCode s = ((found, some e), s1) ∧
      o.Validate userID otpCode s = (Outcome.returned none (some e),
        ⟨s1, [Event.FindByUserIDAndCode userID otpCode found (some e)]⟩)) ∨
    (∃ s1 t0 s2,
      o.otpRepo.FindByUserIDAndCode userID otpCode s = ((none, none), s1) ∧
      o.timeNow s1 = (t0, s2) ∧
      o.Validate userID otpCode s = (Outcome.nilDereference,
        ⟨s2, [Event.FindByUserIDAndCode userID otpCode none none, Event.Now t0]⟩)) ∨
    (∃ otp s1 t0 s2,
      o.otpRepo.FindByUserIDAndCode userID otpCode s = ((some otp, none), s1) ∧
      o.timeNow s1 = (t0, s2) ∧
      ((otp.Status = OTPStatusValidated ∧
        o.Validate userID otpCode s =
          (Outcome.returned none (some (GoError.domain ErrOTPUsed)),
            ⟨s2, [Event.FindByUserIDAndCode userID otpCode (some otp) none, Event.Now t0]⟩)) ∨
       (otp.Status ≠ OTPStatusValidated ∧ otp.ExpiresAt < t0 ∧
        otp.Status ≠ OTPStatusExpired ∧
        ∃ uerr s3,
          o.otpRepo.Update { otp with Status := OTPStatusExpired } s2 = (uerr, s3) ∧
          o.Validate userID otpCode s =
            (Outcome.returned none (some (uerr.getD (GoError.domain ErrOTPExpired))),
              ⟨s3, [Event.FindByUserIDAndCode userID otpCode (some otp) none, Event.Now t0,
                    Event.Update { otp with Status := OTPStatusExpired } uerr]⟩)) ∨
       (otp.Status = OTPStatusExpired ∧ otp.ExpiresAt < t0 ∧
        o.Validate userID otpCode s =
          (Outcome.returned none (some (GoError.domain ErrOTPExpired)),
            ⟨s2, [Event.FindByUserIDAndCode userID otpCode (some otp) none, Event.Now t0]⟩)) ∨
       (otp.Status ≠ OTPStatusValidated ∧ ¬ otp.ExpiresAt < t0 ∧
        ∃ t1 s3 uerr s4,
          o.timeNow s2 = (t1, s3) ∧
          o.otpRepo.Update
            { otp with Status := OTPStatusValidated, ValidatedAt := some t1 } s3
              = (uerr, s4) ∧
          o.Validate userID otpCode s =
            (uerr.elim
                (Outcome.returned
                  (some { otp with Status := OTPStatusValidated, ValidatedAt := some t1 }) none)
                (fun err =>
                  Outcome.returned none
                    (some (GoError.wrapf "failed to update OTP status" err))),
              ⟨s4, [Event.FindByUserIDAndCode userID otpCode (some otp) none, Event.Now t0,
                    Event.Now t1,
                    Event.Update
                      { otp with Status := OTPStatusValidated, ValidatedAt := some t1 }
                      uerr]⟩)))) := by
  rcases hfind : o.otpRepo.FindByUserIDAndCode userID otpCode s with ⟨⟨found, ferr⟩, s1⟩
  rcases hnow : o.timeNow s1 with ⟨t0, s2⟩
  cases ferr with
  | some e =>
    left
    exact ⟨found, e, s1, rfl, by
      simp [otpUsecase.Validate, otpUsecase.callFindByUserIDAndCode, hfind]⟩
  | none =>
    right
    cases found with
    | none =>
      left
      exact ⟨s1, t0, s2, rfl, hnow, by
        simp [otpUsecase.Validate, otpUsecase.callFindByUserIDAndCode, otpUsecase.callNow,
          hfind, hnow]⟩
    | some otp =>
      right
      refine ⟨otp, s1, t0, s2, rfl, hnow, ?_⟩
      by_cases hused : otp.Status = OTPStatusValidated
      · left
        exact ⟨hused, Validate_eq_used o userID otpCode s s1 s2 otp t0 hfind hnow hused⟩
      · right
        by_cases hpast : otp.ExpiresAt < t0
        · by_cases hexp : otp.Status = OTPStatusExpired
          · right
            left
            exact ⟨hexp, hpast,
              Validate_eq_expired o userID otpCode s s1 s2 otp t0 hfind hnow hpast hexp⟩
          · left
            rcases hupd : o.otpRepo.Update { otp with Status := OTPStatusExpired } s2 with
              ⟨uerr, s3⟩
            exact ⟨hused, hpast, hexp, uerr, s3, rfl,
              Validate_eq_expire o userID otpCode s s1 s2 s3 otp t0 uerr hfind hnow hused hpast
                hexp hupd⟩
        · right
          right
          rcases hnow1 : o.timeNow s2 with ⟨t1, s3⟩
          rcases hupd : o.otpRepo.Update
            { otp with Status := OTPStatusValidated, ValidatedAt := some t1 } s3 with ⟨uerr, s4⟩
          exact ⟨hused, hpast, t1, s3, uerr, s4, rfl, hupd,
            Validate_eq_mark o userID otpCode s s1 s2 s3 s4 otp t0 t1 uerr hfind hnow hused hpast
              hnow1 hupd⟩

/-- C17, the code at the failing input: a found record in status `Expired`
whose `ExpiresAt` is not before the clock reading passes both checks of
`validateOTPStatus`, and `Validate` writes and returns it with status
`Validated`.  The same happens on the in-memory table from the empty store:
an OTP is created, a validation three minutes later marks it `Expired`, and a
validation at a clock that has stepped back two minutes turns it `Validated`. -/
theorem Validate_leaves_expired :
    (expiredNotDueOTP.Status = OTPStatusExpired ∧
      ((NewOtpUsecase (stubRepository (none, none) (some expiredNotDueOTP, none) none none)
        (stubGenerator "123456" none) (fixedClock sampleNow)).Validate
          "user-1" "333333" ()) =
        (Outcome.returned
          (some { expiredNotDueOTP with
            Status := OTPStatusValidated, ValidatedAt := some sampleNow }) none,
         ⟨(), [Event.FindByUserIDAndCode "user-1" "333333" (some expiredNotDueOTP) none,
               Event.Now sampleNow, Event.Now sampleNow,
               Event.Update { expiredNotDueOTP with
                 Status := OTPStatusValidated, ValidatedAt := some sampleNow } none]⟩)) ∧
    (((memUsecase (scriptedEnv steppedBackReadings 42)).Validate "alice" "000042"
        ((memUsecase (scriptedEnv steppedBackReadings 42)).Create "alice"
          ⟨Table.empty, 0⟩).2.ext).2.ext.table.rows.map (fun row => row.Status)
        = [OTPStatusExpired] ∧
      ((memUsecase (scriptedEnv steppedBackReadings 42)).Validate "alice" "000042"
        ((memUsecase (scriptedEnv steppedBackReadings 42)).Validate "alice" "000042"
          ((memUsecase (scriptedEnv steppedBackReadings 42)).Create "alice"
            ⟨Table.empty, 0⟩).2.ext).2.ext).2.ext.table.rows.map (fun row => row.Status)
        = [OTPStatusValidated]) := by
  refine ⟨⟨rfl, ?_⟩, ?_, ?_⟩
  · rfl
  · decide
  · decide

theorem GoError.asDomainError_iff_chain (err : GoError) (d : DomainError) :
    err.asDomainError = some d ↔ GoError.domain d ∈ err.chain := by
  induction err with
  | domain d1 => simp [GoError.asDomainError, GoError.chain, eq_comm]
  | ext e => simp [GoError.asDomainError, GoError.chain]
  | wrapf ctx inner ih => simp [GoError.asDomainError, GoError.chain, ih]

/-- C20: for every error whose chain contains a domain error `d` and every
response not yet committed, `ErrorHandler` writes status 404 if `d.Code` is
the not-found code "otp_not_found" and status 400 otherwise, with a body whose
`error` is `d.Code` and whose `error_description` is `d.Message`. -/
theorem ErrorHandler_domain (err : GoError) (d : DomainError) (resp : Response)
    (hchain : GoError.domain d ∈ err.chain) (hfresh : resp.Committed = false) :
    ErrorHandler err resp =
      { Committed := true
        Status := if d.Code = "otp_not_found" then 404 else 400
        Body := .json { Error := d.Code, ErrorDescription := d.Message } } := by
  have h := (GoError.asDomainError_iff_chain err d).2 hchain
  simp only [ErrorHandler, hfresh, h, Response.JSON]
  by_cases hc : d.Code = "otp_not_found"
  · simp [hc, ErrOTPNotFound, NewDomainError, StatusNotFound]
  · simp [hc, ErrOTPNotFound, NewDomainError, StatusBadRequest]

/-- A wrapped not-found error gives 404, a rate-limit error gives 400. -/
theorem ErrorHandler_domain_witness :
    (GoError.domain ErrOTPNotFound ∈
        (GoError.wrapf "lookup" (GoError.domain ErrOTPNotFound)).chain ∧
      freshResponse.Committed = false) ∧
    ErrorHandler (GoError.wrapf "lookup" (GoError.domain ErrOTPNotFound)) freshResponse =
      { Committed := true, Status := 404,
        Body := .json { Error := "otp_not_found", ErrorDescription := "OTP Not Found" } } ∧
    (ErrorHandler (GoError.domain ErrOTPRateLimitExceeded) freshResponse).Status = 400 :=
  ⟨⟨by decide, rfl⟩,
    ErrorHandler_domain (GoError.wrapf "lookup" (GoError.domain ErrOTPNotFound)) ErrOTPNotFound
      freshResponse (by decide) rfl,
    by decide⟩

/-! ## In-memory table: effect of the engine on the rows -/

/-- The states a run of `Create` can end in, by the calls it made. -/
theorem Create_ext_cases {σ : Type} (o : otpUsecase σ) (userID : String) (s : σ) :
    ∃ s2, (s2 = (o.otpRepo.GetLastByUserID userID s).2 ∨
        s2 = (o.timeNow (o.otpRepo.GetLastByUserID userID s).2).2) ∧
      ((o.Create userID s).2.ext = s2 ∨
       (o.Create userID s).2.ext = (o.otpGenerator.Generate s2).2 ∨
       ∃ code now, (o.Create userID s).2.ext =
          (o.otpRepo.Create (otpUsecase.newRecord userID code now)
            (o.timeNow (o.otpGenerator.Generate s2).2).2).2) := by
  have hchk : (o.checkRateLimit userID ⟨s, []⟩).2.ext = (o.otpRepo.GetLastByUserID userID s).2 ∨
      (o.checkRateLimit userID ⟨s, []⟩).2.ext
        = (o.timeNow (o.otpRepo.GetLastByUserID userID s).2).2 := by
    simp only [otpUsecase.checkRateLimit, otpUsecase.callGetLastByUserID, otpUsecase.callNow]
    split
    · split_ifs
      · right; rfl
      · left; rfl
    · left; rfl
  refine ⟨(o.checkRateLimit userID ⟨s, []⟩).2.ext, hchk, ?_⟩
  unfold otpUsecase.Create
  generalize o.checkRateLimit userID ⟨s, []⟩ = chk
  rcases chk with ⟨lim, w⟩
  cases lim
  · rcases hg : o.otpGenerator.Generate w.ext with ⟨⟨code, gerr⟩, s3⟩
    cases gerr with
    | some e =>
      right; left
      simp [otpUsecase.callGenerate, hg]
    | none =>
      right; right
      refine ⟨code, (o.timeNow s3).1, ?_⟩
      rcases hc : o.otpRepo.Create (otpUsecase.newRecord userID code (o.timeNow s3).1)
        (o.timeNow s3).2 with ⟨cerr, s5⟩
      cases cerr <;>
        simp [otpUsecase.callGenerate, otpUsecase.callNow, otpUsecase.callCreate, hg, hc]
  · left
    simp

theorem memNow_table {ω : Type} (E : Env ω) (s : Sys ω) : (memNow E s).2.table = s.table :=
  rfl

/-- The repository leaves the state as its statement leaves it. -/
theorem otpRepository_Create_snd {σ : Type} (db : SQLExecutor σ) (otp : OTP) (s : σ) :
    (otpRepository.Create db otp s).2
      = (db.ExecInsert otp.UserID otp.OTPCode otp.Status otp.ExpiresAt s).2 := by
  unfold otpRepository.Create
  rcases db.ExecInsert otp.UserID otp.OTPCode otp.Status otp.ExpiresAt s with ⟨r, s1⟩
  cases r with
  | none => rfl
  | some err =>
    simp only
    split_ifs <;> rfl

theorem otpRepository_Update_snd {σ : Type} (db : SQLExecutor σ) (otp : OTP) (s : σ) :
    (otpRepository.Update db otp s).2 = (db.ExecUpdate otp.Status otp.ValidatedAt otp.ID s).2 := by
  unfold otpRepository.Update
  rcases db.ExecUpdate otp.Status otp.ValidatedAt otp.ID s with ⟨r, s1⟩
  cases r <;> rfl

theorem otpRepository_Find_snd {σ : Type} (db : SQLExecutor σ) (userID otpCode : String)
    (s : σ) :
    (otpRepository.FindByUserIDAndCode db userID otpCode s).2
      = (db.GetByUserIDAndCode userID otpCode s).2 := by
  unfold otpRepository.FindByUserIDAndCode
  rcases db.GetByUserIDAndCode userID otpCode s with ⟨r, s1⟩
  cases r with
  | ok row => rfl
  | error err =>
    simp only
    split_ifs <;> rfl

theorem otpRepository_GetLast_snd {σ : Type} (db : SQLExecutor σ) (userID : String) (s : σ) :
    (otpRepository.GetLastByUserID db userID s).2 = (db.GetLastByUserID userID s).2 := by
  unfold otpRepository.GetLastByUserID
  rcases db.GetLastByUserID userID s with ⟨r, s1⟩
  cases r with
  | ok row => rfl
  | error err =>
    simp only
    split_ifs <;> rfl

/-- A found record is the entity of the row the query gave. -/
theorem otpRepository_Find_some {σ : Type} (db : SQLExecutor σ) (userID otpCode : String)
    (s : σ) (otp : OTP) (err : Option GoError)
    (h : (otpRepository.FindByUserIDAndCode db userID otpCode s).1 = (some otp, err)) :
    ∃ row, (db.GetByUserIDAndCode userID otpCode s).1 = .ok row ∧ otp = row.ToEntity := by
  unfold otpRepository.FindByUserIDAndCode at h
  rcases hq : db.GetByUserIDAndCode userID otpCode s with ⟨r, s1⟩
  rw [hq] at h
  cases r with
  | ok row =>
    simp only [Prod.mk.injEq, Option.some.injEq] at h
    exact ⟨row, rfl, h.1.symm⟩
  | error e =>
    simp only at h
    split_ifs at h <;> simp at h

theorem memGenerate_table {ω : Type} (E : Env ω) (s : Sys ω) :
    ((NewOTPGenerator (memRand E)).Generate s).2.table = s.table := by
  simp only [NewOTPGenerator, entityOTPGenerator.Generate, memRand]
  rcases E.randInt 1000000 s.env with ⟨r, e1⟩
  cases r <;> rfl

theorem memGetLast_table {ω : Type} (E : Env ω) (userID : String) (s : Sys ω) :
    ((NewOTPRepository (memDB E)).GetLastByUserID userID s).2.table = s.table := by
  show (otpRepository.GetLastByUserID (memDB E) userID s).2.table = s.table
  rw [otpRepository_GetLast_snd]
  show (memGetLastByUserID E userID s).2.table = s.table
  unfold memGetLastByUserID
  split
  · rfl
  · split <;> rfl

theorem memFind_table {ω : Type} (E : Env ω) (userID otpCode : String) (s : Sys ω) :
    ((NewOTPRepository (memDB E)).FindByUserIDAndCode userID otpCode s).2.table = s.table := by
  show (otpRepository.FindByUserIDAndCode (memDB E) userID otpCode s).2.table = s.table
  rw [otpRepository_Find_snd]
  show (memGetByUserIDAndCode E userID otpCode s).2.table = s.table
  unfold memGetByUserIDAndCode
  split
  · rfl
  · split <;> rfl

/-- A record found on the table is the entity of one of its rows. -/
theorem memFind_row {ω : Type} (E : Env ω) (userID otpCode : String) (s : Sys ω) (otp : OTP)
    (err : Option GoError)
    (h : ((NewOTPRepository (memDB E)).FindByUserIDAndCode userID otpCode s).1
      = (some otp, err)) :
    ∃ row ∈ s.table.rows, otp = row.ToEntity := by
  obtain ⟨row, hrow, rfl⟩ := otpRepository_Find_some (memDB E) userID otpCode s otp err h
  refine ⟨row, ?_, rfl⟩
  change (memGetByUserIDAndCode E userID otpCode s).1 = .ok row at hrow
  unfold memGetByUserIDAndCode at hrow
  split at hrow
  · simp at hrow
  · split at hrow
    · rename_i r hfound
      simp only [Except.ok.injEq] at hrow
      subst hrow
      exact List.mem_of_find?_eq_some hfound
    · simp at hrow

/-- The store's `Update` leaves the table as it is or sets the two columns on
the rows with the record's identifier. -/
theorem memUpdate_table {ω : Type} (E : Env ω) (r : OTP) (s : Sys ω) :
    ((NewOTPRepository (memDB E)).Update r s).2.table = s.table ∨
    ((NewOTPRepository (memDB E)).Update r s).2.table
      = s.table.setStatus r.Status r.ValidatedAt r.ID := by
  show (otpRepository.Update (memDB E) r s).2.table = s.table ∨
    (otpRepository.Update (memDB E) r s).2.table = s.table.setStatus r.Status r.ValidatedAt r.ID
  rw [otpRepository_Update_snd]
  show (memUpdate E r.Status r.ValidatedAt r.ID s).2.table = s.table ∨
    (memUpdate E r.Status r.ValidatedAt r.ID s).2.table
      = s.table.setStatus r.Status r.ValidatedAt r.ID
  unfold memUpdate
  split
  · left; rfl
  · right; rfl

/-- The store's `Create` leaves the table as it is or inserts one row. -/
theorem memCreate_table {ω : Type} (E : Env ω) (r : OTP) (s : Sys ω) :
    ((NewOTPRepository (memDB E)).Create r s).2.table = s.table ∨
    ∃ createdAt, ((NewOTPRepository (memDB E)).Create r s).2.table
      = s.table.insert r.UserID r.OTPCode r.Status createdAt r.ExpiresAt := by
  show (otpRepository.Create (memDB E) r s).2.table = s.table ∨
    ∃ createdAt, (otpRepository.Create (memDB E) r s).2.table
      = s.table.insert r.UserID r.OTPCode r.Status createdAt r.ExpiresAt
  rw [otpRepository_Create_snd]
  show (memInsert E r.UserID r.OTPCode r.Status r.ExpiresAt s).2.table = s.table ∨
    ∃ createdAt, (memInsert E r.UserID r.OTPCode r.Status r.ExpiresAt s).2.table
      = s.table.insert r.UserID r.OTPCode r.Status createdAt r.ExpiresAt
  unfold memInsert
  split
  · left; rfl
  · split
    · left; rfl
    · right; exact ⟨_, rfl⟩

/-- A run of `Create` on the in-memory table leaves the rows as they are or
inserts one row in status `Created` for the user. -/
theorem memUsecase_Create_table {ω : Type} (E : Env ω) (userID : String) (s : Sys ω) :
    ((memUsecase E).Create userID s).2.ext.table = s.table ∨
    ∃ code now createdAt, ((memUsecase E).Create userID s).2.ext.table
      = s.table.insert userID code OTPStatusCreated createdAt (now + 2 * Minute) := by
  obtain ⟨s2, hs2, hfin⟩ := Create_ext_cases (memUsecase E) userID s
  have ht2 : s2.table = s.table := by
    rcases hs2 with h | h
    · rw [h]
      exact memGetLast_table E userID s
    · rw [h]
      exact (memNow_table E _).trans (memGetLast_table E userID s)
  rcases hfin with h | h | ⟨code, now, h⟩
  · left
    rw [h, ht2]
  · left
    rw [h]
    exact (memGenerate_table E s2).trans ht2
  · rw [h]
    have hpre : ((memUsecase E).timeNow ((memUsecase E).otpGenerator.Generate s2).2).2.table
        = s.table :=
      (memNow_table E _).trans ((memGenerate_table E s2).trans ht2)
    rcases memCreate_table E (otpUsecase.newRecord userID code now)
      ((memUsecase E).timeNow ((memUsecase E).otpGenerator.Generate s2).2).2 with hc | ⟨t, hc⟩
    · left
      exact hc.trans hpre
    · right
      refine ⟨code, now, t, ?_⟩
      rw [← hpre]
      exact hc

/-- A run of `Validate` on the in-memory table leaves the rows as they are, or
sets the status of the rows sharing the identifier of a row whose status was
not `Validated`: to `Expired` with `validated_at` as it was, or to
`Validated` with `validated_at` set. -/
theorem memUsecase_Validate_table {ω : Type} (E : Env ω) (userID otpCode : String)
    (s : Sys ω) :
    ((memUsecase E).Validate userID otpCode s).2.ext.table = s.table ∨
    ∃ row ∈ s.table.rows, row.ToEntity.Status ≠ OTPStatusValidated ∧
      (((memUsecase E).Validate userID otpCode s).2.ext.table
          = s.table.setStatus OTPStatusExpired row.ValidatedAt row.ID ∨
       ∃ t1, ((memUsecase E).Validate userID otpCode s).2.ext.table
          = s.table.setStatus OTPStatusValidated (some t1) row.ID) := by
  rcases Validate_cases (memUsecase E) userID otpCode s with
    ⟨found, e, s1, hfind, hv⟩ | ⟨s1, t0, s2, hfind, hnow, hv⟩ |
    ⟨otp, s1, t0, s2, hfind, hnow, ⟨-, hv⟩ | ⟨hnu, -, -, uerr, s3, hupd, hv⟩ | ⟨-, -, hv⟩ |
      ⟨hnu, -, t1, s3, uerr, s4, hnow1, hupd, hv⟩⟩
  · left
    rw [hv]
    have := memFind_table E userID otpCode s
    rw [show (NewOTPRepository (memDB E)).FindByUserIDAndCode userID otpCode s
      = ((found, some e), s1) from hfind] at this
    exact this
  · left
    rw [hv]
    have h1 := memFind_table E userID otpCode s
    rw [show (NewOTPRepository (memDB E)).FindByUserIDAndCode userID otpCode s
      = ((none, none), s1) from hfind] at h1
    have h2 := memNow_table E s1
    rw [show memNow E s1 = (t0, s2) from hnow] at h2
    exact h2.trans h1
  all_goals
    have h1 := memFind_table E userID otpCode s
    rw [show (NewOTPRepository (memDB E)).FindByUserIDAndCode userID otpCode s
      = ((some otp, none), s1) from hfind] at h1
    have h2 := memNow_table E s1
    rw [show memNow E s1 = (t0, s2) from hnow] at h2
    have h12 : s2.table = s.table := h2.trans h1
  · left
    rw [hv]
    exact h12
  · obtain ⟨row, hrow, rfl⟩ := memFind_row E userID otpCode s otp none (by
      rw [show (NewOTPRepository (memDB E)).FindByUserIDAndCode userID otpCode s
        = ((some otp, none), s1) from hfind])
    have h3 := memUpdate_table E { row.ToEntity with Status := OTPStatusExpired } s2
    rw [show (NewOTPRepository (memDB E)).Update
      { row.ToEntity with Status := OTPStatusExpired } s2 = (uerr, s3) from hupd] at h3
    rw [hv]
    rcases h3 with h3 | h3
    · left
      exact h3.trans h12
    · right
      refine ⟨row, hrow, hnu, Or.inl ?_⟩
      rw [← h12]
      exact h3
  · left
    rw [hv]
    exact h12
  · obtain ⟨row, hrow, rfl⟩ := memFind_row E userID otpCode s otp none (by
      rw [show (NewOTPRepository (memDB E)).FindByUserIDAndCode userID otpCode s
        = ((some otp, none), s1) from hfind])
    have h23 := memNow_table E s2
    rw [show memNow E s2 = (t1, s3) from hnow1] at h23
    have h3 := memUpdate_table E
      { row.ToEntity with Status := OTPStatusValidated, ValidatedAt := some t1 } s3
    rw [show (NewOTPRepository (memDB E)).Update
      { row.ToEntity with Status := OTPStatusValidated, ValidatedAt := some t1 } s3
        = (uerr, s4) from hupd] at h3
    rw [hv]
    rcases h3 with h3 | h3
    · left
      exact h3.trans (h23.trans h12)
    · right
      refine ⟨row, hrow, hnu, Or.inr ⟨t1, ?_⟩⟩
      rw [← h12, ← h23]
      exact h3

/-! ## In-memory table: invariants of the reachable states -/

theorem toInt8_of_status (x : Int)
    (h : x = OTPStatusCreated ∨ x = OTPStatusValidated ∨ x = OTPStatusExpired) :
    toInt8 x = x := by
  rcases h with h | h | h <;> subst h <;> decide

theorem Table.insert_consistent (t : Table) (userID otpCode : String) (createdAt expiresAt : Time)
    (h : ∀ row ∈ t.rows, row.Consistent) :
    ∀ row ∈ (t.insert userID otpCode OTPStatusCreated createdAt expiresAt).rows,
      row.Consistent := by
  intro row hrow
  simp only [Table.insert, List.mem_append, List.mem_singleton] at hrow
  rcases hrow with hrow | hrow
  · exact h row hrow
  · subst hrow
    refine ⟨Or.inl rfl, ?_⟩
    simp only [ne_eq, not_true_eq_false, false_iff]
    decide

theorem Table.setStatus_consistent (t : Table) (status : OTPStatus) (validatedAt : Option Time)
    (id : Nat) (h : ∀ row ∈ t.rows, row.Consistent)
    (hnew : (status = OTPStatusExpired ∧ validatedAt = none) ∨
      (status = OTPStatusValidated ∧ validatedAt ≠ none)) :
    ∀ row ∈ (t.setStatus status validatedAt id).rows, row.Consistent := by
  intro row hrow
  simp only [Table.setStatus, List.mem_map] at hrow
  obtain ⟨r0, hr0, rfl⟩ := hrow
  split_ifs
  · rcases hnew with ⟨hs, hv⟩ | ⟨hs, hv⟩
    · subst hs hv
      refine ⟨Or.inr (Or.inr rfl), ?_⟩
      simp only [ne_eq, not_true_eq_false, false_iff]
      decide
    · subst hs
      exact ⟨Or.inr (Or.inl rfl), by simp [hv]⟩
  · exact h r0 hr0

/-- In every reachable state every row is consistent. -/
theorem Reachable_consistent {ω : Type} (E : Env ω) (s : Sys ω) (hreach : Reachable E s) :
    ∀ row ∈ s.table.rows, row.Consistent := by
  induction hreach with
  | init env =>
    intro row hrow
    simp [Table.empty] at hrow
  | create s userID _ ih =>
    rcases memUsecase_Create_table E userID s with h | ⟨code, now, t, h⟩
    · rw [h]
      exact ih
    · rw [h]
      exact Table.insert_consistent s.table userID code t _ ih
  | validate s userID otpCode _ ih =>
    rcases memUsecase_Validate_table E userID otpCode s with
      h | ⟨row, hrow, hnv, h | ⟨t1, h⟩⟩
    · rw [h]
      exact ih
    · rw [h]
      have hc := ih row hrow
      have hst : row.Status ≠ OTPStatusValidated := by
        intro hEq
        apply hnv
        show toInt8 row.Status = OTPStatusValidated
        rw [toInt8_of_status row.Status hc.1]
        exact hEq
      have hva : row.ValidatedAt = none := by
        by_contra hne
        exact hst (hc.2.1 hne)
      exact Table.setStatus_consistent s.table _ _ _ ih (Or.inl ⟨rfl, hva⟩)
    · rw [h]
      exact Table.setStatus_consistent s.table _ _ _ ih (Or.inr ⟨rfl, by simp⟩)

/-- C18: in every state reached from the empty table by calls of the engine's
`Create` and `Validate`, whatever the clocks read and whichever calls fail,
every record of the store has `ValidatedAt` non-null if and only if its status
is `Validated`. -/
theorem Reachable_validatedAt_iff {ω : Type} (E : Env ω) (s : Sys ω)
    (hreach : Reachable E s) (row : otpRow) (hrow : row ∈ s.table.rows) :
    row.ToEntity.ValidatedAt ≠ none ↔ row.ToEntity.Status = OTPStatusValidated := by
  have hc := Reachable_consistent E s hreach row hrow
  show row.ValidatedAt ≠ none ↔ toInt8 row.Status = OTPStatusValidated
  rw [toInt8_of_status row.Status hc.1]
  exact hc.2

/-- The store after an OTP is created and then validated: its one record is
`Validated` and carries a `ValidatedAt`. -/
theorem Reachable_validatedAt_iff_witness :
    (Reachable (scriptedEnv [sampleNow] 42)
        ((memUsecase (scriptedEnv [sampleNow] 42)).Validate "alice" "000042"
          ((memUsecase (scriptedEnv [sampleNow] 42)).Create "alice"
            ⟨Table.empty, 0⟩).2.ext).2.ext ∧
      ({ ID := 1, UserID := "alice", OTPCode := "000042", Status := 2,
         CreatedAt := sampleNow, ExpiresAt := sampleNow + 2 * Minute,
         ValidatedAt := some sampleNow } : otpRow) ∈
        ((memUsecase (scriptedEnv [sampleNow] 42)).Validate "alice" "000042"
          ((memUsecase (scriptedEnv [sampleNow] 42)).Create "alice"
            ⟨Table.empty, 0⟩).2.ext).2.ext.table.rows) ∧
    ((some sampleNow : Option Time) ≠ none ↔ toInt8 2 = OTPStatusValidated) :=
  ⟨⟨Reachable.validate _ "alice" "000042" (Reachable.create _ "alice" (Reachable.init 0)),
      by decide⟩,
    Reachable_validatedAt_iff (scriptedEnv [sampleNow] 42) _
      (Reachable.validate _ "alice" "000042" (Reachable.create _ "alice" (Reachable.init 0)))
      { ID := 1, UserID := "alice", OTPCode := "000042", Status := 2,
        CreatedAt := sampleNow, ExpiresAt := sampleNow + 2 * Minute,
        ValidatedAt := some sampleNow } (by decide)⟩

theorem Table.setStatus_fixedColumns (t : Table) (status : OTPStatus)
    (validatedAt : Option Time) (id : Nat) :
    (t.setStatus status validatedAt id).rows.map otpRow.fixedColumns
      = t.rows.map otpRow.fixedColumns := by
  simp only [Table.setStatus, List.map_map]
  apply List.map_congr_left
  intro r _
  simp only [Function.comp]
  split_ifs <;> rfl

/-- C19: in every run of `Validate`, whatever its outcome, each record handed
to the store's `Update` and the record returned on success have the `ID`,
`UserID`, `OTPCode`, `CreatedAt` and `ExpiresAt` of the record found; the SQL
store's `Update` passes to its statement the status, `validated_at` and the
identifier only; and on the in-memory table every row keeps those five
columns. -/
theorem Validate_frame {σ : Type} (o : otpUsecase σ) (userID otpCode : String) (s : σ) :
    (∀ r uerr, Event.Update r uerr ∈ (o.Validate userID otpCode s).2.log →
      ∃ otp, (o.otpRepo.FindByUserIDAndCode userID otpCode s).1 = (some otp, none) ∧
        r.ID = otp.ID ∧ r.UserID = otp.UserID ∧ r.OTPCode = otp.OTPCode ∧
        r.CreatedAt = otp.CreatedAt ∧ r.ExpiresAt = otp.ExpiresAt) ∧
    (∀ r err, (o.Validate userID otpCode s).1 = Outcome.returned (some r) err →
      ∃ otp, (o.otpRepo.FindByUserIDAndCode userID otpCode s).1 = (some otp, none) ∧
        r.ID = otp.ID ∧ r.UserID = otp.UserID ∧ r.OTPCode = otp.OTPCode ∧
        r.CreatedAt = otp.CreatedAt ∧ r.ExpiresAt = otp.ExpiresAt) ∧
    (∀ (db : SQLExecutor σ) (r : OTP) (s1 : σ),
      otpRepository.Update db r s1 =
        ((db.ExecUpdate r.Status r.ValidatedAt r.ID s1).1.map GoError.ext,
         (db.ExecUpdate r.Status r.ValidatedAt r.ID s1).2)) ∧
    (∀ {ω : Type} (E : Env ω) (u c : String) (s0 : Sys ω),
      ((memUsecase E).Validate u c s0).2.ext.table.rows.map otpRow.fixedColumns
        = s0.table.rows.map otpRow.fixedColumns) := by
  refine ⟨?_, ?_, ?_, ?_⟩
  · intro r uerr hmem
    rcases Validate_cases o userID otpCode s with
      ⟨found, e, s1, hfind, hv⟩ | ⟨s1, t0, s2, hfind, hnow, hv⟩ |
      ⟨otp, s1, t0, s2, hfind, hnow, ⟨-, hv⟩ | ⟨-, -, -, ue, s3, hupd, hv⟩ | ⟨-, -, hv⟩ |
        ⟨-, -, t1, s3, ue, s4, hnow1, hupd, hv⟩⟩
    · rw [hv] at hmem
      simp at hmem
    · rw [hv] at hmem
      simp at hmem
    · rw [hv] at hmem
      simp at hmem
    · rw [hv] at hmem
      simp at hmem
      obtain ⟨rfl, -⟩ := hmem
      exact ⟨otp, by rw [hfind], rfl, rfl, rfl, rfl, rfl⟩
    · rw [hv] at hmem
      simp at hmem
    · rw [hv] at hmem
      simp at hmem
      obtain ⟨rfl, -⟩ := hmem
      exact ⟨otp, by rw [hfind], rfl, rfl, rfl, rfl, rfl⟩
  · intro r err hret
    rcases Validate_cases o userID otpCode s with
      ⟨found, e, s1, hfind, hv⟩ | ⟨s1, t0, s2, hfind, hnow, hv⟩ |
      ⟨otp, s1, t0, s2, hfind, hnow, ⟨-, hv⟩ | ⟨-, -, -, ue, s3, hupd, hv⟩ | ⟨-, -, hv⟩ |
        ⟨-, -, t1, s3, ue, s4, hnow1, hupd, hv⟩⟩
    · rw [hv] at hret
      simp at hret
    · rw [hv] at hret
      simp at hret
    · rw [hv] at hret
      simp at hret
    · rw [hv] at hret
      simp at hret
    · rw [hv] at hret
      simp at hret
    · rw [hv] at hret
      cases ue with
      | some e1 => simp [Option.elim] at hret
      | none =>
        simp only [Option.elim, Outcome.returned.injEq, Option.some.injEq] at hret
        obtain ⟨rfl, -⟩ := hret
        exact ⟨otp, by rw [hfind], rfl, rfl, rfl, rfl, rfl⟩
  · intro db r s1
    unfold otpRepository.Update
    rcases db.ExecUpdate r.Status r.ValidatedAt r.ID s1 with ⟨e, s2⟩
    cases e <;> rfl
  · intro ω E u c s0
    rcases memUsecase_Validate_table E u c s0 with h | ⟨row, -, -, h | ⟨t1, h⟩⟩
    · rw [h]
    · rw [h]
      exact Table.setStatus_fixedColumns _ _ _ _
    · rw [h]
      exact Table.setStatus_fixedColumns _ _ _ _

/-! ## Error middleware: errors that are not domain errors -/

/-- C21: for every two errors with no domain error on their chains,
`ErrorHandler` writes the same thing on a response not yet committed: status
500 with `error` "INTERNAL_SERVER_ERROR" and `error_description` "Something
went wrong! Please try again later"; the response does not depend on the
error. -/
theorem ErrorHandler_internal (e1 e2 : GoError) (resp : Response)
    (h1 : ∀ d, GoError.domain d ∉ e1.chain) (h2 : ∀ d, GoError.domain d ∉ e2.chain)
    (hfresh : resp.Committed = false) :
    ErrorHandler e1 resp = ErrorHandler e2 resp ∧
    ErrorHandler e1 resp =
      { Committed := true
        Status := 500
        Body := .json { Error := "INTERNAL_SERVER_ERROR"
                        ErrorDescription := "Something went wrong! Please try again later" } } := by
  have hn : ∀ e : GoError, (∀ d, GoError.domain d ∉ e.chain) → e.asDomainError = none := by
    intro e he
    cases hd : e.asDomainError with
    | none => rfl
    | some d => exact absurd ((GoError.asDomainError_iff_chain e d).1 hd) (he d)
  have r1 : ErrorHandler e1 resp =
      { Committed := true
        Status := 500
        Body := .json { Error := "INTERNAL_SERVER_ERROR"
                        ErrorDescription := "Something went wrong! Please try again later" } } := by
    simp [ErrorHandler, hfresh, hn e1 h1, Response.JSON, StatusInternalServerError]
  have r2 : ErrorHandler e2 resp =
      { Committed := true
        Status := 500
        Body := .json { Error := "INTERNAL_SERVER_ERROR"
                        ErrorDescription := "Something went wrong! Please try again later" } } := by
    simp [ErrorHandler, hfresh, hn e2 h2, Response.JSON, StatusInternalServerError]
  exact ⟨r1.trans r2.symm, r1⟩

/-- A driver error and a wrapped random-source error give the same response. -/
theorem ErrorHandler_internal_witness :
    ((∀ d, GoError.domain d ∉ (GoError.ext (.other "dial tcp 10.0.0.5:3306: refused")).chain) ∧
      (∀ d, GoError.domain d ∉
        (GoError.wrapf "failed to generate OTP code" (GoError.ext (.other "EOF"))).chain) ∧
      freshResponse.Committed = false) ∧
    ErrorHandler (GoError.ext (.other "dial tcp 10.0.0.5:3306: refused")) freshResponse =
      ErrorHandler (GoError.wrapf "failed to generate OTP code" (GoError.ext (.other "EOF")))
        freshResponse :=
  ⟨⟨fun d => by simp [GoError.chain], fun d => by simp [GoError.chain], rfl⟩,
    (ErrorHandler_internal (GoError.ext (.other "dial tcp 10.0.0.5:3306: refused"))
      (GoError.wrapf "failed to generate OTP code" (GoError.ext (.other "EOF"))) freshResponse
      (fun d => by simp [GoError.chain]) (fun d => by simp [GoError.chain]) rfl).1⟩

/-! ## Repository: mapping of the driver's errors -/

theorem ExtError.asMySQLError_iff_chain (err : ExtError) (number : Nat) :
    err.asMySQLError = some number ↔ ∃ text, ExtError.mysqlError number text ∈ err.chain := by
  induction err with
  | sqlErrNoRows => simp [ExtError.asMySQLError, ExtError.chain]
  | mysqlError n t =>
    simp only [ExtError.asMySQLError, ExtError.chain, Option.some.injEq, List.mem_singleton,
      ExtError.mysqlError.injEq]
    constructor
    · intro h
      exact ⟨t, h.symm, rfl⟩
    · rintro ⟨text, h, -⟩
      exact h.symm
  | other t => simp [ExtError.asMySQLError, ExtError.chain]
  | wrapping t inner ih => simp [ExtError.asMySQLError, ExtError.chain, ih]

theorem isUniqueConstraintViolation_iff (err : ExtError) :
    isUniqueConstraintViolation (GoError.ext err) = true ↔
      ∃ text, ExtError.mysqlError 1062 text ∈ err.chain := by
  rw [← ExtError.asMySQLError_iff_chain]
  simp only [isUniqueConstraintViolation, GoError.asMySQLError]
  cases h : err.asMySQLError with
  | none => simp
  | some n => simp

/-- The error the repository's `Create` returns, by the outcome of the insert. -/
theorem otpRepository_Create_fst {σ : Type} (db : SQLExecutor σ) (otp : OTP) (s : σ) :
    (otpRepository.Create db otp s).1 =
      (db.ExecInsert otp.UserID otp.OTPCode otp.Status otp.ExpiresAt s).1.elim none
        (fun err =>
          if isUniqueConstraintViolation (GoError.ext err) = true
          then some (GoError.domain ErrOTPDuplicate) else some (GoError.ext err)) := by
  unfold otpRepository.Create
  rcases db.ExecInsert otp.UserID otp.OTPCode otp.Status otp.ExpiresAt s with ⟨r, s1⟩
  cases r with
  | none => rfl
  | some err =>
    simp only [Option.elim]
    split_ifs <;> rfl

/-- C22: the repository's `Create` returns `ErrOTPDuplicate` exactly when the
insert fails with an error whose chain holds a MySQL error numbered 1062;
every other insert error is returned as it is, a successful insert gives no
error, and the state is left as the statement leaves it. -/
theorem otpRepository_Create_contract {σ : Type} (db : SQLExecutor σ) (otp : OTP) (s : σ) :
    ((db.ExecInsert otp.UserID otp.OTPCode otp.Status otp.ExpiresAt s).1 = none →
      (otpRepository.Create db otp s).1 = none) ∧
    (∀ err, (db.ExecInsert otp.UserID otp.OTPCode otp.Status otp.ExpiresAt s).1 = some err →
      (∃ text, ExtError.mysqlError 1062 text ∈ err.chain) →
      (otpRepository.Create db otp s).1 = some (GoError.domain ErrOTPDuplicate)) ∧
    (∀ err, (db.ExecInsert otp.UserID otp.OTPCode otp.Status otp.ExpiresAt s).1 = some err →
      ¬ (∃ text, ExtError.mysqlError 1062 text ∈ err.chain) →
      (otpRepository.Create db otp s).1 = some (GoError.ext err)) ∧
    ((otpRepository.Create db otp s).1 = some (GoError.domain ErrOTPDuplicate) ↔
      ∃ err, (db.ExecInsert otp.UserID otp.OTPCode otp.Status otp.ExpiresAt s).1 = some err ∧
        ∃ text, ExtError.mysqlError 1062 text ∈ err.chain) ∧
    (otpRepository.Create db otp s).2
      = (db.ExecInsert otp.UserID otp.OTPCode otp.Status otp.ExpiresAt s).2 := by
  refine ⟨?_, ?_, ?_, ?_, otpRepository_Create_snd db otp s⟩
  · intro h
    rw [otpRepository_Create_fst, h]
    rfl
  · intro err h hch
    rw [otpRepository_Create_fst, h]
    simp [(isUniqueConstraintViolation_iff err).2 hch]
  · intro err h hch
    have hv : ¬ isUniqueConstraintViolation (GoError.ext err) = true :=
      fun hv => hch ((isUniqueConstraintViolation_iff err).1 hv)
    rw [otpRepository_Create_fst, h]
    simp [hv]
  · rw [otpRepository_Create_fst]
    cases h : (db.ExecInsert otp.UserID otp.OTPCode otp.Status otp.ExpiresAt s).1 with
    | none => simp
    | some err =>
      by_cases hv : isUniqueConstraintViolation (GoError.ext err) = true
      · simp only [Option.elim, hv, if_true, true_iff]
        exact ⟨err, rfl, (isUniqueConstraintViolation_iff err).1 hv⟩
      · have hch : ¬ ∃ text, ExtError.mysqlError 1062 text ∈ err.chain :=
          fun hc => hv ((isUniqueConstraintViolation_iff err).2 hc)
        simp only [Option.elim, hv]
        constructor
        · intro hh
          simp at hh
        · rintro ⟨e, he, hc⟩
          simp only [Option.some.injEq] at he
          subst he
          exact absurd hc hch

/-- C23: the repository's `FindByUserIDAndCode` and `GetLastByUserID` each
return no record and `ErrOTPNotFound` exactly when the query gives
`sql.ErrNoRows`, no record and the query's own error on every other failure,
and otherwise the row converted by `ToEntity` with no error; the state is left
as the query leaves it. -/
theorem otpRepository_lookup_contract {σ : Type} (db : SQLExecutor σ)
    (userID otpCode : String) (s : σ) :
    ((db.GetByUserIDAndCode userID otpCode s).1 = .error .sqlErrNoRows →
      (otpRepository.FindByUserIDAndCode db userID otpCode s).1
        = (none, some (GoError.domain ErrOTPNotFound))) ∧
    (∀ err, (db.GetByUserIDAndCode userID otpCode s).1 = .error err → err ≠ .sqlErrNoRows →
      (otpRepository.FindByUserIDAndCode db userID otpCode s).1
        = (none, some (GoError.ext err))) ∧
    (∀ row, (db.GetByUserIDAndCode userID otpCode s).1 = .ok row →
      (otpRepository.FindByUserIDAndCode db userID otpCode s).1 = (some row.ToEntity, none)) ∧
    ((otpRepository.FindByUserIDAndCode db userID otpCode s).1
        = (none, some (GoError.domain ErrOTPNotFound)) ↔
      (db.GetByUserIDAndCode userID otpCode s).1 = .error .sqlErrNoRows) ∧
    (otpRepository.FindByUserIDAndCode db userID otpCode s).2
      = (db.GetByUserIDAndCode userID otpCode s).2 ∧
    ((db.GetLastByUserID userID s).1 = .error .sqlErrNoRows →
      (otpRepository.GetLastByUserID db userID s).1
        = (none, some (GoError.domain ErrOTPNotFound))) ∧
    (∀ err, (db.GetLastByUserID userID s).1 = .error err → err ≠ .sqlErrNoRows →
      (otpRepository.GetLastByUserID db userID s).1 = (none, some (GoError.ext err))) ∧
    (∀ row, (db.GetLastByUserID userID s).1 = .ok row →
      (otpRepository.GetLastByUserID db userID s).1 = (some row.ToEntity, none)) ∧
    ((otpRepository.GetLastByUserID db userID s).1
        = (none, some (GoError.domain ErrOTPNotFound)) ↔
      (db.GetLastByUserID userID s).1 = .error .sqlErrNoRows) ∧
    (otpRepository.GetLastByUserID db userID s).2 = (db.GetLastByUserID userID s).2 := by
  refine ⟨?_, ?_, ?_, ?_, otpRepository_Find_snd db userID otpCode s, ?_, ?_, ?_, ?_,
    otpRepository_GetLast_snd db userID s⟩
  all_goals first
    | (unfold otpRepository.FindByUserIDAndCode
       rcases db.GetByUserIDAndCode userID otpCode s with ⟨r, s1⟩
       cases r with
       | ok row => simp
       | error e =>
         by_cases he : e = .sqlErrNoRows
         · subst he
           simp
         · simp [he])
    | (unfold otpRepository.GetLastByUserID
       rcases db.GetLastByUserID userID s with ⟨r, s1⟩
       cases r with
       | ok row => simp
       | error e =>
         by_cases he : e = .sqlErrNoRows
         · subst he
           simp
         · simp [he])

/-! ## Transaction manager -/

/-- C24: for every function `fn`, when beginning the transaction fails with
`e`, `WithTransaction` returns `e` and `fn` is not run; when `fn` fails with
`e`, the transaction is rolled back, no commit is made and exactly `e` is
returned; when `fn` gives no error, the transaction is committed and what
`Commit` gives is returned. -/
theorem WithTransaction_contract {σ : Type} (db : TxDB σ) (fn : σ → Option GoError × σ)
    (s : σ) :
    (∀ e, (db.BeginTxx s).1 = some e →
      (transactionManager.WithTransaction db fn s).1 = some (GoError.ext e) ∧
      (transactionManager.WithTransaction db fn s).2.2 = [TxEvent.Begin (some e)] ∧
      (transactionManager.WithTransaction db fn s).2.1 = (db.BeginTxx s).2) ∧
    ((db.BeginTxx s).1 = none → ∀ e, (fn (db.BeginTxx s).2).1 = some e →
      (transactionManager.WithTransaction db fn s).1 = some e ∧
      (transactionManager.WithTransaction db fn s).2.2 =
        [TxEvent.Begin none, TxEvent.Run (some e),
         TxEvent.Rollback (db.Rollback (fn (db.BeginTxx s).2).2).1] ∧
      (transactionManager.WithTransaction db fn s).2.1
        = (db.Rollback (fn (db.BeginTxx s).2).2).2) ∧
    ((db.BeginTxx s).1 = none → (fn (db.BeginTxx s).2).1 = none →
      (transactionManager.WithTransaction db fn s).1
        = (db.Commit (fn (db.BeginTxx s).2).2).1.map GoError.ext ∧
      (transactionManager.WithTransaction db fn s).2.2 =
        [TxEvent.Begin none, TxEvent.Run none,
         TxEvent.Commit (db.Commit (fn (db.BeginTxx s).2).2).1,
         TxEvent.Rollback (db.Rollback (db.Commit (fn (db.BeginTxx s).2).2).2).1]) := by
  refine ⟨?_, ?_, ?_⟩
  · intro e hb
    simp [transactionManager.WithTransaction, hb]
  · intro hb e hf
    simp [transactionManager.WithTransaction, hb, hf]
  · intro hb hf
    simp [transactionManager.WithTransaction, hb, hf]

/-! ## HTTP handlers -/

/-- C25: for every error `e` returned by the usecase's `Validate`, whichever
it is, `PostOtpValidate` answers with status 400 and returns what `ctx.JSON`
returns, which is no error once the response is written; the usecase's error
is the body and is not returned.  On success it answers 200 with the OTP's
user id and the message "OTP Validated successfully". -/
theorem PostOtpValidate_contract {σ : Type} (u : OTPUsecase σ)
    (req : PostOtpValidateJSONRequestBody) (written : Option GoError) (s : σ) :
    (∀ otp e, (u.Validate req.UserId req.Otp s).1 = (otp, some e) →
      (RestAPIServer.PostOtpValidate u (.ok req) written s).1
        = HandlerOutcome.responded 400 (.error e) written ∧
      (RestAPIServer.PostOtpValidate u (.ok req) none s).1
        = HandlerOutcome.responded 400 (.error e) none) ∧
    (∀ otp, (u.Validate req.UserId req.Otp s).1 = (some otp, none) →
      (RestAPIServer.PostOtpValidate u (.ok req) written s).1
        = HandlerOutcome.responded 200
            (.validated otp.UserID "OTP Validated successfully") written ∧
      (RestAPIServer.PostOtpValidate u (.ok req) none s).1
        = HandlerOutcome.responded 200
            (.validated otp.UserID "OTP Validated successfully") none) := by
  refine ⟨?_, ?_⟩
  · intro otp e h
    simp [RestAPIServer.PostOtpValidate, h, StatusBadRequest]
  · intro otp h
    simp [RestAPIServer.PostOtpValidate, h, StatusOK]

/-! ## Lifecycle engine: further properties -/

/-- C27: whenever the lookup of the user's last record returns no record,
with `ErrOTPNotFound`, with any other error or with none, `Create` drops the
error, makes no rate-limit test (the clock is not read) and goes on to call
the generator; when the generator succeeds it builds the record and calls the
store's `Create`, and the run ends as that call decides. -/
theorem Create_ignores_lookup_error {σ : Type} (o : otpUsecase σ) (userID : String)
    (s : σ) (lerr : Option GoError)
    (hlast : (o.otpRepo.GetLastByUserID userID s).1 = (none, lerr)) :
    o.checkRateLimit userID ⟨s, []⟩ =
      (false, ⟨(o.otpRepo.GetLastByUserID userID s).2,
        [Event.GetLastByUserID userID none lerr]⟩) ∧
    ((∃ code e,
        (o.Create userID s).1 = (none, some (GoError.wrapf "failed to generate OTP code" e)) ∧
        (o.Create userID s).2.log =
          [Event.GetLastByUserID userID none lerr, Event.Generate code (some e)]) ∨
     (∃ code now e,
        (o.Create userID s).1 = (none, some e) ∧
        (o.Create userID s).2.log =
          [Event.GetLastByUserID userID none lerr, Event.Generate code none, Event.Now now,
           Event.Create (otpUsecase.newRecord userID code now) (some e)]) ∨
     (∃ code now,
        (o.Create userID s).1 = (some (otpUsecase.newRecord userID code now), none) ∧
        (o.Create userID s).2.log =
          [Event.GetLastByUserID userID none lerr, Event.Generate code none, Event.Now now,
           Event.Create (otpUsecase.newRecord userID code now) none])) := by
  have hchk : o.checkRateLimit userID ⟨s, []⟩ =
      (false, ⟨(o.otpRepo.GetLastByUserID userID s).2,
        [Event.GetLastByUserID userID none lerr]⟩) := by
    simp [otpUsecase.checkRateLimit, otpUsecase.callGetLastByUserID, hlast]
  refine ⟨hchk, ?_⟩
  rcases Create_cases o userID s with
    ⟨hlim, -, -⟩ | ⟨-, ⟨code, e, s2, -, hres, hlog⟩ | ⟨code, now, e, s4, -, hres, hlog⟩ |
      ⟨code, now, hres, hlog⟩⟩
  · rw [hchk] at hlim
    simp at hlim
  · left
    rw [hchk] at hlog
    exact ⟨code, e, hres, by simpa using hlog⟩
  · right; left
    rw [hchk] at hlog
    exact ⟨code, now, e, hres, by simpa using hlog⟩
  · right; right
    rw [hchk] at hlog
    exact ⟨code, now, hres, by simpa using hlog⟩

/-- With the SQL store unreachable, the lookup fails with a driver error and
the request still goes through to the generator and the store. -/
theorem Create_ignores_lookup_error_witness :
    ((NewRestAPIUsecase (stubDB (.error (.other "connection refused")) (.error .sqlErrNoRows)
        none none) (constRand 42) (fixedClock sampleNow)).otpRepo.GetLastByUserID "alice" ()).1
      = (none, some (GoError.ext (.other "connection refused"))) ∧
    (NewRestAPIUsecase (stubDB (.error (.other "connection refused")) (.error .sqlErrNoRows)
        none none) (constRand 42) (fixedClock sampleNow)).checkRateLimit "alice" ⟨(), []⟩ =
      (false, ⟨(), [Event.GetLastByUserID "alice" none
        (some (GoError.ext (.other "connection refused")))]⟩) ∧
    ((NewRestAPIUsecase (stubDB (.error (.other "connection refused")) (.error .sqlErrNoRows)
        none none) (constRand 42) (fixedClock sampleNow)).Create "alice" ()).1
      = (some (otpUsecase.newRecord "alice" "000042" sampleNow), none) :=
  ⟨rfl,
    (Create_ignores_lookup_error
      (NewRestAPIUsecase (stubDB (.error (.other "connection refused")) (.error .sqlErrNoRows)
        none none) (constRand 42) (fixedClock sampleNow)) "alice" ()
      (some (GoError.ext (.other "connection refused"))) rfl).1,
    by decide⟩

/-- C28: `Validate` returns no error if and only if the lookup gives a record
and no error, the record's status is not `Validated`, the clock reading `t0`
of the status check is not after the record's `ExpiresAt` (a reading equal to
`ExpiresAt` passes), and the store `Update` that marks the record succeeds;
and no run calls the store's `Update` more than once. -/
theorem Validate_succeeds_iff {σ : Type} (o : otpUsecase σ) (userID otpCode : String)
    (s : σ) :
    ((∃ r, (o.Validate userID otpCode s).1 = Outcome.returned r none) ↔
      ∃ otp s1 t0 s2 t1 s3 s4,
        o.otpRepo.FindByUserIDAndCode userID otpCode s = ((some otp, none), s1) ∧
        o.timeNow s1 = (t0, s2) ∧
        otp.Status ≠ OTPStatusValidated ∧
        t0 ≤ otp.ExpiresAt ∧
        o.timeNow s2 = (t1, s3) ∧
        o.otpRepo.Update { otp with Status := OTPStatusValidated, ValidatedAt := some t1 } s3
          = (none, s4)) ∧
    ((o.Validate userID otpCode s).2.log.filter Event.isUpdate).length ≤ 1 := by
  rcases Validate_cases o userID otpCode s with
    ⟨found, e, s1, hfind, hv⟩ | ⟨s1, t0, s2, hfind, hnow, hv⟩ |
    ⟨otp, s1, t0, s2, hfind, hnow, ⟨hst, hv⟩ | ⟨hst, hpast, hne, uerr, s3, hupd, hv⟩ |
      ⟨hst, hpast, hv⟩ | ⟨hst, hpast, t1, s3, uerr, s4, hnow1, hupd, hv⟩⟩
  · rw [hv, hfind]
    refine ⟨⟨fun ⟨r, h⟩ => by simp at h, ?_⟩, by simp [List.filter, Event.isUpdate]⟩
    rintro ⟨otp, s1', t0, s2, t1, s3, s4, h, -⟩
    simp at h
  · rw [hv, hfind]
    refine ⟨⟨fun ⟨r, h⟩ => by simp at h, ?_⟩, by simp [List.filter, Event.isUpdate]⟩
    rintro ⟨otp, s1', t0', s2', t1, s3, s4, h, -⟩
    simp at h
  · rw [hv, hfind]
    refine ⟨⟨fun ⟨r, h⟩ => by simp at h, ?_⟩, by simp [List.filter, Event.isUpdate]⟩
    rintro ⟨otp', s1', t0', s2', t1, s3, s4, h, -, hns, -⟩
    simp only [Prod.mk.injEq, Option.some.injEq, and_true] at h
    obtain ⟨rfl, -⟩ := h
    exact absurd hst hns
  · rw [hv, hfind]
    refine ⟨⟨fun ⟨r, h⟩ => by simp at h, ?_⟩, by simp [List.filter, Event.isUpdate]⟩
    rintro ⟨otp', s1', t0', s2', t1, s3', s4, h, hn, -, hle, -⟩
    simp only [Prod.mk.injEq, Option.some.injEq, and_true] at h
    obtain ⟨rfl, rfl⟩ := h
    rw [hnow] at hn
    simp only [Prod.mk.injEq] at hn
    obtain ⟨rfl, -⟩ := hn
    exact absurd hpast (not_lt.mpr hle)
  · rw [hv, hfind]
    refine ⟨⟨fun ⟨r, h⟩ => by simp at h, ?_⟩, by simp [List.filter, Event.isUpdate]⟩
    rintro ⟨otp', s1', t0', s2', t1, s3', s4, h, hn, -, hle, -⟩
    simp only [Prod.mk.injEq, Option.some.injEq, and_true] at h
    obtain ⟨rfl, rfl⟩ := h
    rw [hnow] at hn
    simp only [Prod.mk.injEq] at hn
    obtain ⟨rfl, -⟩ := hn
    exact absurd hpast (not_lt.mpr hle)
  · rw [hv, hfind]
    refine ⟨⟨?_, ?_⟩, by simp [List.filter, Event.isUpdate]⟩
    · rintro ⟨r, h⟩
      cases uerr with
      | some e => simp [Option.elim] at h
      | none =>
        exact ⟨otp, s1, t0, s2, t1, s3, s4, rfl, hnow, hst, not_lt.mp hpast, hnow1, hupd⟩
    · rintro ⟨otp', s1', t0', s2', t1', s3', s4', h, hn, -, -, hn1, hu⟩
      simp only [Prod.mk.injEq, Option.some.injEq, and_true] at h
      obtain ⟨rfl, rfl⟩ := h
      rw [hnow] at hn
      simp only [Prod.mk.injEq] at hn
      obtain ⟨rfl, rfl⟩ := hn
      rw [hnow1] at hn1
      simp only [Prod.mk.injEq] at hn1
      obtain ⟨rfl, rfl⟩ := hn1
      rw [hupd] at hu
      simp only [Prod.mk.injEq] at hu
      obtain ⟨rfl, -⟩ := hu
      exact ⟨_, rfl⟩

theorem le_add_sub_of_le (e t0 t1 : Int) (h : t0 ≤ e) : t1 ≤ e + (t1 - t0) := by
  omega

/-- C30, as stated, fails: an OTP created at `sampleNow` expires two minutes
later; a `Validate` whose expiry check reads the clock at exactly that instant
passes, and the stamp, read one second later, is after `ExpiresAt`.  The clock
never runs backwards in this run. -/
theorem Validate_stamp_counterexample :
    ((memUsecase (scriptedEnv lateStampReadings 42)).Validate "alice" "000042"
        ((memUsecase (scriptedEnv lateStampReadings 42)).Create "alice"
          ⟨Table.empty, 0⟩).2.ext).1 =
      Outcome.returned
        (some { ID := 1, UserID := "alice", OTPCode := "000042", Status := OTPStatusValidated,
                CreatedAt := sampleNow, ExpiresAt := sampleNow + 2 * Minute,
                ValidatedAt := some (sampleNow + 2 * Minute + Second) }) none ∧
    ((memUsecase (scriptedEnv lateStampReadings 42)).Validate "alice" "000042"
        ((memUsecase (scriptedEnv lateStampReadings 42)).Create "alice"
          ⟨Table.empty, 0⟩).2.ext).2.log.filter (fun ev => !ev.isUpdate) =
      [Event.FindByUserIDAndCode "alice" "000042"
        (some { ID := 1, UserID := "alice", OTPCode := "000042", Status := OTPStatusCreated,
                CreatedAt := sampleNow, ExpiresAt := sampleNow + 2 * Minute,
                ValidatedAt := none }) none,
       Event.Now (sampleNow + 2 * Minute), Event.Now (sampleNow + 2 * Minute + Second)] ∧
    sampleNow + 2 * Minute ≤ sampleNow + 2 * Minute + Second ∧
    sampleNow + 2 * Minute < sampleNow + 2 * Minute + Second := by
  decide

/-- C30, amended: for every successful `Validate`, the clock reading `t0`
taken for the expiry check is not after the record's `ExpiresAt`, and the
`ValidatedAt` stamped is the reading `t1` taken afterwards for the stamp; so
`ValidatedAt` is after `ExpiresAt` by no more than `t1 - t0`, and is not after
it when the second reading is not after `ExpiresAt` either. -/
theorem Validate_stamp_bound {σ : Type} (o : otpUsecase σ) (userID otpCode : String)
    (s : σ) (r : OTP)
    (hok : (o.Validate userID otpCode s).1 = Outcome.returned (some r) none) :
    ∃ (otp : OTP) (t0 t1 : Time),
      (o.Validate userID otpCode s).2.log =
        [Event.FindByUserIDAndCode userID otpCode (some otp) none, Event.Now t0, Event.Now t1,
         Event.Update r none] ∧
      r.ExpiresAt = otp.ExpiresAt ∧
      t0 ≤ r.ExpiresAt ∧
      r.ValidatedAt = some t1 ∧
      t1 ≤ r.ExpiresAt + (t1 - t0) ∧
      (t1 ≤ r.ExpiresAt → ∀ v, r.ValidatedAt = some v → v ≤ r.ExpiresAt) := by
  rcases Validate_cases o userID otpCode s with
    ⟨found, e, s1, -, hv⟩ | ⟨s1, t0, s2, -, -, hv⟩ |
    ⟨otp, s1, t0, s2, -, -, ⟨-, hv⟩ | ⟨-, -, -, uerr, s3, -, hv⟩ | ⟨-, -, hv⟩ |
      ⟨-, hpast, t1, s3, uerr, s4, -, -, hv⟩⟩
  · rw [hv] at hok
    simp at hok
  · rw [hv] at hok
    simp at hok
  · rw [hv] at hok
    simp at hok
  · rw [hv] at hok
    simp at hok
  · rw [hv] at hok
    simp at hok
  · rw [hv] at hok
    cases uerr with
    | some err => simp [Option.elim] at hok
    | none =>
      simp only [Option.elim, Outcome.returned.injEq, Option.some.injEq, and_true] at hok
      subst hok
      rw [hv]
      have h0 : t0 ≤ otp.ExpiresAt := not_lt.mp hpast
      refine ⟨otp, t0, t1, rfl, rfl, h0, rfl, ?_, ?_⟩
      · exact le_add_sub_of_le otp.ExpiresAt t0 t1 h0
      · intro h1 v hv1
        simp only [Option.some.injEq] at hv1
        subst hv1
        exact h1

/-- The successful validation of the engine's test suite: both readings are
`sampleNow`, one minute before the expiry. -/
theorem Validate_stamp_bound_witness :
    ((NewOtpUsecase (stubRepository (none, none) (some freshOTP, none) none none)
        (stubGenerator "123456" none) (fixedClock sampleNow)).Validate
          "user-1" "333333" ()).1 = Outcome.returned
        (some { freshOTP with Status := OTPStatusValidated, ValidatedAt := some sampleNow })
        none ∧
    ∃ (otp : OTP) (t0 t1 : Time),
      ((NewOtpUsecase (stubRepository (none, none) (some freshOTP, none) none none)
        (stubGenerator "123456" none) (fixedClock sampleNow)).Validate
          "user-1" "333333" ()).2.log =
        [Event.FindByUserIDAndCode "user-1" "333333" (some otp) none, Event.Now t0,
         Event.Now t1,
         Event.Update
           { freshOTP with Status := OTPStatusValidated, ValidatedAt := some sampleNow }
           none] ∧
      t0 ≤ freshOTP.ExpiresAt :=
  ⟨by decide,
    (Validate_stamp_bound
      (NewOtpUsecase (stubRepository (none, none) (some freshOTP, none) none none)
        (stubGenerator "123456" none) (fixedClock sampleNow)) "user-1" "333333" ()
      { freshOTP with Status := OTPStatusValidated, ValidatedAt := some sampleNow }
      (by decide)).imp
      (fun _ h => h.imp (fun _ h => h.imp (fun _ h => ⟨h.1, h.2.2.1⟩)))⟩

/-- C26, the code at the failing input, for two requests: an OTP is created
for "alice"; request B calls `Validate` and its lookup returns the record in
status `Created`; request A is then served in full, finds the same record,
marks it `Validated` and succeeds; request B goes on with the record it holds,
passes both checks, writes the record again and succeeds as well.  Both
requests return the OTP as validated. -/
theorem Validate_concurrent_double_success :
    ((overtakenUsecase (scriptedEnv [sampleNow] 42) "alice" "000042").Validate
        "alice" "000042"
        (((memUsecase (scriptedEnv [sampleNow] 42)).Create "alice" ⟨Table.empty, 0⟩).2.ext,
          [])).1 =
      Outcome.returned
        (some { ID := 1, UserID := "alice", OTPCode := "000042", Status := OTPStatusValidated,
                CreatedAt := sampleNow, ExpiresAt := sampleNow + 2 * Minute,
                ValidatedAt := some sampleNow }) none ∧
    ((overtakenUsecase (scriptedEnv [sampleNow] 42) "alice" "000042").Validate
        "alice" "000042"
        (((memUsecase (scriptedEnv [sampleNow] 42)).Create "alice" ⟨Table.empty, 0⟩).2.ext,
          [])).2.ext.2 =
      [Outcome.returned
        (some { ID := 1, UserID := "alice", OTPCode := "000042", Status := OTPStatusValidated,
                CreatedAt := sampleNow, ExpiresAt := sampleNow + 2 * Minute,
                ValidatedAt := some sampleNow }) none] ∧
    ((overtakenUsecase (scriptedEnv [sampleNow] 42) "alice" "000042").Validate
        "alice" "000042"
        (((memUsecase (scriptedEnv [sampleNow] 42)).Create "alice" ⟨Table.empty, 0⟩).2.ext,
          [])).2.log =
      [Event.FindByUserIDAndCode "alice" "000042"
        (some { ID := 1, UserID := "alice", OTPCode := "000042", Status := OTPStatusCreated,
                CreatedAt := sampleNow, ExpiresAt := sampleNow + 2 * Minute,
                ValidatedAt := none }) none,
       Event.Now sampleNow, Event.Now sampleNow,
       Event.Update
         { ID := 1, UserID := "alice", OTPCode := "000042", Status := OTPStatusValidated,
           CreatedAt := sampleNow, ExpiresAt := sampleNow + 2 * Minute,
           ValidatedAt := some sampleNow } none] := by
  decide

/-! ## In-memory table: expired records under a clock that never runs backwards -/

theorem memFind_env {ω : Type} (E : Env ω) (userID otpCode : String) (s : Sys ω) :
    ((NewOTPRepository (memDB E)).FindByUserIDAndCode userID otpCode s).2.env
      = (E.fault s.env).2 := by
  show (otpRepository.FindByUserIDAndCode (memDB E) userID otpCode s).2.env = _
  rw [otpRepository_Find_snd]
  show (memGetByUserIDAndCode E userID otpCode s).2.env = _
  unfold memGetByUserIDAndCode
  split
  · rfl
  · split <;> rfl

theorem memGetLast_env {ω : Type} (E : Env ω) (userID : String) (s : Sys ω) :
    ((NewOTPRepository (memDB E)).GetLastByUserID userID s).2.env = (E.fault s.env).2 := by
  show (otpRepository.GetLastByUserID (memDB E) userID s).2.env = _
  rw [otpRepository_GetLast_snd]
  show (memGetLastByUserID E userID s).2.env = _
  unfold memGetLastByUserID
  split
  · rfl
  · split <;> rfl

theorem memUpdate_env {ω : Type} (E : Env ω) (r : OTP) (s : Sys ω) :
    ((NewOTPRepository (memDB E)).Update r s).2.env = (E.fault s.env).2 := by
  show (otpRepository.Update (memDB E) r s).2.env = _
  rw [otpRepository_Update_snd]
  show (memUpdate E r.Status r.ValidatedAt r.ID s).2.env = _
  unfold memUpdate
  split <;> rfl

theorem memCreate_env {ω : Type} (E : Env ω) (r : OTP) (s : Sys ω) :
    ((NewOTPRepository (memDB E)).Create r s).2.env = (E.fault s.env).2 ∨
    ((NewOTPRepository (memDB E)).Create r s).2.env = (E.dbNow (E.fault s.env).2).2 := by
  show (otpRepository.Create (memDB E) r s).2.env = _ ∨
    (otpRepository.Create (memDB E) r s).2.env = _
  rw [otpRepository_Create_snd]
  show (memInsert E r.UserID r.OTPCode r.Status r.ExpiresAt s).2.env = _ ∨
    (memInsert E r.UserID r.OTPCode r.Status r.ExpiresAt s).2.env = _
  unfold memInsert
  split
  · left; rfl
  · split
    · left; rfl
    · right; rfl

theorem memGenerate_env {ω : Type} (E : Env ω) (s : Sys ω) :
    ((NewOTPGenerator (memRand E)).Generate s).2.env = (E.randInt 1000000 s.env).2 := by
  simp only [NewOTPGenerator, entityOTPGenerator.Generate, memRand]
  rcases E.randInt 1000000 s.env with ⟨r, e1⟩
  cases r <;> rfl

/-- No call of `Create` on the in-memory table lowers the floor of the clock. -/
theorem memUsecase_Create_floor {ω : Type} (E : Env ω) (floor : ω → Time)
    (hclock : E.NonDecreasing floor) (userID : String) (s : Sys ω) :
    floor s.env ≤ floor ((memUsecase E).Create userID s).2.ext.env := by
  have hnow : ∀ x : Sys ω, floor x.env ≤ floor (memNow E x).2.env := fun x =>
    le_trans (hclock.now_ge x.env) (hclock.now_floor x.env)
  obtain ⟨s2, hs2, hfin⟩ := Create_ext_cases (memUsecase E) userID s
  have h2 : floor s.env ≤ floor s2.env := by
    have hg : floor s.env ≤ floor ((NewOTPRepository (memDB E)).GetLastByUserID userID s).2.env := by
      rw [memGetLast_env]
      exact hclock.fault_floor s.env
    rcases hs2 with h | h
    · rw [h]
      exact hg
    · rw [h]
      exact le_trans hg (hnow _)
  have h3 : floor s2.env ≤ floor ((NewOTPGenerator (memRand E)).Generate s2).2.env := by
    rw [memGenerate_env]
    exact hclock.rand_floor _ _
  rcases hfin with h | h | ⟨code, now, h⟩
  · rw [h]
    exact h2
  · rw [h]
    exact le_trans h2 h3
  · rw [h]
    have h4 := hnow ((NewOTPGenerator (memRand E)).Generate s2).2
    refine le_trans h2 (le_trans h3 (le_trans h4 ?_))
    rcases memCreate_env E (otpUsecase.newRecord userID code now)
      (memNow E ((NewOTPGenerator (memRand E)).Generate s2).2).2 with hc | hc
    · exact le_of_le_of_eq (hclock.fault_floor _) (congrArg floor hc.symm)
    · exact le_of_le_of_eq
        (le_trans (hclock.fault_floor _) (hclock.dbNow_floor _)) (congrArg floor hc.symm)

/-- A run of `Validate` on the in-memory table does not lower the floor of the
clock, and when it marks a record `Expired` the record's `ExpiresAt` is
strictly before the floor it leaves. -/
theorem memUsecase_Validate_effect {ω : Type} (E : Env ω) (floor : ω → Time)
    (hclock : E.NonDecreasing floor) (userID otpCode : String) (s : Sys ω) :
    floor s.env ≤ floor ((memUsecase E).Validate userID otpCode s).2.ext.env ∧
    (((memUsecase E).Validate userID otpCode s).2.ext.table = s.table ∨
     ∃ row ∈ s.table.rows, row.ToEntity.Status ≠ OTPStatusValidated ∧
      ((((memUsecase E).Validate userID otpCode s).2.ext.table
            = s.table.setStatus OTPStatusExpired row.ValidatedAt row.ID ∧
          row.ExpiresAt < floor ((memUsecase E).Validate userID otpCode s).2.ext.env) ∨
       ∃ t1, ((memUsecase E).Validate userID otpCode s).2.ext.table
          = s.table.setStatus OTPStatusValidated (some t1) row.ID)) := by
  have hfindE := memFind_env E userID otpCode s
  have hfindT := memFind_table E userID otpCode s
  rcases Validate_cases (memUsecase E) userID otpCode s with
    ⟨found, e, s1, hfind, hv⟩ | ⟨s1, t0, s2, hfind, hnow, hv⟩ |
    ⟨otp, s1, t0, s2, hfind, hnow, hcase⟩
  · rw [show (NewOTPRepository (memDB E)).FindByUserIDAndCode userID otpCode s
      = ((found, some e), s1) from hfind] at hfindE hfindT
    rw [hv]
    exact ⟨le_of_le_of_eq (hclock.fault_floor _) (congrArg floor hfindE.symm), Or.inl hfindT⟩
  · rw [show (NewOTPRepository (memDB E)).FindByUserIDAndCode userID otpCode s
      = ((none, none), s1) from hfind] at hfindE hfindT
    have h2e : s2.env = (E.now s1.env).2 := by
      have := congrArg (fun x => x.2.env) (show memNow E s1 = (t0, s2) from hnow)
      exact this.symm
    have h2t : s2.table = s1.table := by
      have := congrArg (fun x => x.2.table) (show memNow E s1 = (t0, s2) from hnow)
      exact this.symm
    rw [hv]
    refine ⟨?_, Or.inl (h2t.trans hfindT)⟩
    show floor s.env ≤ floor s2.env
    rw [h2e]
    exact le_trans (le_of_le_of_eq (hclock.fault_floor _) (congrArg floor hfindE.symm))
      (le_trans (hclock.now_ge _) (hclock.now_floor _))
  · have hrow := memFind_row E userID otpCode s otp none (by
      rw [show (NewOTPRepository (memDB E)).FindByUserIDAndCode userID otpCode s
        = ((some otp, none), s1) from hfind])
    rw [show (NewOTPRepository (memDB E)).FindByUserIDAndCode userID otpCode s
      = ((some otp, none), s1) from hfind] at hfindE hfindT
    have h01 : floor s.env ≤ floor s1.env :=
      le_of_le_of_eq (hclock.fault_floor _) (congrArg floor hfindE.symm)
    have h2e : s2.env = (E.now s1.env).2 := by
      have := congrArg (fun x => x.2.env) (show memNow E s1 = (t0, s2) from hnow)
      exact this.symm
    have h2t : s2.table = s1.table := by
      have := congrArg (fun x => x.2.table) (show memNow E s1 = (t0, s2) from hnow)
      exact this.symm
    have ht0 : t0 = (E.now s1.env).1 := by
      have := congrArg (fun x => x.1) (show memNow E s1 = (t0, s2) from hnow)
      exact this.symm
    have h0f : t0 ≤ floor s2.env := by
      rw [ht0, h2e]
      exact hclock.now_floor _
    have h12 : floor s1.env ≤ floor s2.env := by
      rw [h2e]
      exact le_trans (hclock.now_ge _) (hclock.now_floor _)
    have h02 : floor s.env ≤ floor s2.env := le_trans h01 h12
    have ht2 : s2.table = s.table := h2t.trans hfindT
    rcases hcase with ⟨-, hv⟩ | ⟨hnu, hpast, -, uerr, s3, hupd, hv⟩ | ⟨-, -, hv⟩ |
      ⟨hnu, -, t1, s3, uerr, s4, hnow1, hupd, hv⟩
    · rw [hv]
      exact ⟨h02, Or.inl ht2⟩
    · obtain ⟨row, hrowmem, rfl⟩ := hrow
      have h3t := memUpdate_table E { row.ToEntity with Status := OTPStatusExpired } s2
      have h3e := memUpdate_env E { row.ToEntity with Status := OTPStatusExpired } s2
      rw [show (NewOTPRepository (memDB E)).Update
        { row.ToEntity with Status := OTPStatusExpired } s2 = (uerr, s3) from hupd] at h3t h3e
      have h23 : floor s2.env ≤ floor s3.env :=
        le_of_le_of_eq (hclock.fault_floor _) (congrArg floor h3e.symm)
      rw [hv]
      refine ⟨le_trans h02 h23, ?_⟩
      rcases h3t with h3t | h3t
      · exact Or.inl (h3t.trans ht2)
      · right
        refine ⟨row, hrowmem, hnu, Or.inl ⟨?_, ?_⟩⟩
        · rw [← ht2]
          exact h3t
        · exact lt_of_lt_of_le hpast (le_trans h0f h23)
    · rw [hv]
      exact ⟨h02, Or.inl ht2⟩
    · obtain ⟨row, hrowmem, rfl⟩ := hrow
      have h3e' : s3.env = (E.now s2.env).2 := by
        have := congrArg (fun x => x.2.env) (show memNow E s2 = (t1, s3) from hnow1)
        exact this.symm
      have h3t' : s3.table = s2.table := by
        have := congrArg (fun x => x.2.table) (show memNow E s2 = (t1, s3) from hnow1)
        exact this.symm
      have h23 : floor s2.env ≤ floor s3.env := by
        rw [h3e']
        exact le_trans (hclock.now_ge _) (hclock.now_floor _)
      have h4t := memUpdate_table E
        { row.ToEntity with Status := OTPStatusValidated, ValidatedAt := some t1 } s3
      have h4e := memUpdate_env E
        { row.ToEntity with Status := OTPStatusValidated, ValidatedAt := some t1 } s3
      rw [show (NewOTPRepository (memDB E)).Update
        { row.ToEntity with Status := OTPStatusValidated, ValidatedAt := some t1 } s3
          = (uerr, s4) from hupd] at h4t h4e
      have h34 : floor s3.env ≤ floor s4.env :=
        le_of_le_of_eq (hclock.fault_floor _) (congrArg floor h4e.symm)
      rw [hv]
      refine ⟨le_trans h02 (le_trans h23 h34), ?_⟩
      rcases h4t with h4t | h4t
      · exact Or.inl (h4t.trans (h3t'.trans ht2))
      · right
        refine ⟨row, hrowmem, hnu, Or.inr ⟨t1, ?_⟩⟩
        rw [← ht2, ← h3t']
        exact h4t

theorem Table.setStatus_ids (t : Table) (status : OTPStatus) (validatedAt : Option Time)
    (id : Nat) :
    (t.setStatus status validatedAt id).rows.map (fun row => row.ID)
      = t.rows.map (fun row => row.ID) := by
  simp only [Table.setStatus, List.map_map]
  apply List.map_congr_left
  intro r _
  simp only [Function.comp]
  split_ifs <;> rfl

/-- In every reachable state, under a clock that never runs backwards, the
identifiers are distinct and every `Expired` row expired before the floor of
the clock. -/
theorem Reachable_expiredArePast {ω : Type} (E : Env ω) (floor : ω → Time)
    (hclock : E.NonDecreasing floor) (s : Sys ω) (hreach : Reachable E s) :
    s.ExpiredArePast floor := by
  induction hreach with
  | init env =>
    refine ⟨?_, ?_, ?_⟩
    · intro row hrow
      simp [Table.empty] at hrow
    · simp [Table.empty]
    · intro row hrow
      simp [Table.empty] at hrow
  | create s userID _ ih =>
    obtain ⟨hid, hnd, hexp⟩ := ih
    have hfl := memUsecase_Create_floor E floor hclock userID s
    rcases memUsecase_Create_table E userID s with h | ⟨code, now, t, h⟩
    · refine ⟨?_, ?_, ?_⟩
      · rw [h]
        exact hid
      · rw [h]
        exact hnd
      · rw [h]
        intro row hrow hst
        exact lt_of_lt_of_le (hexp row hrow hst) hfl
    · refine ⟨?_, ?_, ?_⟩
      · rw [h]
        intro row hrow
        simp only [Table.insert, List.mem_append, List.mem_singleton] at hrow
        rcases hrow with hrow | hrow
        · exact Nat.lt_succ_of_lt (hid row hrow)
        · subst hrow
          exact Nat.lt_succ_self _
      · rw [h]
        simp only [Table.insert, List.map_append, List.map_cons, List.map_nil]
        rw [List.nodup_append]
        refine ⟨hnd, List.nodup_singleton _, ?_⟩
        intro x hx hx2
        simp only [List.mem_singleton] at hx2
        subst hx2
        simp only [List.mem_map] at hx
        obtain ⟨row, hrow, hEq⟩ := hx
        have := hid row hrow
        omega
      · intro row hrow hst
        rw [h] at hrow
        simp only [Table.insert, List.mem_append, List.mem_singleton] at hrow
        rcases hrow with hrow | hrow
        · exact lt_of_lt_of_le (hexp row hrow hst) hfl
        · subst hrow
          have hne : OTPStatusCreated ≠ OTPStatusExpired := by decide
          exact absurd hst hne
  | validate s userID otpCode hr ih =>
    obtain ⟨hid, hnd, hexp⟩ := ih
    obtain ⟨hfl, htab⟩ := memUsecase_Validate_effect E floor hclock userID otpCode s
    rcases htab with h | ⟨row, hrowmem, -, ⟨h, hpast⟩ | ⟨t1, h⟩⟩
    · refine ⟨?_, ?_, ?_⟩
      · rw [h]
        exact hid
      · rw [h]
        exact hnd
      · rw [h]
        intro r hr2 hst
        exact lt_of_lt_of_le (hexp r hr2 hst) hfl
    · refine ⟨?_, ?_, ?_⟩
      · rw [h]
        intro r hr2
        have hmem : r.ID ∈ (s.table.setStatus OTPStatusExpired row.ValidatedAt row.ID).rows.map
            (fun x => x.ID) := List.mem_map_of_mem _ hr2
        rw [Table.setStatus_ids] at hmem
        simp only [List.mem_map] at hmem
        obtain ⟨r0, hr0, hEq⟩ := hmem
        rw [← hEq]
        exact hid r0 hr0
      · rw [h, Table.setStatus_ids]
        exact hnd
      · rw [h]
        intro r hr2 hst
        simp only [Table.setStatus, List.mem_map] at hr2
        obtain ⟨r0, hr0, rfl⟩ := hr2
        by_cases hsame : r0.ID = row.ID
        · have hEq : r0 = row := List.inj_on_of_nodup_map hnd hr0 hrowmem hsame
          subst hEq
          simp only [if_true]
          exact hpast
        · simp only [hsame, if_false] at hst ⊢
          exact lt_of_lt_of_le (hexp r0 hr0 hst) hfl
    · refine ⟨?_, ?_, ?_⟩
      · rw [h]
        intro r hr2
        have hmem : r.ID ∈ (s.table.setStatus OTPStatusValidated (some t1) row.ID).rows.map
            (fun x => x.ID) := List.mem_map_of_mem _ hr2
        rw [Table.setStatus_ids] at hmem
        simp only [List.mem_map] at hmem
        obtain ⟨r0, hr0, hEq⟩ := hmem
        rw [← hEq]
        exact hid r0 hr0
      · rw [h, Table.setStatus_ids]
        exact hnd
      · rw [h]
        intro r hr2 hst
        simp only [Table.setStatus, List.mem_map] at hr2
        obtain ⟨r0, hr0, rfl⟩ := hr2
        by_cases hsame : r0.ID = row.ID
        · simp only [hsame, if_true] at hst
          exact absurd hst (by decide)
        · simp only [hsame, if_false] at hst ⊢
          exact lt_of_lt_of_le (hexp r0 hr0 hst) hfl

/-- C29: in every state reached from the empty table by calls of `Create` and
`Validate` under a process clock that never runs backwards, every record in
status `Expired` has `ExpiresAt` strictly before the time the clock reads now
(and so before every later reading); hence a `Validate` whose lookup finds a
record in status `Expired` fails with `ErrOTPExpired`, writes nothing and
leaves the table as it is: the record cannot be validated. -/
theorem Reachable_expired_stays_expired {ω : Type} (E : Env ω) (floor : ω → Time)
    (hclock : E.NonDecreasing floor) (s : Sys ω) (hreach : Reachable E s) :
    (∀ row ∈ s.table.rows, row.ToEntity.Status = OTPStatusExpired →
      row.ToEntity.ExpiresAt < (E.now s.env).1) ∧
    (∀ userID otpCode otp,
      ((memUsecase E).otpRepo.FindByUserIDAndCode userID otpCode s).1 = (some otp, none) →
      otp.Status = OTPStatusExpired →
      ((memUsecase E).Validate userID otpCode s).1
        = Outcome.returned none (some (GoError.domain ErrOTPExpired)) ∧
      (∀ r uerr, Event.Update r uerr ∉ ((memUsecase E).Validate userID otpCode s).2.log) ∧
      ((memUsecase E).Validate userID otpCode s).2.ext.table = s.table) := by
  obtain ⟨-, -, hexp⟩ := Reachable_expiredArePast E floor hclock s hreach
  have hcons := Reachable_consistent E s hreach
  have hrowpast : ∀ row ∈ s.table.rows, row.ToEntity.Status = OTPStatusExpired →
      row.ExpiresAt < floor s.env := by
    intro row hrow hst
    apply hexp row hrow
    have h1 : toInt8 row.Status = OTPStatusExpired := hst
    rw [toInt8_of_status row.Status (hcons row hrow).1] at h1
    exact h1
  refine ⟨?_, ?_⟩
  · intro row hrow hst
    exact lt_of_lt_of_le (hrowpast row hrow hst) (hclock.now_ge s.env)
  · intro userID otpCode otp hfind hst
    obtain ⟨row, hrowmem, rfl⟩ := memFind_row E userID otpCode s otp none hfind
    rcases hf : (memUsecase E).otpRepo.FindByUserIDAndCode userID otpCode s with ⟨fr, s1⟩
    rw [hf] at hfind
    simp only at hfind
    subst hfind
    rcases hn : (memUsecase E).timeNow s1 with ⟨t0, s2⟩
    have hfe := memFind_env E userID otpCode s
    have hft := memFind_table E userID otpCode s
    rw [show (NewOTPRepository (memDB E)).FindByUserIDAndCode userID otpCode s
      = ((some row.ToEntity, none), s1) from hf] at hfe hft
    have ht0 : t0 = (E.now s1.env).1 := by
      have := congrArg (fun x => x.1) (show memNow E s1 = (t0, s2) from hn)
      exact this.symm
    have h2t : s2.table = s1.table := by
      have := congrArg (fun x => x.2.table) (show memNow E s1 = (t0, s2) from hn)
      exact this.symm
    have hpast : row.ToEntity.ExpiresAt < t0 := by
      rw [ht0]
      refine lt_of_lt_of_le (hrowpast row hrowmem hst) ?_
      exact le_trans (le_of_le_of_eq (hclock.fault_floor _) (congrArg floor hfe.symm))
        (hclock.now_ge _)
    rw [Validate_eq_expired (memUsecase E) userID otpCode s s1 s2 row.ToEntity t0 hf hn hpast hst]
    exact ⟨rfl, by simp, h2t.trans hft⟩

theorem tickingEnv_nonDecreasing (draw : Nat) :
    (tickingEnv (3 * Minute) draw).NonDecreasing (fun t => t) := by
  refine ⟨fun e => le_refl _, fun e => ?_, fun e => le_refl _, fun _ e => le_refl _,
    fun e => le_refl _⟩
  show (e : Int) ≤ e + 3 * Minute
  have h : (0 : Int) ≤ 3 * Minute := by decide
  exact le_add_of_nonneg_right h

/-- An OTP created at `sampleNow` and found expired three minutes later: the
record is in the store in status `Expired`, and a further `Validate` reports
it expired again. -/
theorem Reachable_expired_stays_expired_witness :
    (Reachable (tickingEnv (3 * Minute) 42)
        ((memUsecase (tickingEnv (3 * Minute) 42)).Validate "alice" "000042"
          ((memUsecase (tickingEnv (3 * Minute) 42)).Create "alice"
            ⟨Table.empty, sampleNow⟩).2.ext).2.ext ∧
      ((memUsecase (tickingEnv (3 * Minute) 42)).Validate "alice" "000042"
          ((memUsecase (tickingEnv (3 * Minute) 42)).Create "alice"
            ⟨Table.empty, sampleNow⟩).2.ext).2.ext.table.rows =
        [{ ID := 1, UserID := "alice", OTPCode := "000042", Status := 3,
           CreatedAt := sampleNow, ExpiresAt := sampleNow + 2 * Minute,
           ValidatedAt := none }]) ∧
    ((memUsecase (tickingEnv (3 * Minute) 42)).Validate "alice" "000042"
        ((memUsecase (tickingEnv (3 * Minute) 42)).Validate "alice" "000042"
          ((memUsecase (tickingEnv (3 * Minute) 42)).Create "alice"
            ⟨Table.empty, sampleNow⟩).2.ext).2.ext).1
      = Outcome.returned none (some (GoError.domain ErrOTPExpired)) :=
  ⟨⟨Reachable.validate _ "alice" "000042" (Reachable.create _ "alice" (Reachable.init sampleNow)),
      by decide⟩,
    ((Reachable_expired_stays_expired (tickingEnv (3 * Minute) 42) (fun t => t)
      (tickingEnv_nonDecreasing 42) _
      (Reachable.validate _ "alice" "000042"
        (Reachable.create _ "alice" (Reachable.init sampleNow)))).2
      "alice" "000042"
      { ID := 1, UserID := "alice", OTPCode := "000042", Status := OTPStatusExpired,
        CreatedAt := sampleNow, ExpiresAt := sampleNow + 2 * Minute, ValidatedAt := none }
      (by decide) rfl).1⟩

/-! ## In-memory table: a record validates at most once -/

/-- In every reachable state the identifiers of the rows are below the next
identifier and pairwise distinct. -/
theorem Reachable_ids {ω : Type} (E : Env ω) (s : Sys ω) (hreach : Reachable E s) :
    (∀ row ∈ s.table.rows, row.ID < s.table.nextID) ∧
    (s.table.rows.map (fun row => row.ID)).Nodup := by
  induction hreach with
  | init env =>
    refine ⟨?_, ?_⟩
    · intro row hrow
      simp [Table.empty] at hrow
    · simp [Table.empty]
  | create s userID _ ih =>
    obtain ⟨hid, hnd⟩ := ih
    rcases memUsecase_Create_table E userID s with h | ⟨code, now, t, h⟩
    · rw [h]
      exact ⟨hid, hnd⟩
    · rw [h]
      refine ⟨?_, ?_⟩
      · intro row hrow
        simp only [Table.insert, List.mem_append, List.mem_singleton] at hrow
        rcases hrow with hrow | hrow
        · exact Nat.lt_succ_of_lt (hid row hrow)
        · subst hrow
          exact Nat.lt_succ_self _
      · simp only [Table.insert, List.map_append, List.map_cons, List.map_nil]
        rw [List.nodup_append]
        refine ⟨hnd, List.nodup_singleton _, ?_⟩
        intro x hx hx2
        simp only [List.mem_singleton] at hx2
        subst hx2
        simp only [List.mem_map] at hx
        obtain ⟨row, hrow, hEq⟩ := hx
        have := hid row hrow
        omega
  | validate s userID otpCode _ ih =>
    obtain ⟨hid, hnd⟩ := ih
    have hset : ∀ (st : OTPStatus) (v : Option Time) (id : Nat),
        (∀ row ∈ (s.table.setStatus st v id).rows, row.ID < (s.table.setStatus st v id).nextID) ∧
        ((s.table.setStatus st v id).rows.map (fun row => row.ID)).Nodup := by
      intro st v id
      refine ⟨?_, ?_⟩
      · intro r hr2
        have hmem : r.ID ∈ (s.table.setStatus st v id).rows.map (fun x => x.ID) :=
          List.mem_map_of_mem _ hr2
        rw [Table.setStatus_ids] at hmem
        simp only [List.mem_map] at hmem
        obtain ⟨r0, hr0, hEq⟩ := hmem
        rw [← hEq]
        exact hid r0 hr0
      · rw [Table.setStatus_ids]
        exact hnd
    rcases memUsecase_Validate_table E userID otpCode s with
      h | ⟨row, -, -, h | ⟨t1, h⟩⟩
    · rw [h]
      exact ⟨hid, hnd⟩
    · rw [h]
      exact hset _ _ _
    · rw [h]
      exact hset _ _ _

/-- When the repository's `Update` returns no error, its statement gave none. -/
theorem otpRepository_Update_fst_none {σ : Type} (db : SQLExecutor σ) (otp : OTP) (s : σ)
    (h : (otpRepository.Update db otp s).1 = none) :
    (db.ExecUpdate otp.Status otp.ValidatedAt otp.ID s).1 = none := by
  unfold otpRepository.Update at h
  rcases hq : db.ExecUpdate otp.Status otp.ValidatedAt otp.ID s with ⟨e, s1⟩
  rw [hq] at h
  cases e with
  | none => rfl
  | some err => simp at h

/-- A successful `Update` of the store sets the two columns on the table. -/
theorem memUpdate_table_ok {ω : Type} (E : Env ω) (r : OTP) (s : Sys ω)
    (h : ((NewOTPRepository (memDB E)).Update r s).1 = none) :
    ((NewOTPRepository (memDB E)).Update r s).2.table
      = s.table.setStatus r.Status r.ValidatedAt r.ID := by
  have h2 : (memUpdate E r.Status r.ValidatedAt r.ID s).1 = none :=
    otpRepository_Update_fst_none (memDB E) r s h
  show (otpRepository.Update (memDB E) r s).2.table = _
  rw [otpRepository_Update_snd]
  show (memUpdate E r.Status r.ValidatedAt r.ID s).2.table = _
  rcases hfault : (E.fault s.env).1 with _ | err
  · simp only [memUpdate, hfault]
  · simp [memUpdate, hfault] at h2

/-- Inserting a row keeps a record the table keeps. -/
theorem Table.insert_keeps (t : Table) (r : OTP) (userID otpCode : String) (status : OTPStatus)
    (createdAt expiresAt : Time) (h : t.Keeps r) :
    (t.insert userID otpCode status createdAt expiresAt).Keeps r := by
  obtain ⟨hlt, ⟨row, hrow, hid⟩, hall⟩ := h
  refine ⟨Nat.lt_succ_of_lt hlt, ⟨row, ?_, hid⟩, ?_⟩
  · simp only [Table.insert, List.mem_append, List.mem_singleton]
    exact Or.inl hrow
  · intro r0 hr0 hid0
    simp only [Table.insert, List.mem_append, List.mem_singleton] at hr0
    rcases hr0 with hr0 | hr0
    · exact hall r0 hr0 hid0
    · subst hr0
      simp only at hid0
      omega

/-- Setting the status of the rows with another identifier keeps a record the
table keeps. -/
theorem Table.setStatus_keeps (t : Table) (r : OTP) (status : OTPStatus)
    (validatedAt : Option Time) (id : Nat) (hne : id ≠ r.ID) (h : t.Keeps r) :
    (t.setStatus status validatedAt id).Keeps r := by
  obtain ⟨hlt, ⟨row, hrow, hid⟩, hall⟩ := h
  refine ⟨hlt, ⟨row, ?_, hid⟩, ?_⟩
  · simp only [Table.setStatus, List.mem_map]
    refine ⟨row, hrow, ?_⟩
    have : ¬ row.ID = id := fun hEq => hne (hEq.symm.trans hid)
    simp only [this, if_false]
  · intro r1 hr1 hid1
    simp only [Table.setStatus, List.mem_map] at hr1
    obtain ⟨r0, hr0, rfl⟩ := hr1
    by_cases hsame : r0.ID = id
    · simp only [hsame, if_true] at hid1
      exact absurd hid1 hne
    · simp only [hsame, if_false] at hid1 ⊢
      exact hall r0 hr0 hid1

/-- A record in status `Validated` that the table keeps is kept by every
further call of `Create` and `Validate`. -/
theorem ReachableFrom_keeps {ω : Type} (E : Env ω) (r : OTP)
    (hr : r.Status = OTPStatusValidated) (s s1 : Sys ω) (h : s.table.Keeps r)
    (hlater : ReachableFrom E s s1) : s1.table.Keeps r := by
  induction hlater with
  | refl => exact h
  | create s2 userID _ ih =>
    rcases memUsecase_Create_table E userID s2 with h2 | ⟨code, now, t, h2⟩
    · rw [h2]
      exact ih
    · rw [h2]
      exact Table.insert_keeps _ r _ _ _ _ _ ih
  | validate s2 userID otpCode _ ih =>
    have hne : ∀ row ∈ s2.table.rows, row.ToEntity.Status ≠ OTPStatusValidated →
        row.ID ≠ r.ID := by
      intro row hrow hnv hEq
      apply hnv
      rw [ih.2.2 row hrow hEq]
      exact hr
    rcases memUsecase_Validate_table E userID otpCode s2 with
      h2 | ⟨row, hrow, hnv, h2 | ⟨t1, h2⟩⟩
    · rw [h2]
      exact ih
    · rw [h2]
      exact Table.setStatus_keeps _ r _ _ _ (hne row hrow hnv) ih
    · rw [h2]
      exact Table.setStatus_keeps _ r _ _ _ (hne row hrow hnv) ih

/-- A successful `Validate` on a reachable state returns a record in status
`Validated` that the table keeps afterwards. -/
theorem memUsecase_Validate_writes {ω : Type} (E : Env ω) (s : Sys ω)
    (hreach : Reachable E s) (userID otpCode : String) (r : OTP)
    (hfirst : ((memUsecase E).Validate userID otpCode s).1 = Outcome.returned (some r) none) :
    r.Status = OTPStatusValidated ∧ r.ValidatedAt ≠ none ∧
    ((memUsecase E).Validate userID otpCode s).2.ext.table.Keeps r := by
  obtain ⟨hid, hnd⟩ := Reachable_ids E s hreach
  rcases Validate_cases (memUsecase E) userID otpCode s with
    ⟨found, e, s1, -, hv⟩ | ⟨s1, t0, s2, -, -, hv⟩ |
    ⟨otp, s1, t0, s2, hfind, hnow, ⟨-, hv⟩ | ⟨-, -, -, uerr, s3, -, hv⟩ | ⟨-, -, hv⟩ |
      ⟨-, -, t1, s3, uerr, s4, hnow1, hupd, hv⟩⟩
  · rw [hv] at hfirst
    simp at hfirst
  · rw [hv] at hfirst
    simp at hfirst
  · rw [hv] at hfirst
    simp at hfirst
  · rw [hv] at hfirst
    simp at hfirst
  · rw [hv] at hfirst
    simp at hfirst
  · rw [hv] at hfirst
    cases uerr with
    | some err => simp [Option.elim] at hfirst
    | none =>
      simp only [Option.elim, Outcome.returned.injEq, Option.some.injEq, and_true] at hfirst
      subst hfirst
      rw [hv]
      refine ⟨rfl, by simp, ?_⟩
      obtain ⟨row, hrow, rfl⟩ := memFind_row E userID otpCode s otp none (by
        rw [show (NewOTPRepository (memDB E)).FindByUserIDAndCode userID otpCode s
          = ((some otp, none), s1) from hfind])
      have h1 := memFind_table E userID otpCode s
      rw [show (NewOTPRepository (memDB E)).FindByUserIDAndCode userID otpCode s
        = ((some row.ToEntity, none), s1) from hfind] at h1
      have h2 := memNow_table E s1
      rw [show memNow E s1 = (t0, s2) from hnow] at h2
      have h23 := memNow_table E s2
      rw [show memNow E s2 = (t1, s3) from hnow1] at h23
      have h3 := memUpdate_table_ok E
        { row.ToEntity with Status := OTPStatusValidated, ValidatedAt := some t1 } s3
        (by rw [show (NewOTPRepository (memDB E)).Update
          { row.ToEntity with Status := OTPStatusValidated, ValidatedAt := some t1 } s3
            = (none, s4) from hupd])
      rw [show (NewOTPRepository (memDB E)).Update
        { row.ToEntity with Status := OTPStatusValidated, ValidatedAt := some t1 } s3
          = (none, s4) from hupd] at h3
      have h4 : s4.table = s.table.setStatus OTPStatusValidated (some t1) row.ID := by
        rw [← h1, ← h2, ← h23]
        exact h3
      show s4.table.Keeps _
      rw [h4]
      refine ⟨hid row hrow, ⟨{ row with Status := OTPStatusValidated, ValidatedAt := some t1 },
        ?_, rfl⟩, ?_⟩
      · simp only [Table.setStatus, List.mem_map]
        exact ⟨row, hrow, by simp⟩
      · intro r1 hr1 hid1
        simp only [Table.setStatus, List.mem_map] at hr1
        obtain ⟨r0, hr0, rfl⟩ := hr1
        by_cases hsame : r0.ID = row.ID
        · have hEq : r0 = row := List.inj_on_of_nodup_map hnd hr0 hrow hsame
          subst hEq
          simp only [if_true]
          rfl
        · simp only [hsame, if_false] at hid1
          exact absurd hid1 hsame

/-- C16: on the store, for every record `r` that a successful `Validate` has
returned from a reachable state: the store holds `r` as written, in status
`Validated`; after any further calls of `Create` and `Validate`, at whatever
clock readings, the store still holds a row with the identifier of `r` and
every such row reads as `r`; a `Validate` whose lookup then finds the record
with that identifier fails with `ErrOTPUsed`, makes no `Update` and leaves the
table as it is; and no later `Validate` succeeds on that record: the OTP
validates at most once in a sequential run. -/
theorem Validate_at_most_once {ω : Type} (E : Env ω) (s : Sys ω) (hreach : Reachable E s)
    (userID otpCode : String) (r : OTP)
    (hfirst : ((memUsecase E).Validate userID otpCode s).1 = Outcome.returned (some r) none)
    (s1 : Sys ω)
    (hlater : ReachableFrom E ((memUsecase E).Validate userID otpCode s).2.ext s1) :
    r.Status = OTPStatusValidated ∧ r.ValidatedAt ≠ none ∧
    (∃ row ∈ ((memUsecase E).Validate userID otpCode s).2.ext.table.rows, row.ToEntity = r) ∧
    (∃ row ∈ s1.table.rows, row.ID = r.ID) ∧
    (∀ row ∈ s1.table.rows, row.ID = r.ID → row.ToEntity = r) ∧
    (∀ userID2 otpCode2 otp2,
      ((memUsecase E).otpRepo.FindByUserIDAndCode userID2 otpCode2 s1).1 = (some otp2, none) →
      otp2.ID = r.ID →
      ((memUsecase E).Validate userID2 otpCode2 s1).1
        = Outcome.returned none (some (GoError.domain ErrOTPUsed)) ∧
      (∀ x uerr, Event.Update x uerr ∉ ((memUsecase E).Validate userID2 otpCode2 s1).2.log) ∧
      ((memUsecase E).Validate userID2 otpCode2 s1).2.ext.table = s1.table) ∧
    (∀ userID2 otpCode2 r2,
      ((memUsecase E).Validate userID2 otpCode2 s1).1 = Outcome.returned (some r2) none →
      r2.ID ≠ r.ID) := by
  obtain ⟨hst, hva, hkeep0⟩ := memUsecase_Validate_writes E s hreach userID otpCode r hfirst
  have hkeep := ReachableFrom_keeps E r hst _ s1 hkeep0 hlater
  have hsecond : ∀ userID2 otpCode2 otp2,
      ((memUsecase E).otpRepo.FindByUserIDAndCode userID2 otpCode2 s1).1 = (some otp2, none) →
      otp2.ID = r.ID →
      ((memUsecase E).Validate userID2 otpCode2 s1).1
        = Outcome.returned none (some (GoError.domain ErrOTPUsed)) ∧
      (∀ x uerr, Event.Update x uerr ∉ ((memUsecase E).Validate userID2 otpCode2 s1).2.log) ∧
      ((memUsecase E).Validate userID2 otpCode2 s1).2.ext.table = s1.table := by
    intro userID2 otpCode2 otp2 hfind hid2
    obtain ⟨row, hrow, rfl⟩ := memFind_row E userID2 otpCode2 s1 otp2 none hfind
    have hrr : row.ToEntity = r := hkeep.2.2 row hrow hid2
    rcases hf : (memUsecase E).otpRepo.FindByUserIDAndCode userID2 otpCode2 s1 with ⟨fr, s2⟩
    rw [hf] at hfind
    simp only at hfind
    subst hfind
    rcases hn : (memUsecase E).timeNow s2 with ⟨t0, s3⟩
    have hft := memFind_table E userID2 otpCode2 s1
    rw [show (NewOTPRepository (memDB E)).FindByUserIDAndCode userID2 otpCode2 s1
      = ((some row.ToEntity, none), s2) from hf] at hft
    have h3t : s3.table = s2.table := by
      have := congrArg (fun x => x.2.table) (show memNow E s2 = (t0, s3) from hn)
      exact this.symm
    rw [Validate_eq_used (memUsecase E) userID2 otpCode2 s1 s2 s3 row.ToEntity t0 hf hn
      (by rw [hrr]; exact hst)]
    exact ⟨rfl, by simp, h3t.trans hft⟩
  refine ⟨hst, hva, ?_, hkeep.2.1, hkeep.2.2, hsecond, ?_⟩
  · obtain ⟨row, hrow, hid0⟩ := hkeep0.2.1
    exact ⟨row, hrow, hkeep0.2.2 row hrow hid0⟩
  · intro userID2 otpCode2 r2 hok hid2
    rcases Validate_cases (memUsecase E) userID2 otpCode2 s1 with
      ⟨found, e, s2, -, hv⟩ | ⟨s2, t0, s3, -, -, hv⟩ |
      ⟨otp, s2, t0, s3, hfind, -, ⟨-, hv⟩ | ⟨-, -, -, uerr, s4, -, hv⟩ | ⟨-, -, hv⟩ |
        ⟨-, -, t1, s4, uerr, s5, -, -, hv⟩⟩
    · rw [hv] at hok
      simp at hok
    · rw [hv] at hok
      simp at hok
    · rw [hv] at hok
      simp at hok
    · rw [hv] at hok
      simp at hok
    · rw [hv] at hok
      simp at hok
    · have hused := (hsecond userID2 otpCode2 otp (by rw [hfind]) (by
        rw [hv] at hok
        cases uerr with
        | some err => simp [Option.elim] at hok
        | none =>
          simp only [Option.elim, Outcome.returned.injEq, Option.some.injEq, and_true] at hok
          rw [← hid2, ← hok])).1
      rw [hused] at hok
      simp at hok

/-- An OTP created and validated at `sampleNow`; a second OTP is then requested
for another user; a later `Validate` of the first finds it and is refused with
`ErrOTPUsed`. -/
theorem Validate_at_most_once_witness :
    (((memUsecase (scriptedEnv [sampleNow] 42)).Validate "alice" "000042"
        ((memUsecase (scriptedEnv [sampleNow] 42)).Create "alice" ⟨Table.empty, 0⟩).2.ext).1
      = Outcome.returned
        (some { ID := 1, UserID := "alice", OTPCode := "000042", Status := OTPStatusValidated,
                CreatedAt := sampleNow, ExpiresAt := sampleNow + 2 * Minute,
                ValidatedAt := some sampleNow }) none) ∧
    ((memUsecase (scriptedEnv [sampleNow] 42)).Validate "alice" "000042"
        ((memUsecase (scriptedEnv [sampleNow] 42)).Create "bob"
          ((memUsecase (scriptedEnv [sampleNow] 42)).Validate "alice" "000042"
            ((memUsecase (scriptedEnv [sampleNow] 42)).Create "alice"
              ⟨Table.empty, 0⟩).2.ext).2.ext).2.ext).1
      = Outcome.returned none (some (GoError.domain ErrOTPUsed)) :=
  ⟨by decide,
    ((Validate_at_most_once (scriptedEnv [sampleNow] 42) _
      (Reachable.create _ "alice" (Reachable.init 0)) "alice" "000042"
      { ID := 1, UserID := "alice", OTPCode := "000042", Status := OTPStatusValidated,
        CreatedAt := sampleNow, ExpiresAt := sampleNow + 2 * Minute,
        ValidatedAt := some sampleNow }
      (by decide) _
      (ReachableFrom.create _ "bob" ReachableFrom.refl)).2.2.2.2.2.1
      "alice" "000042"
      { ID := 1, UserID := "alice", OTPCode := "000042", Status := OTPStatusValidated,
        CreatedAt := sampleNow, ExpiresAt := sampleNow + 2 * Minute,
        ValidatedAt := some sampleNow }
      (by decide) rfl).1⟩

end OtpService
